import Mathlib

/-!
# Arrow chunk iterator: batch/row state machine and converter factory

A shallow embedding of `CArrowChunkIterator.cpp` and `BinaryConverter.cpp`
(snowflake-connector-python, `src/snowflake/connector/cpp/ArrowIterator`).

Conventions of the embedding

* A `PyObject*` is an `Option`: `none` is `nullptr`.
* The CPython error indicator (`PyErr_SetString`, `py::checkPyError`,
  `PyErr_Fetch`, `PyErr_Clear`) is the field `pyErr` of the iterator state.
* A function whose C++ body can leave by a C++ exception (`std::stoi`) or
  run into behaviour the language leaves undefined (an index outside a
  `std::vector`, a null dereference) returns `Except Abort _`.
* The counters `m_currentBatchIndex`, `m_rowIndexInBatch`, `m_rowCountInBatch`,
  `m_batchCount`, `m_columnCount` are declared in `CArrowChunkIterator.hpp`,
  which is not among the sources; they are integers here and the embedding
  describes executions in which they do not overflow.
* The metadata of a field is the ordered list of its key/value pairs. The
  arrow side (`metaData->value(...)`) hands out the values as strings; the
  nanoarrow side reads the buffer of the Arrow C data interface, in which a
  value is followed directly by the length of the next key (`encodePairs`).
* The field `calls` of the iterator state is instrumentation: it records the
  calls of `initColumnConverters`, `createRowPyObject` and
  `IColumnConverter::toPyObject` made so far and is read by no operation.
-/

namespace sf

/-! ## Arrow and Snowflake type tags -/

/-- Physical storage kinds: the `ArrowType` enumeration of `nanoarrow.h`.
The iterator reads it through `nanoarrowColumnSchemaView.type`; for
TIMESTAMP_LTZ it reads the same kind through `dt->id()`. -/
inductive ArrowType
  | NANOARROW_TYPE_UNINITIALIZED
  | NANOARROW_TYPE_NA
  | NANOARROW_TYPE_BOOL
  | NANOARROW_TYPE_UINT8
  | NANOARROW_TYPE_INT8
  | NANOARROW_TYPE_UINT16
  | NANOARROW_TYPE_INT16
  | NANOARROW_TYPE_UINT32
  | NANOARROW_TYPE_INT32
  | NANOARROW_TYPE_UINT64
  | NANOARROW_TYPE_INT64
  | NANOARROW_TYPE_HALF_FLOAT
  | NANOARROW_TYPE_FLOAT
  | NANOARROW_TYPE_DOUBLE
  | NANOARROW_TYPE_STRING
  | NANOARROW_TYPE_BINARY
  | NANOARROW_TYPE_FIXED_SIZE_BINARY
  | NANOARROW_TYPE_DATE32
  | NANOARROW_TYPE_DATE64
  | NANOARROW_TYPE_TIMESTAMP
  | NANOARROW_TYPE_TIME32
  | NANOARROW_TYPE_TIME64
  | NANOARROW_TYPE_INTERVAL_MONTHS
  | NANOARROW_TYPE_INTERVAL_DAY_TIME
  | NANOARROW_TYPE_DECIMAL128
  | NANOARROW_TYPE_DECIMAL256
  | NANOARROW_TYPE_LIST
  | NANOARROW_TYPE_STRUCT
  | NANOARROW_TYPE_SPARSE_UNION
  | NANOARROW_TYPE_DENSE_UNION
  | NANOARROW_TYPE_DICTIONARY
  | NANOARROW_TYPE_MAP
  | NANOARROW_TYPE_EXTENSION
  | NANOARROW_TYPE_FIXED_SIZE_LIST
  | NANOARROW_TYPE_DURATION
  | NANOARROW_TYPE_LARGE_STRING
  | NANOARROW_TYPE_LARGE_BINARY
  | NANOARROW_TYPE_LARGE_LIST
  | NANOARROW_TYPE_INTERVAL_MONTH_DAY_NANO
  deriving DecidableEq, Repr

/-- The enumeration `SnowflakeType::Type`. The enumerators named by the switch
of `initColumnConverters` are listed by name; `UNKNOWN` and `OTHER n` stand for
the enumerators of `SnowflakeType.hpp` (not among the sources) that the switch
does not name. -/
inductive SnowflakeType
  | ANY
  | ARRAY
  | BINARY
  | BOOLEAN
  | CHAR
  | DATE
  | FIXED
  | OBJECT
  | REAL
  | TEXT
  | TIME
  | TIMESTAMP_LTZ
  | TIMESTAMP_NTZ
  | TIMESTAMP_TZ
  | VARIANT
  | UNKNOWN
  | OTHER (n : Nat)
  deriving DecidableEq, Repr

/-! ## Host objects -/

/-- Host objects that a converter hands back for one cell. `Object n` stands
for any object built by a converter whose source is not in the repository
slice (integers, decimals, dates, strings, ...). -/
inductive PyValue
  | None
  | ByteArray (bytes : List Nat)
  | Object (n : Nat)
  deriving DecidableEq, Repr

/-- Host objects that `next()` hands back: `Py_None`, the tuple built by
`PyTuple_New`/`PyTuple_SET_ITEM` (a slot holds a pointer, possibly
`nullptr`), and the dictionary built by `PyDict_New`/`PyDict_SetItemString`. -/
inductive PyObject
  | Py_None
  | Tuple (items : List (Option PyValue))
  | Dict (items : List (String × PyValue))
  deriving DecidableEq, Repr

/-- Python exceptions raised on the paths of the two source files. -/
inductive PyException
  | ArrowArrayViewInitFromSchema_failure
  | ArrowArrayViewSetArray_failure
  | unknown_arrow_type (logical : String) (dt : ArrowType)
  | unknown_snowflake_type (name : String)
  | SystemError
  | raised (n : Nat)
  deriving DecidableEq, Repr

/-- Ways a C++ call can end without returning. -/
inductive Abort
  | invalid_argument
  | out_of_range
  | undefined
  deriving DecidableEq, Repr

deriving instance DecidableEq for Except

/-- What a call that returns `PyObject*` leaves behind: the pointer and the
exception it raised, if any. -/
structure PyResult where
  obj : Option PyValue
  err : Option PyException
  deriving DecidableEq, Repr

/-- The pair built by `std::make_shared<ReturnVal>(successObj, exception)`. -/
structure ReturnVal where
  successObj : Option PyObject
  exception : Option PyException
  deriving DecidableEq, Repr

/-! ## Columns and batches -/

/-- The three buffers of a nanoarrow array view: validity bitmap (absent when
the array carries none), offsets, data bytes. -/
structure ArrowArrayView where
  validity : Option (List Bool)
  offsets : List Int
  data : List Nat
  deriving DecidableEq, Repr

/-- The view returned by `ArrowArrayViewGetStringUnsafe`: start position in
the data buffer and length. -/
structure ArrowStringView where
  data : Int
  size_bytes : Int
  deriving DecidableEq, Repr

/-- A schema field: name, physical type and key/value metadata.
`metadata = none` is a field without metadata (`metadata == nullptr` on the
nanoarrow side, a null `metaData` on the arrow side). -/
structure Field where
  name : String
  type : ArrowType
  metadata : Option (List (String × String))
  deriving DecidableEq, Repr

/-- One column of a record batch with its schema field. `viewInitOk` and
`setArrayOk` say whether `ArrowArrayViewInitFromSchema` and
`ArrowArrayViewSetArray` return `NANOARROW_OK` on it. -/
structure Column where
  field : Field
  array : ArrowArrayView
  viewInitOk : Bool
  setArrayOk : Bool
  deriving DecidableEq, Repr

/-- An `arrow::RecordBatch`: `num_rows()` and the columns in order. -/
structure RecordBatch where
  num_rows : Int
  columns : List Column
  deriving DecidableEq, Repr

/-- The function `RecordBatch::num_columns()`. -/
def RecordBatch.num_columns (b : RecordBatch) : Int := b.columns.length

/-- The function `RecordBatch::schema()`: the fields of the columns. -/
def RecordBatch.schema (b : RecordBatch) : List Field := b.columns.map (fun c => c.field)

/-! ## Converters -/

/-- The converter classes the factory instantiates, with the integer
arguments of their constructors (the context pointer `m_context` is the same
for all of them and is left out). -/
inductive ConverterKind
  | NumpyDecimalConverter (precision scale : Int)
  | DecimalFromIntConverter (precision scale : Int)
  | NumpyIntConverter
  | IntConverter
  | DecimalFromDecimalConverter (scale : Int)
  | StringConverter
  | BooleanConverter
  | NumpyFloat64Converter
  | FloatConverter
  | NumpyDateConverter
  | DateConverter
  | BinaryConverter
  | TimeConverter (scale : Int)
  | NumpyOneFieldTimeStampNTZConverter (scale : Int)
  | OneFieldTimeStampNTZConverter (scale : Int)
  | NumpyTwoFieldTimeStampNTZConverter (scale : Int)
  | TwoFieldTimeStampNTZConverter (scale : Int)
  | OneFieldTimeStampLTZConverter (scale : Int)
  | TwoFieldTimeStampLTZConverter (scale : Int)
  | TwoFieldTimeStampTZConverter (scale : Int)
  | ThreeFieldTimeStampTZConverter (scale : Int)
  deriving DecidableEq, Repr

/-- An `IColumnConverter`: its class and the array it was constructed on. -/
structure IColumnConverter where
  kind : ConverterKind
  m_array : ArrowArrayView
  deriving DecidableEq, Repr

/-- What the two source files use and do not define: the logical type
registry `SnowflakeType::snowflakeTypeFromString` and the `toPyObject` of every
converter class other than `BinaryConverter`. -/
structure Externals where
  snowflakeTypeFromString : String → SnowflakeType
  toPyObject : ConverterKind → ArrowArrayView → Int → PyResult

/-! ## BinaryConverter.cpp -/

/-- The nanoarrow call `ArrowArrayViewIsNull`:
`validity_buffer != NULL && !ArrowBitGet(validity_buffer, i)`. -/
def ArrowArrayViewIsNull (a : ArrowArrayView) (i : Int) : Bool :=
  match a.validity with
  | none => false
  | some bits => !(bits.getD i.toNat false)

/-- The nanoarrow call `ArrowArrayViewGetStringUnsafe`: the view
`(data + offsets[i], offsets[i+1] - offsets[i])`. -/
def ArrowArrayViewGetStringUnsafe (a : ArrowArrayView) (i : Int) : ArrowStringView :=
  { data := a.offsets.getD i.toNat 0
    size_bytes := a.offsets.getD (i.toNat + 1) 0 - a.offsets.getD i.toNat 0 }

/-- The CPython call `PyByteArray_FromStringAndSize(p, n)`: a fresh bytearray
holding the `n` bytes at `p`; a negative `n` raises `SystemError` and returns
`NULL`. -/
def PyByteArray_FromStringAndSize (mem : List Nat) (p n : Int) : PyResult :=
  if n < 0 then { obj := none, err := some PyException.SystemError }
  else { obj := some (PyValue.ByteArray ((List.range n.toNat).map (fun k => mem.getD (p.toNat + k) 0)))
         err := none }

/-- The method `BinaryConverter::toPyObject` (BinaryConverter.cpp, 17-24). -/
def BinaryConverter.toPyObject (m_array : ArrowArrayView) (rowIndex : Int) : PyResult :=
  if ArrowArrayViewIsNull m_array rowIndex then
    { obj := some PyValue.None, err := none }
  else
    let stringView := ArrowArrayViewGetStringUnsafe m_array rowIndex
    PyByteArray_FromStringAndSize m_array.data stringView.data stringView.size_bytes

/-- Virtual dispatch of `IColumnConverter::toPyObject`. -/
def IColumnConverter.toPyObject (env : Externals) (c : IColumnConverter) (rowIndex : Int) :
    PyResult :=
  match c.kind with
  | ConverterKind.BinaryConverter => BinaryConverter.toPyObject c.m_array rowIndex
  | k => env.toPyObject k c.m_array rowIndex

/-! ## Metadata -/

/-- The C function `isspace` in the "C" locale. -/
def isspace (c : Char) : Bool :=
  c = ' ' || c = '\t' || c = '\n' || c = '\r' || c.toNat = 11 || c.toNat = 12

/-- Value of the longest prefix of decimal digits, continuing from `acc`. -/
def stoiDigits : List Char → Nat → Nat
  | [], acc => acc
  | c :: cs, acc => if c.isDigit then stoiDigits cs (acc * 10 + (c.toNat - 48)) else acc

/-- The part of `std::stoi` after white space and sign. -/
def stoiBody (cs : List Char) (neg : Bool) : Except Abort Int :=
  match cs with
  | [] => Except.error Abort.invalid_argument
  | c :: _ =>
    if c.isDigit then
      let v : Int := if neg then -(stoiDigits cs 0 : Int) else (stoiDigits cs 0 : Int)
      if -2147483648 ≤ v ∧ v ≤ 2147483647 then Except.ok v else Except.error Abort.out_of_range
    else Except.error Abort.invalid_argument

/-- The C++ library function `std::stoi` (base 10, 32-bit `int`): skips white
space, reads an optional sign and the longest run of digits, ignores what
follows; throws `std::invalid_argument` when there is no digit and
`std::out_of_range` when the value does not fit. -/
def stoi (s : String) : Except Abort Int :=
  match s.data.dropWhile isspace with
  | '-' :: cs => stoiBody cs true
  | '+' :: cs => stoiBody cs false
  | cs => stoiBody cs false

/-- Parse the value that arrow metadata stores under `key`, as
`std::stoi(metaData->value(metaData->FindKey(key)))` does (TIMESTAMP_LTZ and
TIMESTAMP_TZ, lines 382-384 and 419-425): the argument is the `std::string` of
the value. When the key is missing `FindKey` yields `-1` and `value(-1)` is
undefined. -/
def stoiKey (md : List (String × String)) (key : String) : Except Abort Int :=
  match md.lookup key with
  | none => Except.error Abort.undefined
  | some v => stoi v

/-- The four bytes of a 32-bit length in the metadata buffer of the Arrow C
data interface: the byte order of the host, least significant byte first. A
byte is written as the character of that code. -/
def int32Bytes (n : Nat) : List Char :=
  [Char.ofNat (n % 256), Char.ofNat (n / 256 % 256), Char.ofNat (n / 65536 % 256),
    Char.ofNat (n / 16777216 % 256)]

/-- The pairs of a metadata buffer in the layout of the Arrow C data
interface (after the leading pair count): for each pair the length of the key,
the key, the length of the value, the value. Nothing terminates a key or a
value. A character outside ASCII stands for the bytes of its UTF-8 form, none
of which is a digit, a sign, white space or NUL. -/
def encodePairs : List (String × String) → List Char
  | [] => []
  | (k, v) :: rest =>
    int32Bytes k.utf8ByteSize ++ k.data ++ int32Bytes v.utf8ByteSize ++ v.data ++ encodePairs rest

/-- The nanoarrow call `ArrowMetadataGetValue(metadata, key, &view)`: the view
`(data, size_bytes)` of the value of the first pair stored under `key`,
given here as the value together with the bytes that follow it in the buffer.
`none` when no pair has that key: the call then leaves the view as it was,
and every caller passes an uninitialised one. -/
def ArrowMetadataGetValue : List (String × String) → String → Option (String × List Char)
  | [], _ => none
  | (k, v) :: rest, key =>
    if k = key then some (v, encodePairs rest) else ArrowMetadataGetValue rest key

/-- The C string that starts at `view.data`: the bytes of the value and the
bytes that follow it in the buffer, up to the first NUL. The buffer that
`arrow::ExportSchema` hands out is the storage of a `std::string`, so a NUL
follows its last byte. -/
def cString (view : String × List Char) : String :=
  String.mk ((view.1.data ++ view.2).takeWhile (fun c => c != Char.ofNat 0))

/-- Parse the value that the nanoarrow buffer stores under `key`, as
`std::stoi(scaleString.data)` does after `ArrowMetadataGetValue` (FIXED, TIME
and TIMESTAMP_NTZ, lines 161-164, 293-295 and 326-328): the argument is a
`const char*`, so `std::stoi` receives the C string that starts at the value
and does not end with it. When the key is missing the view is uninitialised
and the behaviour is undefined. -/
def stoiData (md : List (String × String)) (key : String) : Except Abort Int :=
  match ArrowMetadataGetValue md key with
  | none => Except.error Abort.undefined
  | some view => stoi (cString view)

/-- The string handed to `snowflakeTypeFromString`: the value under
`logicalType`, and the empty string when the field has no metadata or no such
key. -/
def logicalTypeString (metadata : Option (List (String × String))) : String :=
  match metadata with
  | none => ""
  | some md => (md.lookup "logicalType").getD ""

/-! ## CArrowChunkIterator.cpp: the converter factory -/

/-- Outcome of the switch of `initColumnConverters` for one column: a
converter is pushed on `m_currentBatchConverters` and the loop goes on
(`break`), or an error is set with `PyErr_SetString` and the function
returns. -/
inductive ColumnInit
  | push (c : IColumnConverter)
  | fail (e : PyException)
  deriving DecidableEq, Repr

/-- The body of the macro `_SF_INIT_FIXED_CONVERTER` (lines 169-203). -/
def SF_INIT_FIXED_CONVERTER (m_useNumpy : Bool) (precision scale : Int) : ConverterKind :=
  if scale > 0 then
    if m_useNumpy then ConverterKind.NumpyDecimalConverter precision scale
    else ConverterKind.DecimalFromIntConverter precision scale
  else
    if m_useNumpy then ConverterKind.NumpyIntConverter
    else ConverterKind.IntConverter

/-- The integer read by `metaData ? std::stoi(metaData->value(...)) : dflt`
(TIMESTAMP_LTZ, TIMESTAMP_TZ). -/
def metaInt (metadata : Option (List (String × String))) (key : String) (dflt : Int) :
    Except Abort Int :=
  match metadata with
  | none => Except.ok dflt
  | some md => stoiKey md key

/-- The integer read by `if (metadata != nullptr) x = std::stoi(view.data)` with
`x` initialised to `dflt` (FIXED, TIME, TIMESTAMP_NTZ). -/
def metaIntData (metadata : Option (List (String × String))) (key : String) (dflt : Int) :
    Except Abort Int :=
  match metadata with
  | none => Except.ok dflt
  | some md => stoiData md key

/-- The `FIXED` case (lines 154-231). -/
def initFIXED (m_useNumpy : Bool) (col : Column) : Except Abort ColumnInit :=
  match metaIntData col.field.metadata "scale" 0 with
  | Except.error a => Except.error a
  | Except.ok scale =>
    match metaIntData col.field.metadata "precision" 38 with
    | Except.error a => Except.error a
    | Except.ok precision =>
      match col.field.type with
      | ArrowType.NANOARROW_TYPE_INT8 =>
        Except.ok (ColumnInit.push ⟨SF_INIT_FIXED_CONVERTER m_useNumpy precision scale, col.array⟩)
      | ArrowType.NANOARROW_TYPE_INT16 =>
        Except.ok (ColumnInit.push ⟨SF_INIT_FIXED_CONVERTER m_useNumpy precision scale, col.array⟩)
      | ArrowType.NANOARROW_TYPE_INT32 =>
        Except.ok (ColumnInit.push ⟨SF_INIT_FIXED_CONVERTER m_useNumpy precision scale, col.array⟩)
      | ArrowType.NANOARROW_TYPE_INT64 =>
        Except.ok (ColumnInit.push ⟨SF_INIT_FIXED_CONVERTER m_useNumpy precision scale, col.array⟩)
      | ArrowType.NANOARROW_TYPE_DECIMAL128 =>
        Except.ok (ColumnInit.push ⟨ConverterKind.DecimalFromDecimalConverter scale, col.array⟩)
      | dt => Except.ok (ColumnInit.fail (PyException.unknown_arrow_type "FIXED" dt))

/-- The `TIME` case (lines 289-320). -/
def initTIME (col : Column) : Except Abort ColumnInit :=
  match metaIntData col.field.metadata "scale" 9 with
  | Except.error a => Except.error a
  | Except.ok scale =>
    match col.field.type with
    | ArrowType.NANOARROW_TYPE_INT32 =>
      Except.ok (ColumnInit.push ⟨ConverterKind.TimeConverter scale, col.array⟩)
    | ArrowType.NANOARROW_TYPE_INT64 =>
      Except.ok (ColumnInit.push ⟨ConverterKind.TimeConverter scale, col.array⟩)
    | dt => Except.ok (ColumnInit.fail (PyException.unknown_arrow_type "TIME" dt))

/-- The `TIMESTAMP_NTZ` case (lines 322-378). -/
def initTIMESTAMP_NTZ (m_useNumpy : Bool) (col : Column) : Except Abort ColumnInit :=
  match metaIntData col.field.metadata "scale" 9 with
  | Except.error a => Except.error a
  | Except.ok scale =>
    match col.field.type with
    | ArrowType.NANOARROW_TYPE_INT64 =>
      if m_useNumpy then
        Except.ok (ColumnInit.push ⟨ConverterKind.NumpyOneFieldTimeStampNTZConverter scale, col.array⟩)
      else
        Except.ok (ColumnInit.push ⟨ConverterKind.OneFieldTimeStampNTZConverter scale, col.array⟩)
    | ArrowType.NANOARROW_TYPE_STRUCT =>
      if m_useNumpy then
        Except.ok (ColumnInit.push ⟨ConverterKind.NumpyTwoFieldTimeStampNTZConverter scale, col.array⟩)
      else
        Except.ok (ColumnInit.push ⟨ConverterKind.TwoFieldTimeStampNTZConverter scale, col.array⟩)
    | dt => Except.ok (ColumnInit.fail (PyException.unknown_arrow_type "TIMESTAMP_NTZ" dt))

/-- The `TIMESTAMP_LTZ` case (lines 380-415). -/
def initTIMESTAMP_LTZ (col : Column) : Except Abort ColumnInit :=
  match metaInt col.field.metadata "scale" 9 with
  | Except.error a => Except.error a
  | Except.ok scale =>
    match col.field.type with
    | ArrowType.NANOARROW_TYPE_INT64 =>
      Except.ok (ColumnInit.push ⟨ConverterKind.OneFieldTimeStampLTZConverter scale, col.array⟩)
    | ArrowType.NANOARROW_TYPE_STRUCT =>
      Except.ok (ColumnInit.push ⟨ConverterKind.TwoFieldTimeStampLTZConverter scale, col.array⟩)
    | dt => Except.ok (ColumnInit.fail (PyException.unknown_arrow_type "TIMESTAMP_LTZ" dt))

/-- The `TIMESTAMP_TZ` case (lines 417-457). -/
def initTIMESTAMP_TZ (col : Column) : Except Abort ColumnInit :=
  match metaInt col.field.metadata "scale" 9 with
  | Except.error a => Except.error a
  | Except.ok scale =>
    match metaInt col.field.metadata "byteLength" 16 with
    | Except.error a => Except.error a
    | Except.ok byteLength =>
      if byteLength = 8 then
        Except.ok (ColumnInit.push ⟨ConverterKind.TwoFieldTimeStampTZConverter scale, col.array⟩)
      else if byteLength = 16 then
        Except.ok (ColumnInit.push ⟨ConverterKind.ThreeFieldTimeStampTZConverter scale, col.array⟩)
      else
        Except.ok (ColumnInit.fail (PyException.unknown_arrow_type "TIMESTAMP_TZ" col.field.type))

/-- The `default` case of the outer switch (lines 459-467): the message reads
`metaData->value(metaData->FindKey("logicalType"))`, which dereferences a null
`metaData` when the field has no metadata and indexes at `-1` when the key is
missing. -/
def initDefault (col : Column) : Except Abort ColumnInit :=
  match col.field.metadata with
  | none => Except.error Abort.undefined
  | some md =>
    match md.lookup "logicalType" with
    | none => Except.error Abort.undefined
    | some name => Except.ok (ColumnInit.fail (PyException.unknown_snowflake_type name))

/-- The switch on the logical type for one column (lines 145-468). -/
def initColumn (env : Externals) (m_useNumpy : Bool) (col : Column) : Except Abort ColumnInit :=
  match env.snowflakeTypeFromString (logicalTypeString col.field.metadata) with
  | SnowflakeType.FIXED => initFIXED m_useNumpy col
  | SnowflakeType.ANY => Except.ok (ColumnInit.push ⟨ConverterKind.StringConverter, col.array⟩)
  | SnowflakeType.CHAR => Except.ok (ColumnInit.push ⟨ConverterKind.StringConverter, col.array⟩)
  | SnowflakeType.OBJECT => Except.ok (ColumnInit.push ⟨ConverterKind.StringConverter, col.array⟩)
  | SnowflakeType.VARIANT => Except.ok (ColumnInit.push ⟨ConverterKind.StringConverter, col.array⟩)
  | SnowflakeType.TEXT => Except.ok (ColumnInit.push ⟨ConverterKind.StringConverter, col.array⟩)
  | SnowflakeType.ARRAY => Except.ok (ColumnInit.push ⟨ConverterKind.StringConverter, col.array⟩)
  | SnowflakeType.BOOLEAN => Except.ok (ColumnInit.push ⟨ConverterKind.BooleanConverter, col.array⟩)
  | SnowflakeType.REAL =>
    if m_useNumpy then Except.ok (ColumnInit.push ⟨ConverterKind.NumpyFloat64Converter, col.array⟩)
    else Except.ok (ColumnInit.push ⟨ConverterKind.FloatConverter, col.array⟩)
  | SnowflakeType.DATE =>
    if m_useNumpy then Except.ok (ColumnInit.push ⟨ConverterKind.NumpyDateConverter, col.array⟩)
    else Except.ok (ColumnInit.push ⟨ConverterKind.DateConverter, col.array⟩)
  | SnowflakeType.BINARY => Except.ok (ColumnInit.push ⟨ConverterKind.BinaryConverter, col.array⟩)
  | SnowflakeType.TIME => initTIME col
  | SnowflakeType.TIMESTAMP_NTZ => initTIMESTAMP_NTZ m_useNumpy col
  | SnowflakeType.TIMESTAMP_LTZ => initTIMESTAMP_LTZ col
  | SnowflakeType.TIMESTAMP_TZ => initTIMESTAMP_TZ col
  | SnowflakeType.UNKNOWN => initDefault col
  | SnowflakeType.OTHER _ => initDefault col

/-- The error indicator after the two nanoarrow checks of one loop round
(lines 132-144): each failing call sets an error and the loop carries on. -/
def arrayViewChecks (col : Column) (pyErr : Option PyException) : Option PyException :=
  let e1 := if col.viewInitOk then pyErr else some PyException.ArrowArrayViewInitFromSchema_failure
  if col.setArrayOk then e1 else some PyException.ArrowArrayViewSetArray_failure

/-- The loop `for (int i = 0; i < currentBatch->num_columns(); i++)` of
`initColumnConverters` over the columns still to visit, from the roster built
so far and the current error indicator. -/
def initColumns (env : Externals) (m_useNumpy : Bool) :
    List Column → List IColumnConverter → Option PyException →
    Except Abort (List IColumnConverter × Option PyException)
  | [], roster, pyErr => Except.ok (roster, pyErr)
  | col :: rest, roster, pyErr =>
    match initColumn env m_useNumpy col with
    | Except.error a => Except.error a
    | Except.ok (ColumnInit.push c) =>
      initColumns env m_useNumpy rest (roster ++ [c]) (arrayViewChecks col pyErr)
    | Except.ok (ColumnInit.fail e) => Except.ok (roster, some e)

/-! ## CArrowChunkIterator.cpp: the iterator -/

/-- Instrumentation: one entry per call of the three member functions. -/
inductive Call
  | initColumnConverters (batch : Int)
  | createRowPyObject (batch row : Int)
  | toPyObject (column : Nat) (row : Int)
  deriving DecidableEq, Repr

/-- The state of a `CArrowChunkIterator`. `isDict` tells whether the object is
a `DictCArrowChunkIterator`; `pyErr` is the CPython error indicator; `calls`
is instrumentation. -/
structure CArrowChunkIterator where
  m_cRecordBatches : List RecordBatch
  m_latestReturnedRow : Option PyObject
  m_currentBatchConverters : List IColumnConverter
  m_rowIndexInBatch : Int
  m_currentSchema : Option (List Field)
  m_currentPyException : Option PyException
  m_columnCount : Int
  m_batchCount : Int
  m_currentBatchIndex : Int
  m_rowCountInBatch : Int
  m_useNumpy : Bool
  isDict : Bool
  pyErr : Option PyException
  calls : List Call
  deriving DecidableEq, Repr

/-- The constructor (lines 41-55); `DictCArrowChunkIterator` delegates to it
(lines 472-477). The error indicator is clear when the object is built. -/
def CArrowChunkIterator.new (batches : List RecordBatch) (use_numpy : Bool) (isDict : Bool) :
    CArrowChunkIterator :=
  { m_cRecordBatches := batches
    m_latestReturnedRow := none
    m_currentBatchConverters := []
    m_rowIndexInBatch := -1
    m_currentSchema := none
    m_currentPyException := none
    m_columnCount :=
      match batches with
      | [] => 0
      | b :: _ => b.num_columns
    m_batchCount := batches.length
    m_currentBatchIndex := -1
    m_rowCountInBatch := 0
    m_useNumpy := use_numpy
    isDict := isDict
    pyErr := none
    calls := [] }

/-- The element `(*m_cRecordBatches)[i]`: undefined outside the vector. -/
def batchAt (batches : List RecordBatch) (i : Int) : Except Abort RecordBatch :=
  if i < 0 then Except.error Abort.undefined
  else
    match batches[i.toNat]? with
    | none => Except.error Abort.undefined
    | some b => Except.ok b

/-- The method `CArrowChunkIterator::initColumnConverters` (lines 105-470). -/
def CArrowChunkIterator.initColumnConverters (env : Externals) (it : CArrowChunkIterator) :
    Except Abort CArrowChunkIterator :=
  match batchAt it.m_cRecordBatches it.m_currentBatchIndex with
  | Except.error a => Except.error a
  | Except.ok currentBatch =>
    match initColumns env it.m_useNumpy currentBatch.columns [] it.pyErr with
    | Except.error a => Except.error a
    | Except.ok (roster, pyErr) =>
      Except.ok { it with
        m_currentBatchConverters := roster
        m_currentSchema := some currentBatch.schema
        pyErr := pyErr
        calls := it.calls ++ [Call.initColumnConverters it.m_currentBatchIndex] }

/-- The error indicator after a call that returns `r`. -/
def raise (r : PyResult) (pyErr : Option PyException) : Option PyException :=
  match r.err with
  | some e => some e
  | none => pyErr

/-- The loop of `CArrowChunkIterator::createRowPyObject` (lines 95-101): `n`
rounds from index `i`, filling the tuple slots in order. -/
def tupleLoop (env : Externals) (roster : List IColumnConverter) (row : Int) :
    Nat → Nat → List (Option PyValue) → Option PyException → List Call →
    Except Abort (List (Option PyValue) × Option PyException × List Call)
  | 0, _, items, pyErr, calls => Except.ok (items, pyErr, calls)
  | n + 1, i, items, pyErr, calls =>
    match roster[i]? with
    | none => Except.error Abort.undefined
    | some c =>
      let r := c.toPyObject env row
      tupleLoop env roster row n (i + 1) (items ++ [r.obj]) (raise r pyErr)
        (calls ++ [Call.toPyObject i row])

/-- The method `CArrowChunkIterator::createRowPyObject` (lines 92-103). -/
def CArrowChunkIterator.createRowPyObject (env : Externals) (it : CArrowChunkIterator) :
    Except Abort CArrowChunkIterator :=
  match tupleLoop env it.m_currentBatchConverters it.m_rowIndexInBatch it.m_columnCount.toNat 0
      [] it.pyErr (it.calls ++ [Call.createRowPyObject it.m_currentBatchIndex it.m_rowIndexInBatch]) with
  | Except.error a => Except.error a
  | Except.ok (items, pyErr, calls) =>
    Except.ok { it with
      m_latestReturnedRow := some (PyObject.Tuple items)
      pyErr := pyErr
      calls := calls }

/-- The CPython call `PyDict_SetItemString`: bind `key` to `value`, replacing
the binding of a key already present. -/
def PyDict_SetItemString (d : List (String × PyValue)) (key : String) (value : PyValue) :
    List (String × PyValue) :=
  if d.any (fun p => p.1 == key) then d.map (fun p => if p.1 == key then (key, value) else p)
  else d ++ [(key, value)]

/-- The test `value.empty()` of `py::UniqueRef` (`Python/Common.hpp`, not among
the sources): the wrapper holds `nullptr`. The sources build the wrapper from
`nullptr`, `reset()` it and `get()` the pointer back. -/
def UniqueRef.empty (value : Option PyValue) : Bool := value.isNone

/-- The loop of `DictCArrowChunkIterator::createRowPyObject` (lines 482-493):
`n` rounds from index `i` over the fields of `m_currentSchema`. -/
def dictLoop (env : Externals) (roster : List IColumnConverter) (schema : List Field)
    (row : Int) :
    Nat → Nat → List (String × PyValue) → Option PyException → List Call →
    Except Abort (List (String × PyValue) × Option PyException × List Call)
  | 0, _, d, pyErr, calls => Except.ok (d, pyErr, calls)
  | n + 1, i, d, pyErr, calls =>
    match roster[i]? with
    | none => Except.error Abort.undefined
    | some c =>
      let r := c.toPyObject env row
      if UniqueRef.empty r.obj then
        dictLoop env roster schema row n (i + 1) d (raise r pyErr)
          (calls ++ [Call.toPyObject i row])
      else
        match r.obj, schema[i]? with
        | some v, some f =>
          dictLoop env roster schema row n (i + 1) (PyDict_SetItemString d f.name v)
            (raise r pyErr) (calls ++ [Call.toPyObject i row])
        | _, _ => Except.error Abort.undefined

/-- The method `DictCArrowChunkIterator::createRowPyObject` (lines 479-495). -/
def DictCArrowChunkIterator.createRowPyObject (env : Externals) (it : CArrowChunkIterator) :
    Except Abort CArrowChunkIterator :=
  match it.m_currentSchema with
  | none => Except.error Abort.undefined
  | some schema =>
    match dictLoop env it.m_currentBatchConverters schema it.m_rowIndexInBatch schema.length 0
        [] it.pyErr
        (it.calls ++ [Call.createRowPyObject it.m_currentBatchIndex it.m_rowIndexInBatch]) with
    | Except.error a => Except.error a
    | Except.ok (d, pyErr, calls) =>
      Except.ok { it with
        m_latestReturnedRow := some (PyObject.Dict d)
        pyErr := pyErr
        calls := calls }

/-- The virtual call `this->createRowPyObject()`. -/
def this_createRowPyObject (env : Externals) (it : CArrowChunkIterator) :
    Except Abort CArrowChunkIterator :=
  if it.isDict then DictCArrowChunkIterator.createRowPyObject env it
  else CArrowChunkIterator.createRowPyObject env it

/-- The macro `SF_CHECK_PYTHON_ERR` (lines 23-35): when an error is pending,
fetch and clear it, keep it in `m_currentPyException` and return it in place
of a row; `none` when no error is pending and control falls through. -/
def SF_CHECK_PYTHON_ERR (it : CArrowChunkIterator) : Option (ReturnVal × CArrowChunkIterator) :=
  match it.pyErr with
  | some val =>
    some ({ successObj := none, exception := some val },
          { it with pyErr := none, m_currentPyException := some val })
  | none => none

/-- The method `CArrowChunkIterator::next` (lines 57-90). -/
def CArrowChunkIterator.next (env : Externals) (it0 : CArrowChunkIterator) :
    Except Abort (ReturnVal × CArrowChunkIterator) :=
  let it1 := { it0 with m_rowIndexInBatch := it0.m_rowIndexInBatch + 1 }
  if it1.m_rowIndexInBatch < it1.m_rowCountInBatch then
    match this_createRowPyObject env it1 with
    | Except.error a => Except.error a
    | Except.ok it2 =>
      match SF_CHECK_PYTHON_ERR it2 with
      | some r => Except.ok r
      | none => Except.ok ({ successObj := it2.m_latestReturnedRow, exception := none }, it2)
  else
    let it2 := { it1 with m_currentBatchIndex := it1.m_currentBatchIndex + 1 }
    if it2.m_currentBatchIndex < it2.m_batchCount then
      match batchAt it2.m_cRecordBatches it2.m_currentBatchIndex with
      | Except.error a => Except.error a
      | Except.ok b =>
        let it3 := { it2 with m_rowIndexInBatch := 0, m_rowCountInBatch := b.num_rows }
        match CArrowChunkIterator.initColumnConverters env it3 with
        | Except.error a => Except.error a
        | Except.ok it4 =>
          match SF_CHECK_PYTHON_ERR it4 with
          | some r => Except.ok r
          | none =>
            match this_createRowPyObject env it4 with
            | Except.error a => Except.error a
            | Except.ok it5 =>
              match SF_CHECK_PYTHON_ERR it5 with
              | some r => Except.ok r
              | none =>
                Except.ok ({ successObj := it5.m_latestReturnedRow, exception := none }, it5)
    else
      Except.ok ({ successObj := some PyObject.Py_None, exception := none }, it2)

/-- The exhaustion signal `ReturnVal(Py_None, nullptr)`. -/
def exhausted : ReturnVal := { successObj := some PyObject.Py_None, exception := none }

/-- The results of `n` successive calls of `next()` and the state they leave. -/
def nextN (env : Externals) : Nat → CArrowChunkIterator →
    Except Abort (List ReturnVal × CArrowChunkIterator)
  | 0, it => Except.ok ([], it)
  | n + 1, it =>
    match CArrowChunkIterator.next env it with
    | Except.error a => Except.error a
    | Except.ok (rv, it1) =>
      match nextN env n it1 with
      | Except.error a => Except.error a
      | Except.ok (rvs, it2) => Except.ok (rv :: rvs, it2)

/-- The physical kinds the FIXED branch routes through `_SF_INIT_FIXED_CONVERTER`. -/
def isFixedInt (t : ArrowType) : Bool :=
  t = ArrowType.NANOARROW_TYPE_INT8 || t = ArrowType.NANOARROW_TYPE_INT16 ||
  t = ArrowType.NANOARROW_TYPE_INT32 || t = ArrowType.NANOARROW_TYPE_INT64

/-! ## Intermediate states of `next()` -/

/-- The state after `m_rowIndexInBatch++` (line 59). -/
def stepRow (it : CArrowChunkIterator) : CArrowChunkIterator :=
  { it with m_rowIndexInBatch := it.m_rowIndexInBatch + 1 }

/-- The state after lines 59 and 69: both counters incremented. -/
def stepEnd (it : CArrowChunkIterator) : CArrowChunkIterator :=
  { it with
    m_rowIndexInBatch := it.m_rowIndexInBatch + 1
    m_currentBatchIndex := it.m_currentBatchIndex + 1 }

/-- The state after lines 59, 69, 72 and 73: batch `b` has become current. -/
def stepBatch (it : CArrowChunkIterator) (b : RecordBatch) : CArrowChunkIterator :=
  { it with
    m_rowIndexInBatch := 0
    m_currentBatchIndex := it.m_currentBatchIndex + 1
    m_rowCountInBatch := b.num_rows }

/-- The state after `SF_CHECK_PYTHON_ERR` has fetched the pending error `e`. -/
def fetchErr (it : CArrowChunkIterator) (e : PyException) : CArrowChunkIterator :=
  { it with pyErr := none, m_currentPyException := some e }

/-- What the converter at roster index `j` returns for `row` (nothing when the
roster has no such index). -/
def cellAt (env : Externals) (roster : List IColumnConverter) (row : Int) (j : Nat) : PyResult :=
  match roster[j]? with
  | some c => c.toPyObject env row
  | none => { obj := none, err := none }

/-- The fields that neither `createRowPyObject` nor `initColumnConverters`
writes. -/
def sameCounters (a b : CArrowChunkIterator) : Prop :=
  b.m_cRecordBatches = a.m_cRecordBatches ∧ b.m_rowIndexInBatch = a.m_rowIndexInBatch ∧
  b.m_columnCount = a.m_columnCount ∧ b.m_batchCount = a.m_batchCount ∧
  b.m_currentBatchIndex = a.m_currentBatchIndex ∧ b.m_rowCountInBatch = a.m_rowCountInBatch ∧
  b.m_useNumpy = a.m_useNumpy ∧ b.isDict = a.isDict

/-- The number of columns of the first batch (0 for no batch): the value the
constructor stores in `m_columnCount`. -/
def firstBatchColumns (batches : List RecordBatch) : Nat :=
  match batches with
  | [] => 0
  | b :: _ => b.columns.length

/-- Range facts about the counters that every call of `next()` maintains. -/
def CountersOk (it : CArrowChunkIterator) : Prop :=
  it.m_batchCount = it.m_cRecordBatches.length ∧ -1 ≤ it.m_currentBatchIndex ∧
  (it.m_rowIndexInBatch + 1 < it.m_rowCountInBatch →
    0 ≤ it.m_currentBatchIndex ∧ it.m_currentBatchIndex < it.m_batchCount)

/-! ## The rows a run is expected to serve -/

/-- The positional row number `row` of a batch decoded through `roster`, as
`next()` returns it: a tuple of `ncols` cells and no exception. -/
def rowAt (env : Externals) (roster : List IColumnConverter) (ncols : Nat) (row : Int) :
    ReturnVal :=
  { successObj := some (PyObject.Tuple
      ((List.range' 0 ncols).map (fun i => (cellAt env roster row i).obj)))
    exception := none }

/-- The roster `initColumnConverters` builds for batch `b` from a clear error
indicator (empty when the rebuild aborts). -/
def rosterOf (env : Externals) (m_useNumpy : Bool) (b : RecordBatch) : List IColumnConverter :=
  match initColumns env m_useNumpy b.columns [] none with
  | Except.ok (roster, _) => roster
  | Except.error _ => []

/-- The rows of batch `b` in row order. -/
def batchRows (env : Externals) (m_useNumpy : Bool) (ncols : Nat) (b : RecordBatch) :
    List ReturnVal :=
  (List.range' 0 b.num_rows.toNat).map
    (fun (j : Nat) => rowAt env (rosterOf env m_useNumpy b) ncols (j : Int))

/-- The rows of a list of batches, in batch order then row order. -/
def allRows (env : Externals) (m_useNumpy : Bool) (ncols : Nat) : List RecordBatch → List ReturnVal
  | [] => []
  | b :: rest => batchRows env m_useNumpy ncols b ++ allRows env m_useNumpy ncols rest

/-- The sum of the row counts. -/
def totalRows : List RecordBatch → Nat
  | [] => 0
  | b :: rest => b.num_rows.toNat + totalRows rest

/-- A batch that the iterator serves in full: at least one row, a rebuild that
ends without error, at least `ncols` converters, none of which raises. -/
def BatchServable (env : Externals) (m_useNumpy : Bool) (ncols : Nat) (b : RecordBatch) : Prop :=
  1 ≤ b.num_rows ∧
  (∃ roster, initColumns env m_useNumpy b.columns [] none = Except.ok (roster, none)) ∧
  ncols ≤ (rosterOf env m_useNumpy b).length ∧
  ∀ c ∈ rosterOf env m_useNumpy b, ∀ row, (c.toPyObject env row).err = none

/-- The iterator stands at the end of its current batch (or before the first
one) with a clear error indicator. -/
def AtBoundary (it : CArrowChunkIterator) : Prop :=
  ¬ it.m_rowIndexInBatch + 1 < it.m_rowCountInBatch ∧ it.pyErr = none

/-- The fields that stay put while the iterator walks the rows of one batch. -/
def sameBatch (a b : CArrowChunkIterator) : Prop :=
  b.m_cRecordBatches = a.m_cRecordBatches ∧ b.m_columnCount = a.m_columnCount ∧
  b.m_batchCount = a.m_batchCount ∧ b.m_currentBatchIndex = a.m_currentBatchIndex ∧
  b.m_rowCountInBatch = a.m_rowCountInBatch ∧ b.m_useNumpy = a.m_useNumpy ∧
  b.isDict = a.isDict ∧ b.m_currentBatchConverters = a.m_currentBatchConverters

/-! ## Sample inputs -/

/-- A registry for the sample inputs: the names the factory switch knows, in
upper case; every other string is `UNKNOWN`. -/
def sampleRegistry (s : String) : SnowflakeType :=
  if s = "FIXED" then SnowflakeType.FIXED
  else if s = "TEXT" then SnowflakeType.TEXT
  else if s = "BINARY" then SnowflakeType.BINARY
  else if s = "BOOLEAN" then SnowflakeType.BOOLEAN
  else if s = "REAL" then SnowflakeType.REAL
  else if s = "DATE" then SnowflakeType.DATE
  else if s = "TIME" then SnowflakeType.TIME
  else if s = "TIMESTAMP_NTZ" then SnowflakeType.TIMESTAMP_NTZ
  else if s = "TIMESTAMP_LTZ" then SnowflakeType.TIMESTAMP_LTZ
  else if s = "TIMESTAMP_TZ" then SnowflakeType.TIMESTAMP_TZ
  else if s = "VARIANT" then SnowflakeType.VARIANT
  else if s = "OBJECT" then SnowflakeType.OBJECT
  else if s = "ARRAY" then SnowflakeType.ARRAY
  else if s = "CHAR" then SnowflakeType.CHAR
  else if s = "ANY" then SnowflakeType.ANY
  else SnowflakeType.UNKNOWN

/-- Converters for the sample inputs: a cell whose validity bit is unset
decodes to `None`, any other cell to the object numbered by its row. -/
def sampleToPyObject (_k : ConverterKind) (a : ArrowArrayView) (row : Int) : PyResult :=
  if ArrowArrayViewIsNull a row then { obj := some PyValue.None, err := none }
  else { obj := some (PyValue.Object row.toNat), err := none }

/-- The externals used by the sample inputs. -/
def sampleEnv : Externals :=
  { snowflakeTypeFromString := sampleRegistry
    toPyObject := sampleToPyObject }

/-- A binary array of two rows: row 0 holds the bytes `1 2 3`, row 1 is null
(validity bit unset) over offsets and data left as they were. -/
def sampleBinaryArray : ArrowArrayView :=
  { validity := some [true, false], offsets := [0, 3, 3], data := [1, 2, 3] }

/-- The array `sampleBinaryArray` with other offsets and data bytes under the
same validity bitmap. -/
def sampleBinaryGarbage : ArrowArrayView :=
  { validity := some [true, false], offsets := [7, 9, 2], data := [255, 254] }

/-- An array of two rows for a non-binary column: row 0 valid, row 1 null. -/
def sampleArray : ArrowArrayView :=
  { validity := some [true, false], offsets := [], data := [] }

/-- A FIXED column stored as int32 with scale 2 and precision 5. -/
def sampleFixedInt32 : Column :=
  { field := { name := "N", type := ArrowType.NANOARROW_TYPE_INT32,
               metadata := some [("logicalType", "FIXED"), ("scale", "2"), ("precision", "5")] }
    array := sampleArray, viewInitOk := true, setArrayOk := true }

/-- A FIXED column stored as decimal128 with scale 0 and precision 38. -/
def sampleFixedDecimal128 : Column :=
  { field := { name := "D", type := ArrowType.NANOARROW_TYPE_DECIMAL128,
               metadata := some [("logicalType", "FIXED"), ("scale", "0"), ("precision", "38")] }
    array := sampleArray, viewInitOk := true, setArrayOk := true }

/-- A FIXED column stored as int64 with scale 0 and precision 18. -/
def sampleFixedInt64 : Column :=
  { field := { name := "I", type := ArrowType.NANOARROW_TYPE_INT64,
               metadata := some [("logicalType", "FIXED"), ("scale", "0"), ("precision", "18")] }
    array := sampleArray, viewInitOk := true, setArrayOk := true }

/-- A FIXED column stored as a struct, with scale 0 and precision 3. -/
def sampleFixedStruct : Column :=
  { field := { name := "S", type := ArrowType.NANOARROW_TYPE_STRUCT,
               metadata := some [("logicalType", "FIXED"), ("scale", "0"), ("precision", "3")] }
    array := sampleArray, viewInitOk := true, setArrayOk := true }

/-- A TIMESTAMP_TZ column with scale 3 and byteLength 8. -/
def sampleTZ8 : Column :=
  { field := { name := "T", type := ArrowType.NANOARROW_TYPE_STRUCT,
               metadata := some [("logicalType", "TIMESTAMP_TZ"), ("scale", "3"), ("byteLength", "8")] }
    array := sampleArray, viewInitOk := true, setArrayOk := true }

/-- A text column named `name`. -/
def sampleText (name : String) : Column :=
  { field := { name := name, type := ArrowType.NANOARROW_TYPE_STRING,
               metadata := some [("logicalType", "TEXT")] }
    array := sampleArray, viewInitOk := true, setArrayOk := true }

/-- A binary column named `name` over `sampleBinaryArray`. -/
def sampleBinary (name : String) : Column :=
  { field := { name := name, type := ArrowType.NANOARROW_TYPE_BINARY,
               metadata := some [("logicalType", "BINARY")] }
    array := sampleBinaryArray, viewInitOk := true, setArrayOk := true }

/-- A text column of a batch without rows: no validity bitmap, one offset, no
data. -/
def sampleEmptyText : Column :=
  { field := { name := "A", type := ArrowType.NANOARROW_TYPE_STRING,
               metadata := some [("logicalType", "TEXT")] }
    array := { validity := none, offsets := [0], data := [] }
    viewInitOk := true, setArrayOk := true }

/-- A named-row iterator standing on row 1 (the null row) of a batch with one
binary column `B`. -/
def sampleDictState : CArrowChunkIterator :=
  { CArrowChunkIterator.new [⟨2, [sampleBinary "B"]⟩] false true with
    m_currentBatchConverters := [⟨ConverterKind.BinaryConverter, sampleBinaryArray⟩]
    m_currentSchema := some [(sampleBinary "B").field]
    m_rowIndexInBatch := 1
    m_currentBatchIndex := 0
    m_rowCountInBatch := 2 }

/-- The state `sampleDictState` after `createRowPyObject`. -/
def sampleDictStateAfter : CArrowChunkIterator :=
  { sampleDictState with
    m_latestReturnedRow := some (PyObject.Dict [("B", PyValue.None)])
    calls := [Call.createRowPyObject 0 1, Call.toPyObject 0 1] }

/-- Two batches of one row each; the first has one column, the second two. -/
def sampleUnevenBatches : List RecordBatch :=
  [⟨1, [sampleText "A"]⟩, ⟨1, [sampleText "A", sampleText "B"]⟩]

/-- The positional iterator over one batch of two rows with the column
`sampleFixedInt32`, after its first `next()`. -/
def samplePositionalAfter : CArrowChunkIterator :=
  { CArrowChunkIterator.new [⟨2, [sampleFixedInt32]⟩] false false with
    m_latestReturnedRow := some (PyObject.Tuple [some (PyValue.Object 0)])
    m_currentBatchConverters := [⟨ConverterKind.DecimalFromIntConverter 5 2, sampleArray⟩]
    m_currentSchema := some [sampleFixedInt32.field]
    m_rowIndexInBatch := 0
    m_currentBatchIndex := 0
    m_rowCountInBatch := 2
    calls := [Call.initColumnConverters 0, Call.createRowPyObject 0 0, Call.toPyObject 0 0] }

/-- One batch of two rows: a text column followed by a FIXED column stored as
a struct. -/
def sampleStructBatch : RecordBatch := ⟨2, [sampleText "A", sampleFixedStruct]⟩

/-- A batch of one row with one text column, then `sampleStructBatch`. -/
def sampleFailingBatches : List RecordBatch := [⟨1, [sampleText "A"]⟩, sampleStructBatch]

/-- One batch of two rows with one text column on which
`ArrowArrayViewInitFromSchema` fails. -/
def sampleBadViewBatch : RecordBatch :=
  ⟨2, [{ sampleText "A" with viewInitOk := false }]⟩

/-- Two batches with the same column: two rows, then one row. -/
def sampleTwoBatches : List RecordBatch :=
  [⟨2, [sampleFixedInt32]⟩, ⟨1, [sampleFixedInt32]⟩]

/-! ## Vocabulary for the factory statements -/

/-- The logical type the factory resolves for a column (lines 145-150). -/
def Column.logicalType (env : Externals) (col : Column) : SnowflakeType :=
  env.snowflakeTypeFromString (logicalTypeString col.field.metadata)

/-- The six logical types of the text case (lines 233-238). -/
def isTextLike (st : SnowflakeType) : Bool :=
  st = SnowflakeType.ANY || st = SnowflakeType.CHAR || st = SnowflakeType.OBJECT ||
  st = SnowflakeType.VARIANT || st = SnowflakeType.TEXT || st = SnowflakeType.ARRAY

/-- The physical kinds that the inner switches of the factory let through:
FIXED, TIME, TIMESTAMP_NTZ and TIMESTAMP_LTZ switch on the physical type; no
other case looks at it. -/
def checkedAdmits (st : SnowflakeType) (t : ArrowType) : Bool :=
  match st with
  | SnowflakeType.FIXED => isFixedInt t || t = ArrowType.NANOARROW_TYPE_DECIMAL128
  | SnowflakeType.TIME =>
    t = ArrowType.NANOARROW_TYPE_INT32 || t = ArrowType.NANOARROW_TYPE_INT64
  | SnowflakeType.TIMESTAMP_NTZ =>
    t = ArrowType.NANOARROW_TYPE_INT64 || t = ArrowType.NANOARROW_TYPE_STRUCT
  | SnowflakeType.TIMESTAMP_LTZ =>
    t = ArrowType.NANOARROW_TYPE_INT64 || t = ArrowType.NANOARROW_TYPE_STRUCT
  | _ => true

/-- The physical kinds a logical type admits according to the specification:
a struct for TIMESTAMP_TZ, int64 or struct for TIMESTAMP_NTZ/LTZ, int32/int64
for TIME, an integer width or decimal128 for FIXED, variable-length bytes for
BINARY and the text-like types; nothing is stated for the other types. -/
def specAdmits (st : SnowflakeType) (t : ArrowType) : Bool :=
  match st with
  | SnowflakeType.TIMESTAMP_TZ => t = ArrowType.NANOARROW_TYPE_STRUCT
  | SnowflakeType.BINARY =>
    t = ArrowType.NANOARROW_TYPE_BINARY || t = ArrowType.NANOARROW_TYPE_STRING ||
    t = ArrowType.NANOARROW_TYPE_LARGE_BINARY || t = ArrowType.NANOARROW_TYPE_LARGE_STRING
  | st =>
    if isTextLike st then
      t = ArrowType.NANOARROW_TYPE_BINARY || t = ArrowType.NANOARROW_TYPE_STRING ||
      t = ArrowType.NANOARROW_TYPE_LARGE_BINARY || t = ArrowType.NANOARROW_TYPE_LARGE_STRING
    else checkedAdmits st t

/-- The array-backed converter classes (`Numpy*`). -/
def ConverterKind.isNumpy : ConverterKind → Bool
  | ConverterKind.NumpyDecimalConverter _ _ => true
  | ConverterKind.NumpyIntConverter => true
  | ConverterKind.NumpyFloat64Converter => true
  | ConverterKind.NumpyDateConverter => true
  | ConverterKind.NumpyOneFieldTimeStampNTZConverter _ => true
  | ConverterKind.NumpyTwoFieldTimeStampNTZConverter _ => true
  | _ => false

/-- The parse a case of the factory applies to the value under `key`: the
FIXED, TIME and TIMESTAMP_NTZ cases read the nanoarrow buffer (`stoiData`), the
other cases read arrow metadata (`stoiKey`). -/
def stoiFor (st : SnowflakeType) (md : List (String × String)) (key : String) :
    Except Abort Int :=
  match st with
  | SnowflakeType.FIXED => stoiData md key
  | SnowflakeType.TIME => stoiData md key
  | SnowflakeType.TIMESTAMP_NTZ => stoiData md key
  | _ => stoiKey md key

/-- The metadata integers a case reads before its inner switch can be read:
the field has no metadata, or `scale` parses (and `precision` too for
FIXED). -/
def metadataParses (st : SnowflakeType) (metadata : Option (List (String × String))) : Prop :=
  match metadata with
  | none => True
  | some md =>
    (∃ s, stoiFor st md "scale" = Except.ok s) ∧
    (st = SnowflakeType.FIXED → ∃ p, stoiFor st md "precision" = Except.ok p)

/-- A column of logical type `logical` and physical type `t` whose metadata
holds scale 3, precision 10 and byteLength 8. -/
def sampleColumn (logical : String) (t : ArrowType) : Column :=
  { field := { name := "C", type := t,
               metadata := some [("logicalType", logical), ("scale", "3"), ("precision", "10"),
                 ("byteLength", "8")] }
    array := sampleArray, viewInitOk := true, setArrayOk := true }

/-- A column without metadata, of physical type `t`. -/
def sampleNoMetadata (t : ArrowType) : Column :=
  { field := { name := "C", type := t, metadata := none }
    array := sampleArray, viewInitOk := true, setArrayOk := true }

/-- Two columns, text then binary, for runs of the factory under both values
of the flag. -/
def sampleTextBinaryColumns : List Column := [sampleText "A", sampleBinary "B"]

/-- One batch of two rows: a text column, a column whose logical type name the
registry does not know, and a further text column. -/
def sampleUnknownBatch : RecordBatch :=
  ⟨2, [sampleText "A", sampleColumn "GEOGRAPHY" ArrowType.NANOARROW_TYPE_STRING, sampleText "Z"]⟩

/-- The positional iterator over one batch of one row with a text column,
after the call of `next()` that returned the row. -/
def samplePastEnd : CArrowChunkIterator :=
  { CArrowChunkIterator.new [⟨1, [sampleText "A"]⟩] false false with
    m_latestReturnedRow := some (PyObject.Tuple [some (PyValue.Object 0)])
    m_currentBatchConverters := [⟨ConverterKind.StringConverter, sampleArray⟩]
    m_currentSchema := some [(sampleText "A").field]
    m_rowIndexInBatch := 0
    m_currentBatchIndex := 0
    m_rowCountInBatch := 1
    calls := [Call.initColumnConverters 0, Call.createRowPyObject 0 0, Call.toPyObject 0 0] }

/-! ## Vocabulary for the call record -/

/-- In the call record every `createRowPyObject` for batch `b` comes after an
`initColumnConverters` for batch `b`. -/
def RowsAfterInit (calls : List Call) : Prop :=
  ∀ pre post b r, calls = pre ++ Call.createRowPyObject b r :: post →
    Call.initColumnConverters b ∈ pre

/-- Every converter of `roster` was built by the factory from a column of
batch `b`. -/
def RosterFrom (env : Externals) (m_useNumpy : Bool) (b : RecordBatch)
    (roster : List IColumnConverter) : Prop :=
  ∀ c ∈ roster, ∃ col ∈ b.columns, initColumn env m_useNumpy col = Except.ok (ColumnInit.push c)

/-- The call record of a state reached from the constructor: one
`initColumnConverters` per batch advanced to, rows after the rebuild of their
batch, and a roster built from the current batch. -/
def LogOk (env : Externals) (it : CArrowChunkIterator) : Prop :=
  (∀ b : Int, it.calls.count (Call.initColumnConverters b) =
    if 0 ≤ b ∧ b ≤ it.m_currentBatchIndex ∧ b < it.m_batchCount then 1 else 0) ∧
  RowsAfterInit it.calls ∧
  (0 ≤ it.m_currentBatchIndex → it.m_currentBatchIndex < it.m_batchCount →
    ∃ b, batchAt it.m_cRecordBatches it.m_currentBatchIndex = Except.ok b ∧
      RosterFrom env it.m_useNumpy b it.m_currentBatchConverters)

/-- The positional iterator over `sampleTwoBatches` after three calls of
`next()`: the two rows of batch 0 and the row of batch 1 have been served. -/
def sampleAfterThree : CArrowChunkIterator :=
  { CArrowChunkIterator.new sampleTwoBatches false false with
    m_latestReturnedRow := some (PyObject.Tuple [some (PyValue.Object 0)])
    m_currentBatchConverters := [⟨ConverterKind.DecimalFromIntConverter 5 2, sampleArray⟩]
    m_currentSchema := some [sampleFixedInt32.field]
    m_rowIndexInBatch := 0
    m_currentBatchIndex := 1
    m_rowCountInBatch := 1
    calls := [Call.initColumnConverters 0, Call.createRowPyObject 0 0, Call.toPyObject 0 0,
      Call.createRowPyObject 0 1, Call.toPyObject 0 1,
      Call.initColumnConverters 1, Call.createRowPyObject 1 0, Call.toPyObject 0 0] }

/-! ## Vocabulary for the bounds statement -/

/-- A state from which every access of `next()` stays in bounds: the constants
are those of the constructor, the error indicator is clear, and while rows of
the current batch remain, the row count, roster and schema are those of that
batch. -/
def Safe (env : Externals) (batches : List RecordBatch) (m_useNumpy : Bool)
    (it : CArrowChunkIterator) : Prop :=
  it.m_cRecordBatches = batches ∧ it.m_batchCount = (batches.length : Int) ∧
  it.m_columnCount = (firstBatchColumns batches : Int) ∧ it.m_useNumpy = m_useNumpy ∧
  it.pyErr = none ∧ -1 ≤ it.m_currentBatchIndex ∧
  (it.m_rowIndexInBatch + 1 < it.m_rowCountInBatch →
    0 ≤ it.m_rowIndexInBatch + 1 ∧
    ∃ b, batchAt batches it.m_currentBatchIndex = Except.ok b ∧
      it.m_rowCountInBatch = b.num_rows ∧
      it.m_currentBatchConverters = rosterOf env m_useNumpy b ∧
      it.m_currentSchema = some b.schema)

/-- The call of `next()` that led from `it` to `it1` ran `createRowPyObject`
within bounds: the current batch exists, the row index lies in it, the roster
holds one converter per column of that batch in column order, and the call
record grew by (the rebuild, if the batch was entered, and) one
`createRowPyObject` followed by one converter call per column, at that row. -/
def RowServed (env : Externals) (batches : List RecordBatch) (m_useNumpy : Bool)
    (it it1 : CArrowChunkIterator) : Prop :=
  ∃ b, batchAt batches it1.m_currentBatchIndex = Except.ok b ∧
    0 ≤ it1.m_rowIndexInBatch ∧ it1.m_rowIndexInBatch < b.num_rows ∧
    it1.m_currentBatchConverters.length = b.columns.length ∧
    (∀ (i : Nat) (col : Column), b.columns[i]? = some col →
      ∃ c, it1.m_currentBatchConverters[i]? = some c ∧
        initColumn env m_useNumpy col = Except.ok (ColumnInit.push c)) ∧
    ∃ pre, (pre = [] ∨ pre = [Call.initColumnConverters it1.m_currentBatchIndex]) ∧
      it1.calls = it.calls ++ pre ++
        Call.createRowPyObject it1.m_currentBatchIndex it1.m_rowIndexInBatch ::
          (List.range' 0 b.columns.length).map
            (fun j => Call.toPyObject j it1.m_rowIndexInBatch)

/-! ## Vocabulary for the metadata statements -/

/-- The value stored under `key` is not followed by a decimal digit in the
metadata buffer: it ends the buffer, or the first byte after it (the low byte
of the length of the next key) is none of `0` .. `9`. -/
def valueDelimited (md : List (String × String)) (key : String) : Bool :=
  match ArrowMetadataGetValue md key with
  | some (_, c :: _) => !c.isDigit
  | _ => true

/-- A key of `n` bytes. -/
def sampleKey (n : Nat) : String := String.mk (List.replicate n 'k')

/-- A column of logical type `logical` and physical type `t` whose metadata
holds, in this order, the logical type, the scale `scale`, a pair whose key
has `n` bytes, and precision 5. -/
def sampleFollowed (logical : String) (t : ArrowType) (scale : String) (n : Nat) : Column :=
  { field := { name := "C", type := t,
               metadata := some [("logicalType", logical), ("scale", scale), (sampleKey n, "v"),
                 ("precision", "5")] }
    array := sampleArray, viewInitOk := true, setArrayOk := true }

/-- The integer a case of the factory reads under `key`, with its default:
through the nanoarrow buffer for FIXED, TIME and TIMESTAMP_NTZ, through arrow
metadata for the other cases. -/
def metaIntFor (st : SnowflakeType) (metadata : Option (List (String × String)))
    (key : String) (dflt : Int) : Except Abort Int :=
  match st with
  | SnowflakeType.FIXED => metaIntData metadata key dflt
  | SnowflakeType.TIME => metaIntData metadata key dflt
  | SnowflakeType.TIMESTAMP_NTZ => metaIntData metadata key dflt
  | _ => metaInt metadata key dflt

/-- A FIXED column stored as a struct whose scale metadata is not a number. -/
def sampleFixedStructBadScale : Column :=
  { field := { name := "S", type := ArrowType.NANOARROW_TYPE_STRUCT,
               metadata := some [("logicalType", "FIXED"), ("scale", "x"), ("precision", "3")] }
    array := sampleArray, viewInitOk := true, setArrayOk := true }

/-- Externals whose registry resolves every name, the empty one included, to
`st`. -/
def sampleConstEnv (st : SnowflakeType) : Externals :=
  { snowflakeTypeFromString := fun _ => st
    toPyObject := sampleToPyObject }

/-- The number of cells `createRowPyObject` fills for a row of batch `b`: the
column count of the first batch for a positional row (`m_columnCount`), the
field count of the schema of `b` for a named row. -/
def cellsOf (it : CArrowChunkIterator) (b : RecordBatch) : Nat :=
  if it.isDict then b.columns.length else it.m_columnCount.toNat

/-! ## BinaryConverter: null check and copy -/

theorem isNull_of_unset (a : ArrowArrayView) (i : Int) (bits : List Bool)
    (hv : a.validity = some bits) (hb : bits[i.toNat]? = some false) :
    ArrowArrayViewIsNull a i = true := by
  simp [ArrowArrayViewIsNull, hv, List.getD, hb]

theorem isNull_of_set (a : ArrowArrayView) (i : Int)
    (hv : a.validity = none ∨ ∃ bits, a.validity = some bits ∧ bits[i.toNat]? = some true) :
    ArrowArrayViewIsNull a i = false := by
  rcases hv with hv | ⟨bits, hv, hb⟩
  · simp [ArrowArrayViewIsNull, hv]
  · simp [ArrowArrayViewIsNull, hv, List.getD, hb]

/-- C7: on a row whose validity bit is unset `BinaryConverter::toPyObject`
returns `None` and the result is the same for every array with that validity
bitmap, whatever its offsets and data hold; on a row whose validity bit is set
(or of an array without bitmap), with ordered offsets, it returns a bytearray
whose length is the length of the view and whose bytes are the bytes of the
view. -/
theorem BinaryConverter_toPyObject_spec (a : ArrowArrayView) (i : Int) :
    (∀ bits, a.validity = some bits → bits[i.toNat]? = some false →
      ∀ a2 : ArrowArrayView, a2.validity = a.validity →
        BinaryConverter.toPyObject a2 i = { obj := some PyValue.None, err := none }) ∧
    ((a.validity = none ∨ ∃ bits, a.validity = some bits ∧ bits[i.toNat]? = some true) →
      0 ≤ (ArrowArrayViewGetStringUnsafe a i).size_bytes →
      ∃ bs, BinaryConverter.toPyObject a i = { obj := some (PyValue.ByteArray bs), err := none } ∧
        (bs.length : Int) = (ArrowArrayViewGetStringUnsafe a i).size_bytes ∧
        ∀ k, k < bs.length →
          bs[k]? = some (a.data.getD ((ArrowArrayViewGetStringUnsafe a i).data.toNat + k) 0)) := by
  constructor
  · intro bits hv hb a2 h2
    have hnull : ArrowArrayViewIsNull a2 i = true := isNull_of_unset a2 i bits (h2.trans hv) hb
    simp [BinaryConverter.toPyObject, hnull]
  · intro hv hsize
    have hnull : ArrowArrayViewIsNull a i = false := isNull_of_set a i hv
    refine ⟨(List.range (ArrowArrayViewGetStringUnsafe a i).size_bytes.toNat).map
      (fun k => a.data.getD ((ArrowArrayViewGetStringUnsafe a i).data.toNat + k) 0), ?_, ?_, ?_⟩
    · simp [BinaryConverter.toPyObject, hnull, PyByteArray_FromStringAndSize, not_lt.mpr hsize]
    · simp [Int.toNat_of_nonneg hsize]
    · intro k hk
      simp at hk
      simp [hk]

theorem BinaryConverter_toPyObject_spec_witness :
    BinaryConverter.toPyObject sampleBinaryGarbage 1 = { obj := some PyValue.None, err := none } ∧
    ∃ bs, BinaryConverter.toPyObject sampleBinaryArray 0 =
        { obj := some (PyValue.ByteArray bs), err := none } ∧
      (bs.length : Int) = (ArrowArrayViewGetStringUnsafe sampleBinaryArray 0).size_bytes ∧
      ∀ k, k < bs.length →
        bs[k]? = some (sampleBinaryArray.data.getD
          ((ArrowArrayViewGetStringUnsafe sampleBinaryArray 0).data.toNat + k) 0) :=
  ⟨(BinaryConverter_toPyObject_spec sampleBinaryArray 1).1 [true, false] rfl rfl
      sampleBinaryGarbage rfl,
   (BinaryConverter_toPyObject_spec sampleBinaryArray 0).2
      (Or.inr ⟨[true, false], rfl, rfl⟩) (by decide)⟩

/-! ## The factory: FIXED and TIMESTAMP_TZ -/

theorem initFIXED_int (m_useNumpy : Bool) (col : Column) (scale precision : Int)
    (hs : metaIntData col.field.metadata "scale" 0 = Except.ok scale)
    (hp : metaIntData col.field.metadata "precision" 38 = Except.ok precision)
    (ht : isFixedInt col.field.type = true) :
    initFIXED m_useNumpy col =
      Except.ok (ColumnInit.push ⟨SF_INIT_FIXED_CONVERTER m_useNumpy precision scale, col.array⟩) := by
  simp only [initFIXED, hs, hp]
  cases h : col.field.type <;> simp_all [isFixedInt]

theorem initFIXED_decimal128 (m_useNumpy : Bool) (col : Column) (scale precision : Int)
    (hs : metaIntData col.field.metadata "scale" 0 = Except.ok scale)
    (hp : metaIntData col.field.metadata "precision" 38 = Except.ok precision)
    (ht : col.field.type = ArrowType.NANOARROW_TYPE_DECIMAL128) :
    initFIXED m_useNumpy col =
      Except.ok (ColumnInit.push ⟨ConverterKind.DecimalFromDecimalConverter scale, col.array⟩) := by
  simp only [initFIXED, hs, hp, ht]

theorem initFIXED_other (m_useNumpy : Bool) (col : Column) (scale precision : Int)
    (hs : metaIntData col.field.metadata "scale" 0 = Except.ok scale)
    (hp : metaIntData col.field.metadata "precision" 38 = Except.ok precision)
    (ht : isFixedInt col.field.type = false)
    (hd : col.field.type ≠ ArrowType.NANOARROW_TYPE_DECIMAL128) :
    initFIXED m_useNumpy col =
      Except.ok (ColumnInit.fail (PyException.unknown_arrow_type "FIXED" col.field.type)) := by
  simp only [initFIXED, hs, hp]
  cases h : col.field.type <;> simp_all [isFixedInt]

theorem initColumn_FIXED (env : Externals) (m_useNumpy : Bool) (col : Column)
    (hreg : env.snowflakeTypeFromString (logicalTypeString col.field.metadata) =
      SnowflakeType.FIXED) :
    initColumn env m_useNumpy col = initFIXED m_useNumpy col := by
  simp only [initColumn, hreg]

theorem initColumn_TIMESTAMP_TZ (env : Externals) (m_useNumpy : Bool) (col : Column)
    (hreg : env.snowflakeTypeFromString (logicalTypeString col.field.metadata) =
      SnowflakeType.TIMESTAMP_TZ) :
    initColumn env m_useNumpy col = initTIMESTAMP_TZ col := by
  simp only [initColumn, hreg]

/-- What the FIXED case does in standard mode for a positive scale: a column
for which the case reads the scale `scale > 0` and the precision `precision`
(each with `std::stoi` on the C string at the value) gets
`DecimalFromIntConverter precision scale` when stored as int8, int16, int32 or
int64, and `DecimalFromDecimalConverter scale` when stored as decimal128. A
batch of two rows with one int32 FIXED column whose metadata holds the scale 2
followed by the precision 5 gets `DecimalFromIntConverter 5 2`, and, when that
converter raises no error, `next()` yields two tuples of length 1 and then
the exhaustion signal. -/
theorem fixed_positive_scale_standard (env : Externals) (col : Column) (scale precision : Int)
    (hreg : env.snowflakeTypeFromString (logicalTypeString col.field.metadata) =
      SnowflakeType.FIXED)
    (hs : metaIntData col.field.metadata "scale" 0 = Except.ok scale)
    (hp : metaIntData col.field.metadata "precision" 38 = Except.ok precision)
    (hpos : 0 < scale) :
    (isFixedInt col.field.type = true →
      initColumn env false col =
        Except.ok (ColumnInit.push ⟨ConverterKind.DecimalFromIntConverter precision scale, col.array⟩)) ∧
    (col.field.type = ArrowType.NANOARROW_TYPE_DECIMAL128 →
      initColumn env false col =
        Except.ok (ColumnInit.push ⟨ConverterKind.DecimalFromDecimalConverter scale, col.array⟩)) ∧
    (env.snowflakeTypeFromString "FIXED" = SnowflakeType.FIXED →
      (∀ r, (env.toPyObject (ConverterKind.DecimalFromIntConverter 5 2) sampleArray r).err = none) →
      ∃ it, nextN env 3 (CArrowChunkIterator.new [⟨2, [sampleFixedInt32]⟩] false false) =
          Except.ok ([⟨some (PyObject.Tuple
              [(env.toPyObject (ConverterKind.DecimalFromIntConverter 5 2) sampleArray 0).obj]), none⟩,
            ⟨some (PyObject.Tuple
              [(env.toPyObject (ConverterKind.DecimalFromIntConverter 5 2) sampleArray 1).obj]), none⟩,
            exhausted], it) ∧
        it.m_currentBatchConverters =
          [⟨ConverterKind.DecimalFromIntConverter 5 2, sampleArray⟩]) := by
  refine ⟨?_, ?_, ?_⟩
  · intro ht
    rw [initColumn_FIXED env false col hreg, initFIXED_int false col scale precision hs hp ht]
    simp [SF_INIT_FIXED_CONVERTER, hpos]
  · intro ht
    rw [initColumn_FIXED env false col hreg, initFIXED_decimal128 false col scale precision hs hp ht]
  · intro hreg2 hdec
    have hcol : initColumn env false sampleFixedInt32 =
        Except.ok (ColumnInit.push ⟨ConverterKind.DecimalFromIntConverter 5 2, sampleArray⟩) := by
      rw [initColumn_FIXED env false sampleFixedInt32
        (by simpa [logicalTypeString, sampleFixedInt32] using hreg2)]
      rw [initFIXED_int false sampleFixedInt32 2 5 (by decide) (by decide) (by decide)]
      rfl
    have h1 : sampleFixedInt32.setArrayOk = true := rfl
    have h2 : sampleFixedInt32.viewInitOk = true := rfl
    simp [nextN, CArrowChunkIterator.next, CArrowChunkIterator.new, batchAt,
      CArrowChunkIterator.initColumnConverters, initColumns, hcol, arrayViewChecks, h1, h2,
      SF_CHECK_PYTHON_ERR, this_createRowPyObject, CArrowChunkIterator.createRowPyObject,
      RecordBatch.num_columns, tupleLoop, IColumnConverter.toPyObject, raise, hdec, exhausted]

theorem fixed_positive_scale_standard_witness :
    (isFixedInt sampleFixedInt32.field.type = true →
      initColumn sampleEnv false sampleFixedInt32 =
        Except.ok (ColumnInit.push ⟨ConverterKind.DecimalFromIntConverter 5 2,
          sampleFixedInt32.array⟩)) ∧
    (sampleFixedInt32.field.type = ArrowType.NANOARROW_TYPE_DECIMAL128 →
      initColumn sampleEnv false sampleFixedInt32 =
        Except.ok (ColumnInit.push ⟨ConverterKind.DecimalFromDecimalConverter 2,
          sampleFixedInt32.array⟩)) ∧
    ∃ it, nextN sampleEnv 3 (CArrowChunkIterator.new [⟨2, [sampleFixedInt32]⟩] false false) =
        Except.ok ([⟨some (PyObject.Tuple
            [(sampleEnv.toPyObject (ConverterKind.DecimalFromIntConverter 5 2) sampleArray 0).obj]),
              none⟩,
          ⟨some (PyObject.Tuple
            [(sampleEnv.toPyObject (ConverterKind.DecimalFromIntConverter 5 2) sampleArray 1).obj]),
              none⟩,
          exhausted], it) ∧
      it.m_currentBatchConverters = [⟨ConverterKind.DecimalFromIntConverter 5 2, sampleArray⟩] :=
  have h := fixed_positive_scale_standard sampleEnv sampleFixedInt32 2 5
    (by decide) (by decide) (by decide) (by decide)
  ⟨h.1, h.2.1, h.2.2 (by decide) (fun r => by
    simp only [sampleEnv, sampleToPyObject]
    split <;> rfl)⟩

/-- C10: for a TIMESTAMP_TZ column whose metadata holds a scale and a
byteLength that parse, the factory pushes `TwoFieldTimeStampTZConverter` if and
only if byteLength is 8 and `ThreeFieldTimeStampTZConverter` if and only if it
is 16, each constructed with the parsed scale; for any other byteLength it sets
an error and leaves the roster as it was. -/
theorem timestamp_tz_byteLength (env : Externals) (m_useNumpy : Bool) (col : Column)
    (md : List (String × String)) (scale byteLength : Int)
    (hreg : env.snowflakeTypeFromString (logicalTypeString col.field.metadata) =
      SnowflakeType.TIMESTAMP_TZ)
    (hmd : col.field.metadata = some md)
    (hs : stoiKey md "scale" = Except.ok scale)
    (hb : stoiKey md "byteLength" = Except.ok byteLength) :
    ((∃ c s, initColumn env m_useNumpy col = Except.ok (ColumnInit.push c) ∧
        c.kind = ConverterKind.TwoFieldTimeStampTZConverter s) ↔ byteLength = 8) ∧
    ((∃ c s, initColumn env m_useNumpy col = Except.ok (ColumnInit.push c) ∧
        c.kind = ConverterKind.ThreeFieldTimeStampTZConverter s) ↔ byteLength = 16) ∧
    (byteLength = 8 → initColumn env m_useNumpy col =
      Except.ok (ColumnInit.push ⟨ConverterKind.TwoFieldTimeStampTZConverter scale, col.array⟩)) ∧
    (byteLength = 16 → initColumn env m_useNumpy col =
      Except.ok (ColumnInit.push ⟨ConverterKind.ThreeFieldTimeStampTZConverter scale, col.array⟩)) ∧
    (byteLength ≠ 8 → byteLength ≠ 16 →
      ∃ e, initColumn env m_useNumpy col = Except.ok (ColumnInit.fail e) ∧
        ∀ rest roster pyErr,
          initColumns env m_useNumpy (col :: rest) roster pyErr = Except.ok (roster, some e)) := by
  have hinit : initColumn env m_useNumpy col =
      if byteLength = 8 then
        Except.ok (ColumnInit.push ⟨ConverterKind.TwoFieldTimeStampTZConverter scale, col.array⟩)
      else if byteLength = 16 then
        Except.ok (ColumnInit.push ⟨ConverterKind.ThreeFieldTimeStampTZConverter scale, col.array⟩)
      else
        Except.ok (ColumnInit.fail (PyException.unknown_arrow_type "TIMESTAMP_TZ" col.field.type)) := by
    rw [initColumn_TIMESTAMP_TZ env m_useNumpy col hreg]
    simp only [initTIMESTAMP_TZ, metaInt, hmd, hs, hb]
  refine ⟨?_, ?_, ?_, ?_, ?_⟩
  · constructor
    · rintro ⟨c, s, hc, hk⟩
      rw [hinit] at hc
      by_contra h8
      by_cases h16 : byteLength = 16
      · simp [h8, h16] at hc
        rw [← hc] at hk
        simp at hk
      · simp [h8, h16] at hc
    · intro h8
      exact ⟨_, scale, by rw [hinit, if_pos h8], rfl⟩
  · constructor
    · rintro ⟨c, s, hc, hk⟩
      rw [hinit] at hc
      by_contra h16
      by_cases h8 : byteLength = 8
      · simp [h8] at hc
        rw [← hc] at hk
        simp at hk
      · simp [h8, h16] at hc
    · intro h16
      have h8 : byteLength ≠ 8 := by omega
      exact ⟨_, scale, by rw [hinit, if_neg h8, if_pos h16], rfl⟩
  · intro h8
    rw [hinit, if_pos h8]
  · intro h16
    have h8 : byteLength ≠ 8 := by omega
    rw [hinit, if_neg h8, if_pos h16]
  · intro h8 h16
    refine ⟨PyException.unknown_arrow_type "TIMESTAMP_TZ" col.field.type, ?_, ?_⟩
    · rw [hinit, if_neg h8, if_neg h16]
    · intro rest roster pyErr
      simp only [initColumns, hinit, if_neg h8, if_neg h16]

theorem timestamp_tz_byteLength_witness :
    initColumn sampleEnv false sampleTZ8 =
      Except.ok (ColumnInit.push ⟨ConverterKind.TwoFieldTimeStampTZConverter 3, sampleTZ8.array⟩) :=
  (timestamp_tz_byteLength sampleEnv false sampleTZ8
    [("logicalType", "TIMESTAMP_TZ"), ("scale", "3"), ("byteLength", "8")] 3 8
    (by decide) rfl (by decide) (by decide)).2.2.1 rfl

/-! ## The row loops -/

theorem tupleLoop_eq (env : Externals) (roster : List IColumnConverter) (row : Int) :
    ∀ (n i : Nat) (items : List (Option PyValue)) (pyErr : Option PyException)
      (calls : List Call), i + n ≤ roster.length →
      tupleLoop env roster row n i items pyErr calls =
        Except.ok (items ++ (List.range' i n).map (fun j => (cellAt env roster row j).obj),
          (List.range' i n).foldl (fun e j => raise (cellAt env roster row j) e) pyErr,
          calls ++ (List.range' i n).map (fun j => Call.toPyObject j row)) := by
  intro n
  induction n with
  | zero => intro i items pyErr calls _; simp [tupleLoop]
  | succ n ih =>
    intro i items pyErr calls h
    have hi : i < roster.length := by omega
    have hget : roster[i]? = some roster[i] := List.getElem?_eq_getElem hi
    have hcell : cellAt env roster row i = roster[i].toPyObject env row := by
      simp [cellAt, hget]
    simp only [tupleLoop, hget]
    rw [ih (i + 1) _ _ _ (by omega)]
    simp [List.range'_succ, hcell]

theorem tupleLoop_bound (env : Externals) (roster : List IColumnConverter) (row : Int) :
    ∀ (n i : Nat) (items : List (Option PyValue)) (pyErr : Option PyException)
      (calls : List Call) r,
      tupleLoop env roster row n i items pyErr calls = Except.ok r →
      n = 0 ∨ i + n ≤ roster.length := by
  intro n
  induction n with
  | zero => intro i items pyErr calls r _; exact Or.inl rfl
  | succ n ih =>
    intro i items pyErr calls r h
    right
    simp only [tupleLoop] at h
    cases hget : roster[i]? with
    | none => simp [hget] at h
    | some c =>
      simp only [hget] at h
      have hi : i < roster.length := by
        by_contra hcon
        have := List.getElem?_eq_none (Nat.le_of_not_lt hcon)
        rw [this] at hget
        cases hget
      rcases ih _ _ _ _ _ h with h0 | hle
      · omega
      · omega

/-! ## Frame conditions -/

theorem next_unfold (env : Externals) (it : CArrowChunkIterator) :
    CArrowChunkIterator.next env it =
      if it.m_rowIndexInBatch + 1 < it.m_rowCountInBatch then
        match this_createRowPyObject env (stepRow it) with
        | Except.error a => Except.error a
        | Except.ok it2 =>
          match it2.pyErr with
          | some e => Except.ok ({ successObj := none, exception := some e }, fetchErr it2 e)
          | none => Except.ok ({ successObj := it2.m_latestReturnedRow, exception := none }, it2)
      else if it.m_currentBatchIndex + 1 < it.m_batchCount then
        match batchAt it.m_cRecordBatches (it.m_currentBatchIndex + 1) with
        | Except.error a => Except.error a
        | Except.ok b =>
          match CArrowChunkIterator.initColumnConverters env (stepBatch it b) with
          | Except.error a => Except.error a
          | Except.ok it4 =>
            match it4.pyErr with
            | some e => Except.ok ({ successObj := none, exception := some e }, fetchErr it4 e)
            | none =>
              match this_createRowPyObject env it4 with
              | Except.error a => Except.error a
              | Except.ok it5 =>
                match it5.pyErr with
                | some e => Except.ok ({ successObj := none, exception := some e }, fetchErr it5 e)
                | none =>
                  Except.ok ({ successObj := it5.m_latestReturnedRow, exception := none }, it5)
      else Except.ok (exhausted, stepEnd it) := by
  unfold CArrowChunkIterator.next
  simp only [stepRow, stepBatch, stepEnd, exhausted]
  split
  · cases this_createRowPyObject env _ with
    | error a => rfl
    | ok it2 =>
      simp only [SF_CHECK_PYTHON_ERR, fetchErr]
      cases it2.pyErr <;> rfl
  · split
    · cases batchAt it.m_cRecordBatches (it.m_currentBatchIndex + 1) with
      | error a => rfl
      | ok b =>
        simp only
        cases CArrowChunkIterator.initColumnConverters env _ with
        | error a => rfl
        | ok it4 =>
          simp only [SF_CHECK_PYTHON_ERR, fetchErr]
          cases h4 : it4.pyErr with
          | some e => rfl
          | none =>
            simp only
            cases this_createRowPyObject env it4 with
            | error a => rfl
            | ok it5 =>
              simp only
              cases it5.pyErr <;> rfl
    · rfl

theorem initColumnConverters_ok (env : Externals) (it it4 : CArrowChunkIterator)
    (h : CArrowChunkIterator.initColumnConverters env it = Except.ok it4) :
    ∃ b roster e, batchAt it.m_cRecordBatches it.m_currentBatchIndex = Except.ok b ∧
      initColumns env it.m_useNumpy b.columns [] it.pyErr = Except.ok (roster, e) ∧
      it4 = { it with
        m_currentBatchConverters := roster
        m_currentSchema := some b.schema
        pyErr := e
        calls := it.calls ++ [Call.initColumnConverters it.m_currentBatchIndex] } := by
  unfold CArrowChunkIterator.initColumnConverters at h
  cases hb : batchAt it.m_cRecordBatches it.m_currentBatchIndex with
  | error a => simp [hb] at h
  | ok b =>
    simp only [hb] at h
    cases hi : initColumns env it.m_useNumpy b.columns [] it.pyErr with
    | error a => simp [hi] at h
    | ok r =>
      obtain ⟨roster, e⟩ := r
      simp only [hi] at h
      injection h with h
      exact ⟨b, roster, e, rfl, hi, h.symm⟩

theorem createRowPyObject_tuple_ok (env : Externals) (it it2 : CArrowChunkIterator)
    (h : CArrowChunkIterator.createRowPyObject env it = Except.ok it2) :
    ∃ items e calls,
      tupleLoop env it.m_currentBatchConverters it.m_rowIndexInBatch it.m_columnCount.toNat 0
        [] it.pyErr
        (it.calls ++ [Call.createRowPyObject it.m_currentBatchIndex it.m_rowIndexInBatch]) =
        Except.ok (items, e, calls) ∧
      it2 = { it with m_latestReturnedRow := some (PyObject.Tuple items), pyErr := e, calls := calls } := by
  unfold CArrowChunkIterator.createRowPyObject at h
  cases ht : tupleLoop env it.m_currentBatchConverters it.m_rowIndexInBatch it.m_columnCount.toNat 0
      [] it.pyErr
      (it.calls ++ [Call.createRowPyObject it.m_currentBatchIndex it.m_rowIndexInBatch]) with
  | error a => simp [ht] at h
  | ok r =>
    obtain ⟨items, e, calls⟩ := r
    simp only [ht] at h
    injection h with h
    exact ⟨items, e, calls, rfl, h.symm⟩

theorem createRowPyObject_dict_ok (env : Externals) (it it2 : CArrowChunkIterator)
    (h : DictCArrowChunkIterator.createRowPyObject env it = Except.ok it2) :
    ∃ schema d e calls, it.m_currentSchema = some schema ∧
      dictLoop env it.m_currentBatchConverters schema it.m_rowIndexInBatch schema.length 0
        [] it.pyErr
        (it.calls ++ [Call.createRowPyObject it.m_currentBatchIndex it.m_rowIndexInBatch]) =
        Except.ok (d, e, calls) ∧
      it2 = { it with m_latestReturnedRow := some (PyObject.Dict d), pyErr := e, calls := calls } := by
  unfold DictCArrowChunkIterator.createRowPyObject at h
  cases hs : it.m_currentSchema with
  | none => simp [hs] at h
  | some schema =>
    simp only [hs] at h
    cases ht : dictLoop env it.m_currentBatchConverters schema it.m_rowIndexInBatch schema.length 0
        [] it.pyErr
        (it.calls ++ [Call.createRowPyObject it.m_currentBatchIndex it.m_rowIndexInBatch]) with
    | error a => simp [ht] at h
    | ok r =>
      obtain ⟨d, e, calls⟩ := r
      simp only [ht] at h
      injection h with h
      exact ⟨schema, d, e, calls, rfl, ht, h.symm⟩

theorem this_createRowPyObject_frame (env : Externals) (it it2 : CArrowChunkIterator)
    (h : this_createRowPyObject env it = Except.ok it2) :
    sameCounters it it2 ∧ it2.m_currentBatchConverters = it.m_currentBatchConverters ∧
      it2.m_currentSchema = it.m_currentSchema ∧
      ((∃ items, it2.m_latestReturnedRow = some (PyObject.Tuple items)) ∨
        ∃ d, it2.m_latestReturnedRow = some (PyObject.Dict d)) := by
  unfold this_createRowPyObject at h
  split at h
  · obtain ⟨schema, d, e, calls, _, _, rfl⟩ := createRowPyObject_dict_ok env it it2 h
    exact ⟨⟨rfl, rfl, rfl, rfl, rfl, rfl, rfl, rfl⟩, rfl, rfl, Or.inr ⟨d, rfl⟩⟩
  · obtain ⟨items, e, calls, _, rfl⟩ := createRowPyObject_tuple_ok env it it2 h
    exact ⟨⟨rfl, rfl, rfl, rfl, rfl, rfl, rfl, rfl⟩, rfl, rfl, Or.inl ⟨items, rfl⟩⟩

theorem row_ne_exhausted (it2 : CArrowChunkIterator)
    (h : (∃ items, it2.m_latestReturnedRow = some (PyObject.Tuple items)) ∨
      ∃ d, it2.m_latestReturnedRow = some (PyObject.Dict d)) :
    ({ successObj := it2.m_latestReturnedRow, exception := none } : ReturnVal) ≠ exhausted := by
  intro hc
  simp only [exhausted, ReturnVal.mk.injEq] at hc
  rcases h with ⟨items, hi⟩ | ⟨d, hd⟩
  · rw [hi] at hc
    simp at hc
  · rw [hd] at hc
    simp at hc

/-- Inversion of `next()`: the three ways a call can return. -/
theorem next_cases (env : Externals) (it it1 : CArrowChunkIterator) (rv : ReturnVal)
    (h : CArrowChunkIterator.next env it = Except.ok (rv, it1)) :
    (it.m_rowIndexInBatch + 1 < it.m_rowCountInBatch ∧
      ∃ it2, this_createRowPyObject env (stepRow it) = Except.ok it2 ∧
        ((it2.pyErr = none ∧ rv = ⟨it2.m_latestReturnedRow, none⟩ ∧ it1 = it2) ∨
          ∃ e, it2.pyErr = some e ∧ rv = ⟨none, some e⟩ ∧ it1 = fetchErr it2 e)) ∨
    (¬ it.m_rowIndexInBatch + 1 < it.m_rowCountInBatch ∧
      it.m_currentBatchIndex + 1 < it.m_batchCount ∧
      ∃ b it4, batchAt it.m_cRecordBatches (it.m_currentBatchIndex + 1) = Except.ok b ∧
        CArrowChunkIterator.initColumnConverters env (stepBatch it b) = Except.ok it4 ∧
        ((∃ e, it4.pyErr = some e ∧ rv = ⟨none, some e⟩ ∧ it1 = fetchErr it4 e) ∨
          (it4.pyErr = none ∧ ∃ it5, this_createRowPyObject env it4 = Except.ok it5 ∧
            ((it5.pyErr = none ∧ rv = ⟨it5.m_latestReturnedRow, none⟩ ∧ it1 = it5) ∨
              ∃ e, it5.pyErr = some e ∧ rv = ⟨none, some e⟩ ∧ it1 = fetchErr it5 e)))) ∨
    (¬ it.m_rowIndexInBatch + 1 < it.m_rowCountInBatch ∧
      ¬ it.m_currentBatchIndex + 1 < it.m_batchCount ∧ rv = exhausted ∧ it1 = stepEnd it) := by
  rw [next_unfold] at h
  by_cases h1 : it.m_rowIndexInBatch + 1 < it.m_rowCountInBatch
  · left
    rw [if_pos h1] at h
    refine ⟨h1, ?_⟩
    cases hc : this_createRowPyObject env (stepRow it) with
    | error a => simp [hc] at h
    | ok it2 =>
      simp only [hc] at h
      refine ⟨it2, rfl, ?_⟩
      cases he : it2.pyErr with
      | none =>
        simp only [he] at h
        injection h with h
        injection h with ha hb
        exact Or.inl ⟨rfl, ha.symm, hb.symm⟩
      | some e =>
        simp only [he] at h
        injection h with h
        injection h with ha hb
        exact Or.inr ⟨e, rfl, ha.symm, hb.symm⟩
  · right
    rw [if_neg h1] at h
    by_cases h2 : it.m_currentBatchIndex + 1 < it.m_batchCount
    · left
      rw [if_pos h2] at h
      refine ⟨h1, h2, ?_⟩
      cases hb : batchAt it.m_cRecordBatches (it.m_currentBatchIndex + 1) with
      | error a => simp [hb] at h
      | ok b =>
        simp only [hb] at h
        cases hi : CArrowChunkIterator.initColumnConverters env (stepBatch it b) with
        | error a => simp [hi] at h
        | ok it4 =>
          simp only [hi] at h
          refine ⟨b, it4, rfl, hi, ?_⟩
          cases he : it4.pyErr with
          | some e =>
            simp only [he] at h
            injection h with h
            injection h with ha hb
            exact Or.inl ⟨e, rfl, ha.symm, hb.symm⟩
          | none =>
            simp only [he] at h
            right
            refine ⟨rfl, ?_⟩
            cases hc : this_createRowPyObject env it4 with
            | error a => simp [hc] at h
            | ok it5 =>
              simp only [hc] at h
              refine ⟨it5, rfl, ?_⟩
              cases he5 : it5.pyErr with
              | none =>
                simp only [he5] at h
                injection h with h
                injection h with ha hb
                exact Or.inl ⟨rfl, ha.symm, hb.symm⟩
              | some e =>
                simp only [he5] at h
                injection h with h
                injection h with ha hb
                exact Or.inr ⟨e, rfl, ha.symm, hb.symm⟩
    · right
      rw [if_neg h2] at h
      injection h with h
      injection h with ha hb
      exact ⟨h1, h2, ha.symm, hb.symm⟩

/-! ## Exhaustion -/

theorem nextN_past_end (env : Externals) :
    ∀ (n : Nat) (it : CArrowChunkIterator),
      ¬ it.m_rowIndexInBatch + 1 < it.m_rowCountInBatch →
      ¬ it.m_currentBatchIndex + 1 < it.m_batchCount →
      ∃ it2, nextN env n it = Except.ok (List.replicate n exhausted, it2) ∧
        it2.calls = it.calls ∧ it2.m_currentBatchConverters = it.m_currentBatchConverters ∧
        it2.m_currentBatchIndex = it.m_currentBatchIndex + n := by
  intro n
  induction n with
  | zero => intro it _ _; exact ⟨it, rfl, rfl, rfl, by simp⟩
  | succ n ih =>
    intro it h1 h2
    have hstep : CArrowChunkIterator.next env it = Except.ok (exhausted, stepEnd it) := by
      rw [next_unfold, if_neg h1, if_neg h2]
    obtain ⟨it2, hrun, hcalls, hroster, hidx⟩ := ih (stepEnd it)
      (by simp only [stepEnd]; omega) (by simp only [stepEnd]; omega)
    refine ⟨it2, ?_, hcalls, hroster, ?_⟩
    · simp only [nextN, hstep, hrun, List.replicate_succ]
    · rw [hidx]
      simp only [stepEnd]
      push_cast
      ring

theorem next_exhausted_inv (env : Externals) (it it1 : CArrowChunkIterator)
    (h : CArrowChunkIterator.next env it = Except.ok (exhausted, it1)) :
    ¬ it.m_rowIndexInBatch + 1 < it.m_rowCountInBatch ∧
      ¬ it.m_currentBatchIndex + 1 < it.m_batchCount ∧ it1 = stepEnd it := by
  have herr : ∀ e : PyException, exhausted ≠ (⟨none, some e⟩ : ReturnVal) := by
    intro e hc
    simp [exhausted] at hc
  rcases next_cases env it it1 exhausted h with hA | hB | hC
  · obtain ⟨_, it2, hc, hrow | ⟨e, _, hrv, _⟩⟩ := hA
    · exact absurd hrow.2.1.symm (row_ne_exhausted it2 (this_createRowPyObject_frame env _ it2 hc).2.2.2)
    · exact absurd hrv (herr e)
  · obtain ⟨_, _, b, it4, _, _, ⟨e, _, hrv, _⟩ | ⟨_, it5, hc, hrow | ⟨e, _, hrv, _⟩⟩⟩ := hB
    · exact absurd hrv (herr e)
    · exact absurd hrow.2.1.symm (row_ne_exhausted it5 (this_createRowPyObject_frame env _ it5 hc).2.2.2)
    · exact absurd hrv (herr e)
  · exact ⟨hC.1, hC.2.1, hC.2.2.2⟩

/-- C2: once a call of `next()` has returned the exhaustion signal, every
later call returns the exhaustion signal again (no row, no error), and none of
them calls `initColumnConverters`, `createRowPyObject` or a converter: the call
record and the roster stay as they were before the first exhausted call. -/
theorem exhaustion_is_terminal (env : Externals) (it it1 : CArrowChunkIterator)
    (h : CArrowChunkIterator.next env it = Except.ok (exhausted, it1)) (n : Nat) :
    ∃ it2, nextN env n it1 = Except.ok (List.replicate n exhausted, it2) ∧
      it2.calls = it.calls ∧ it1.calls = it.calls ∧
      it2.m_currentBatchConverters = it.m_currentBatchConverters := by
  obtain ⟨h1, h2, rfl⟩ := next_exhausted_inv env it it1 h
  obtain ⟨it2, hrun, hcalls, hroster, _⟩ := nextN_past_end env n (stepEnd it)
    (by simp only [stepEnd]; omega) (by simp only [stepEnd]; omega)
  exact ⟨it2, hrun, hcalls, rfl, hroster⟩

theorem exhaustion_is_terminal_witness :
    ∃ it2, nextN sampleEnv 4 (stepEnd (CArrowChunkIterator.new [] false false)) =
        Except.ok (List.replicate 4 exhausted, it2) ∧
      it2.calls = (CArrowChunkIterator.new [] false false).calls ∧
      (stepEnd (CArrowChunkIterator.new [] false false)).calls =
        (CArrowChunkIterator.new [] false false).calls ∧
      it2.m_currentBatchConverters =
        (CArrowChunkIterator.new [] false false).m_currentBatchConverters :=
  exhaustion_is_terminal sampleEnv (CArrowChunkIterator.new [] false false)
    (stepEnd (CArrowChunkIterator.new [] false false)) (by decide) 4

/-! ## Batches without rows -/

/-- C1 (the code at the failing input): a single batch with row count 0 makes
the first `next()` return a row, and only the second call returns the
exhaustion signal: one row is served although the row counts sum to 0. This
holds for a batch without columns under any externals, and for a batch with
one text column (the converter is then asked for row 0 of an empty column). -/
theorem zero_row_batch_serves_a_row :
    (∀ env : Externals,
      Except.map Prod.fst (nextN env 2 (CArrowChunkIterator.new [⟨0, []⟩] false false)) =
        Except.ok [⟨some (PyObject.Tuple []), none⟩, exhausted]) ∧
    Except.map Prod.fst
        (nextN sampleEnv 2 (CArrowChunkIterator.new [⟨0, [sampleEmptyText]⟩] false false)) =
      Except.ok [⟨some (PyObject.Tuple [some (PyValue.Object 0)]), none⟩, exhausted] ∧
    (CArrowChunkIterator.new [⟨0, [sampleEmptyText]⟩] false false).m_cRecordBatches.map
      (fun b => b.num_rows) = [0] := by
  refine ⟨?_, by decide, by decide⟩
  intro env
  simp [nextN, CArrowChunkIterator.next, CArrowChunkIterator.new, batchAt,
    CArrowChunkIterator.initColumnConverters, initColumns,
    SF_CHECK_PYTHON_ERR, this_createRowPyObject, CArrowChunkIterator.createRowPyObject,
    RecordBatch.num_columns, tupleLoop, exhausted, Except.map]

/-! ## The named row -/

theorem mem_keys_setItem (d : List (String × PyValue)) (key : String) (v : PyValue) (k : String) :
    k ∈ (PyDict_SetItemString d key v).map Prod.fst ↔ k ∈ d.map Prod.fst ∨ k = key := by
  unfold PyDict_SetItemString
  split
  · rename_i hany
    have hkey : key ∈ d.map Prod.fst := by
      simp only [List.any_eq_true, beq_iff_eq] at hany
      obtain ⟨p, hp, hpk⟩ := hany
      exact List.mem_map.mpr ⟨p, hp, hpk⟩
    have hmap : (d.map (fun p => if (p.1 == key) = true then (key, v) else p)).map Prod.fst =
        d.map Prod.fst := by
      rw [List.map_map]
      apply List.map_congr_left
      intro p _
      by_cases hp : p.1 = key
      · simp [hp]
      · simp [hp]
    rw [hmap]
    constructor
    · intro h; exact Or.inl h
    · rintro (h | h)
      · exact h
      · rw [h]; exact hkey
  · simp

theorem mem_setItem (d : List (String × PyValue)) (key : String) (v : PyValue) (k : String)
    (w : PyValue) (h : (k, w) ∈ PyDict_SetItemString d key v) :
    (k, w) ∈ d ∨ (k = key ∧ w = v) := by
  unfold PyDict_SetItemString at h
  split at h
  · obtain ⟨p, hp, hpe⟩ := List.mem_map.mp h
    by_cases hk : p.1 = key
    · simp [hk] at hpe
      exact Or.inr ⟨hpe.1.symm, hpe.2.symm⟩
    · simp [hk] at hpe
      rw [hpe] at hp
      exact Or.inl hp
  · simp at h
    rcases h with h | ⟨h1, h2⟩
    · exact Or.inl h
    · exact Or.inr ⟨h1, h2⟩

theorem dictLoop_spec (env : Externals) (roster : List IColumnConverter) (schema : List Field)
    (row : Int) :
    ∀ (n i : Nat) (d : List (String × PyValue)) (pyErr : Option PyException) (calls : List Call)
      (d2 : List (String × PyValue)) (e2 : Option PyException) (calls2 : List Call),
      dictLoop env roster schema row n i d pyErr calls = Except.ok (d2, e2, calls2) →
      (∀ k, k ∈ d2.map Prod.fst ↔ k ∈ d.map Prod.fst ∨
        ∃ j c f v, i ≤ j ∧ j < i + n ∧ roster[j]? = some c ∧ schema[j]? = some f ∧
          f.name = k ∧ (c.toPyObject env row).obj = some v) ∧
      (∀ k v, (k, v) ∈ d2 → (k, v) ∈ d ∨
        ∃ j c f, i ≤ j ∧ j < i + n ∧ roster[j]? = some c ∧ schema[j]? = some f ∧
          f.name = k ∧ (c.toPyObject env row).obj = some v) := by
  intro n
  induction n with
  | zero =>
    intro i d pyErr calls d2 e2 calls2 h
    simp only [dictLoop] at h
    injection h with h
    injection h with hd _
    subst hd
    constructor
    · intro k
      constructor
      · intro hk; exact Or.inl hk
      · rintro (hk | ⟨j, _, _, _, h1, h2, _⟩)
        · exact hk
        · omega
    · intro k v hk; exact Or.inl hk
  | succ n ih =>
    intro i d pyErr calls d2 e2 calls2 h
    simp only [dictLoop] at h
    cases hget : roster[i]? with
    | none => simp [hget] at h
    | some c =>
      simp only [hget] at h
      cases hobj : (c.toPyObject env row).obj with
      | none =>
        simp only [hobj, UniqueRef.empty, Option.isNone, if_true] at h
        obtain ⟨ih1, ih2⟩ := ih _ _ _ _ _ _ _ h
        constructor
        · intro k
          rw [ih1 k]
          constructor
          · rintro (hk | ⟨j, c2, f, v, h1, h2, h3, h4, h5, h6⟩)
            · exact Or.inl hk
            · exact Or.inr ⟨j, c2, f, v, by omega, by omega, h3, h4, h5, h6⟩
          · rintro (hk | ⟨j, c2, f, v, h1, h2, h3, h4, h5, h6⟩)
            · exact Or.inl hk
            · by_cases hj : j = i
              · subst hj
                rw [hget] at h3
                injection h3 with h3
                subst h3
                rw [hobj] at h6
                cases h6
              · exact Or.inr ⟨j, c2, f, v, by omega, by omega, h3, h4, h5, h6⟩
        · intro k v hk
          rcases ih2 k v hk with hk2 | ⟨j, c2, f, h1, h2, h3, h4, h5, h6⟩
          · exact Or.inl hk2
          · exact Or.inr ⟨j, c2, f, by omega, by omega, h3, h4, h5, h6⟩
      | some v0 =>
        simp only [hobj, UniqueRef.empty, Option.isNone] at h
        cases hf : schema[i]? with
        | none => simp [hf] at h
        | some f0 =>
          simp only [hf] at h
          simp only [Bool.false_eq_true, if_false] at h
          obtain ⟨ih1, ih2⟩ := ih _ _ _ _ _ _ _ h
          constructor
          · intro k
            rw [ih1 k, mem_keys_setItem]
            constructor
            · rintro ((hk | hk) | ⟨j, c2, f, v, h1, h2, h3, h4, h5, h6⟩)
              · exact Or.inl hk
              · exact Or.inr ⟨i, c, f0, v0, le_refl i, by omega, hget, hf, hk.symm, hobj⟩
              · exact Or.inr ⟨j, c2, f, v, by omega, by omega, h3, h4, h5, h6⟩
            · rintro (hk | ⟨j, c2, f, v, h1, h2, h3, h4, h5, h6⟩)
              · exact Or.inl (Or.inl hk)
              · by_cases hj : j = i
                · subst hj
                  rw [hf] at h4
                  injection h4 with h4
                  subst h4
                  exact Or.inl (Or.inr h5.symm)
                · exact Or.inr ⟨j, c2, f, v, by omega, by omega, h3, h4, h5, h6⟩
          · intro k v hk
            rcases ih2 k v hk with hk2 | ⟨j, c2, f, h1, h2, h3, h4, h5, h6⟩
            · rcases mem_setItem d f0.name v0 k v hk2 with hk3 | ⟨hk3, hv3⟩
              · exact Or.inl hk3
              · refine Or.inr ⟨i, c, f0, le_refl i, by omega, hget, hf, hk3.symm, ?_⟩
                rw [hobj, hv3]
            · exact Or.inr ⟨j, c2, f, by omega, by omega, h3, h4, h5, h6⟩

/-- C3 (as amended): in the mapping built by
`DictCArrowChunkIterator::createRowPyObject` a key is present if and only if
it is the name of a column whose converter returned a non-null pointer for the
current row, and every binding maps a column name to the object a converter of
that name returned; in particular a column whose converter returned the `None`
object has its key in the mapping. -/
theorem named_row_keys (env : Externals) (it it2 : CArrowChunkIterator)
    (h : DictCArrowChunkIterator.createRowPyObject env it = Except.ok it2) :
    ∃ (schema : List Field) (d : List (String × PyValue)), it.m_currentSchema = some schema ∧
      it2.m_latestReturnedRow = some (PyObject.Dict d) ∧
      (∀ k, k ∈ d.map Prod.fst ↔
        ∃ (j : Nat) (c : IColumnConverter) (f : Field) (v : PyValue), it.m_currentBatchConverters[j]? = some c ∧ schema[j]? = some f ∧ f.name = k ∧
          (c.toPyObject env it.m_rowIndexInBatch).obj = some v) ∧
      (∀ k v, (k, v) ∈ d →
        ∃ (j : Nat) (c : IColumnConverter) (f : Field), it.m_currentBatchConverters[j]? = some c ∧ schema[j]? = some f ∧ f.name = k ∧
          (c.toPyObject env it.m_rowIndexInBatch).obj = some v) ∧
      (∀ (j : Nat) (c : IColumnConverter) (f : Field), it.m_currentBatchConverters[j]? = some c → schema[j]? = some f →
        (c.toPyObject env it.m_rowIndexInBatch).obj = some PyValue.None →
        f.name ∈ d.map Prod.fst) := by
  obtain ⟨schema, d, e, calls, hs, hloop, rfl⟩ := createRowPyObject_dict_ok env it it2 h
  obtain ⟨h1, h2⟩ := dictLoop_spec env _ schema _ _ _ _ _ _ _ _ _ hloop
  have hkeys : ∀ k, k ∈ d.map Prod.fst ↔
      ∃ (j : Nat) (c : IColumnConverter) (f : Field) (v : PyValue), it.m_currentBatchConverters[j]? = some c ∧ schema[j]? = some f ∧ f.name = k ∧
        (c.toPyObject env it.m_rowIndexInBatch).obj = some v := by
    intro k
    rw [h1 k]
    constructor
    · rintro (hk | ⟨j, c, f, v, _, _, h3, h4, h5, h6⟩)
      · simp at hk
      · exact ⟨j, c, f, v, h3, h4, h5, h6⟩
    · rintro ⟨j, c, f, v, h3, h4, h5, h6⟩
      have hj : j < schema.length := by
        by_contra hcon
        rw [List.getElem?_eq_none (Nat.le_of_not_lt hcon)] at h4
        cases h4
      exact Or.inr ⟨j, c, f, v, Nat.zero_le j, by omega, h3, h4, h5, h6⟩
  refine ⟨schema, d, hs, rfl, hkeys, ?_, ?_⟩
  · intro k v hk
    rcases h2 k v hk with hk2 | ⟨j, c, f, _, _, h3, h4, h5, h6⟩
    · simp at hk2
    · exact ⟨j, c, f, h3, h4, h5, h6⟩
  · intro j c f h3 h4 h6
    exact (hkeys f.name).mpr ⟨j, c, f, PyValue.None, h3, h4, rfl, h6⟩

theorem named_row_keys_witness :
    ∃ (schema : List Field) (d : List (String × PyValue)),
      sampleDictState.m_currentSchema = some schema ∧
      sampleDictStateAfter.m_latestReturnedRow = some (PyObject.Dict d) ∧
      (∀ k, k ∈ d.map Prod.fst ↔
        ∃ (j : Nat) (c : IColumnConverter) (f : Field) (v : PyValue),
          sampleDictState.m_currentBatchConverters[j]? = some c ∧ schema[j]? = some f ∧
          f.name = k ∧ (c.toPyObject sampleEnv sampleDictState.m_rowIndexInBatch).obj = some v) ∧
      (∀ k v, (k, v) ∈ d →
        ∃ (j : Nat) (c : IColumnConverter) (f : Field),
          sampleDictState.m_currentBatchConverters[j]? = some c ∧ schema[j]? = some f ∧
          f.name = k ∧ (c.toPyObject sampleEnv sampleDictState.m_rowIndexInBatch).obj = some v) ∧
      (∀ (j : Nat) (c : IColumnConverter) (f : Field),
        sampleDictState.m_currentBatchConverters[j]? = some c → schema[j]? = some f →
        (c.toPyObject sampleEnv sampleDictState.m_rowIndexInBatch).obj = some PyValue.None →
        f.name ∈ d.map Prod.fst) :=
  named_row_keys sampleEnv sampleDictState sampleDictStateAfter (by decide)

/-- C3 (counterexample): a named-row iterator over one batch with a binary
column `B` whose second row is null returns, for that row, a mapping that
holds the key `B` bound to `None`, although the converter returned the `None`
object for it. -/
theorem named_row_keeps_null_key :
    BinaryConverter.toPyObject sampleBinaryArray 1 = { obj := some PyValue.None, err := none } ∧
    Except.map Prod.fst
        (nextN sampleEnv 2 (CArrowChunkIterator.new [⟨2, [sampleBinary "B"]⟩] false true)) =
      Except.ok [⟨some (PyObject.Dict [("B", PyValue.ByteArray [1, 2, 3])]), none⟩,
        ⟨some (PyObject.Dict [("B", PyValue.None)]), none⟩] := by
  decide

/-! ## The positional row -/

theorem createRowPyObject_tuple_items (env : Externals) (it it2 : CArrowChunkIterator)
    (h : CArrowChunkIterator.createRowPyObject env it = Except.ok it2) :
    ∃ items, it2.m_latestReturnedRow = some (PyObject.Tuple items) ∧
      items.length = it.m_columnCount.toNat ∧
      ∀ i, i < items.length →
        ∃ c, it.m_currentBatchConverters[i]? = some c ∧
          items[i]? = some (c.toPyObject env it.m_rowIndexInBatch).obj := by
  obtain ⟨items, e, calls, hloop, rfl⟩ := createRowPyObject_tuple_ok env it it2 h
  have hb : 0 + it.m_columnCount.toNat ≤ it.m_currentBatchConverters.length := by
    rcases tupleLoop_bound env _ _ _ _ _ _ _ _ hloop with h0 | hle
    · omega
    · exact hle
  rw [tupleLoop_eq env _ _ _ _ _ _ _ hb] at hloop
  injection hloop with hloop
  injection hloop with hitems _
  simp only [List.nil_append] at hitems
  subst hitems
  refine ⟨_, rfl, by simp, ?_⟩
  intro i hi
  simp only [List.length_map, List.length_range'] at hi
  have hlt : i < it.m_currentBatchConverters.length := by omega
  refine ⟨it.m_currentBatchConverters[i], List.getElem?_eq_getElem hlt, ?_⟩
  simp [List.getElem?_map, List.getElem?_range', hi, cellAt, List.getElem?_eq_getElem hlt]

theorem next_counters (env : Externals) (it it1 : CArrowChunkIterator) (rv : ReturnVal)
    (h : CArrowChunkIterator.next env it = Except.ok (rv, it1)) :
    (it.m_rowIndexInBatch + 1 < it.m_rowCountInBatch ∧ sameCounters (stepRow it) it1) ∨
    (¬ it.m_rowIndexInBatch + 1 < it.m_rowCountInBatch ∧
      it.m_currentBatchIndex + 1 < it.m_batchCount ∧
      ∃ b, batchAt it.m_cRecordBatches (it.m_currentBatchIndex + 1) = Except.ok b ∧
        sameCounters (stepBatch it b) it1) ∨
    (¬ it.m_rowIndexInBatch + 1 < it.m_rowCountInBatch ∧
      ¬ it.m_currentBatchIndex + 1 < it.m_batchCount ∧ rv = exhausted ∧ it1 = stepEnd it) := by
  have hfetch : ∀ (a b : CArrowChunkIterator) (e : PyException),
      sameCounters a b → sameCounters a (fetchErr b e) := by
    intro a b e hab
    exact hab
  have hinit : ∀ (a b : CArrowChunkIterator),
      CArrowChunkIterator.initColumnConverters env a = Except.ok b → sameCounters a b := by
    intro a b hab
    obtain ⟨_, _, _, _, _, rfl⟩ := initColumnConverters_ok env a b hab
    exact ⟨rfl, rfl, rfl, rfl, rfl, rfl, rfl, rfl⟩
  have htrans : ∀ (a b c : CArrowChunkIterator),
      sameCounters a b → sameCounters b c → sameCounters a c := by
    intro a b c hab hbc
    obtain ⟨a1, a2, a3, a4, a5, a6, a7, a8⟩ := hab
    obtain ⟨b1, b2, b3, b4, b5, b6, b7, b8⟩ := hbc
    exact ⟨b1.trans a1, b2.trans a2, b3.trans a3, b4.trans a4, b5.trans a5, b6.trans a6,
      b7.trans a7, b8.trans a8⟩
  rcases next_cases env it it1 rv h with hA | hB | hC
  · obtain ⟨h1, it2, hc, ⟨_, _, rfl⟩ | ⟨e, _, _, rfl⟩⟩ := hA
    · exact Or.inl ⟨h1, (this_createRowPyObject_frame env _ _ hc).1⟩
    · exact Or.inl ⟨h1, hfetch _ _ e (this_createRowPyObject_frame env _ _ hc).1⟩
  · obtain ⟨h1, h2, b, it4, hb, hi, hrest⟩ := hB
    refine Or.inr (Or.inl ⟨h1, h2, b, hb, ?_⟩)
    rcases hrest with ⟨e, _, _, rfl⟩ | ⟨_, it5, hc, ⟨_, _, rfl⟩ | ⟨e, _, _, rfl⟩⟩
    · exact hfetch _ _ e (hinit _ _ hi)
    · exact htrans _ _ _ (hinit _ _ hi) (this_createRowPyObject_frame env _ _ hc).1
    · exact hfetch _ _ e
        (htrans _ _ _ (hinit _ _ hi) (this_createRowPyObject_frame env _ _ hc).1)
  · exact Or.inr (Or.inr hC)

theorem next_CountersOk (env : Externals) (it it1 : CArrowChunkIterator) (rv : ReturnVal)
    (hinv : CountersOk it) (h : CArrowChunkIterator.next env it = Except.ok (rv, it1)) :
    CountersOk it1 ∧ it1.m_cRecordBatches = it.m_cRecordBatches ∧
      it1.m_columnCount = it.m_columnCount ∧ it1.isDict = it.isDict ∧
      it1.m_useNumpy = it.m_useNumpy := by
  obtain ⟨i1, i2, i3⟩ := hinv
  rcases next_counters env it it1 rv h with ⟨h1, hs⟩ | ⟨h1, h2, b, _, hs⟩ | ⟨h1, h2, _, rfl⟩
  · obtain ⟨s1, s2, s3, s4, s5, s6, s7, s8⟩ := hs
    simp only [stepRow] at s1 s2 s3 s4 s5 s6 s7 s8
    refine ⟨⟨?_, ?_, ?_⟩, s1, s3, s8, s7⟩
    · rw [s4, s1]; exact i1
    · rw [s5]; exact i2
    · intro _
      rw [s5, s4]
      exact i3 h1
  · obtain ⟨s1, s2, s3, s4, s5, s6, s7, s8⟩ := hs
    simp only [stepBatch] at s1 s2 s3 s4 s5 s6 s7 s8
    refine ⟨⟨?_, ?_, ?_⟩, s1, s3, s8, s7⟩
    · rw [s4, s1]; exact i1
    · rw [s5]; omega
    · intro _
      rw [s5, s4]
      omega
  · refine ⟨⟨i1, ?_, ?_⟩, rfl, rfl, rfl, rfl⟩
    · show -1 ≤ it.m_currentBatchIndex + 1
      omega
    · intro hlt
      exfalso
      have : it.m_rowIndexInBatch + 1 + 1 < it.m_rowCountInBatch := hlt
      omega

theorem nextN_CountersOk (env : Externals) :
    ∀ (n : Nat) (it it1 : CArrowChunkIterator) (rvs : List ReturnVal),
      CountersOk it → nextN env n it = Except.ok (rvs, it1) →
      CountersOk it1 ∧ it1.m_cRecordBatches = it.m_cRecordBatches ∧
        it1.m_columnCount = it.m_columnCount ∧ it1.isDict = it.isDict ∧
        it1.m_useNumpy = it.m_useNumpy := by
  intro n
  induction n with
  | zero =>
    intro it it1 rvs hinv h
    simp only [nextN] at h
    injection h with h
    injection h with _ h2
    subst h2
    exact ⟨hinv, rfl, rfl, rfl, rfl⟩
  | succ n ih =>
    intro it it1 rvs hinv h
    simp only [nextN] at h
    cases hstep : CArrowChunkIterator.next env it with
    | error a => simp [hstep] at h
    | ok r =>
      obtain ⟨rv, itm⟩ := r
      simp only [hstep] at h
      cases hrest : nextN env n itm with
      | error a => simp [hrest] at h
      | ok r2 =>
        obtain ⟨rvs2, it2⟩ := r2
        simp only [hrest] at h
        injection h with h
        injection h with _ h2
        subst h2
        obtain ⟨j1, j2, j3, j4, j5⟩ := next_CountersOk env it itm rv hinv hstep
        obtain ⟨k1, k2, k3, k4, k5⟩ := ih itm it2 rvs2 j1 hrest
        exact ⟨k1, k2.trans j2, k3.trans j3, k4.trans j4, k5.trans j5⟩

theorem new_CountersOk (batches : List RecordBatch) (use_numpy isDict : Bool) :
    CountersOk (CArrowChunkIterator.new batches use_numpy isDict) := by
  refine ⟨rfl, le_refl _, ?_⟩
  intro h
  simp [CArrowChunkIterator.new] at h

theorem new_columnCount (batches : List RecordBatch) (use_numpy isDict : Bool) :
    (CArrowChunkIterator.new batches use_numpy isDict).m_columnCount =
      (firstBatchColumns batches : Int) := by
  cases batches <;> simp [CArrowChunkIterator.new, firstBatchColumns, RecordBatch.num_columns]

theorem batchAt_mem (batches : List RecordBatch) (i : Int) (b : RecordBatch)
    (h : batchAt batches i = Except.ok b) : b ∈ batches ∧ 0 ≤ i ∧ i < batches.length := by
  unfold batchAt at h
  split at h
  · cases h
  · rename_i hi
    cases hget : batches[i.toNat]? with
    | none => simp [hget] at h
    | some b2 =>
      simp only [hget] at h
      injection h with h
      subst h
      have hlt : i.toNat < batches.length := by
        by_contra hcon
        rw [List.getElem?_eq_none (Nat.le_of_not_lt hcon)] at hget
        cases hget
      refine ⟨List.getElem?_mem hget, by omega, by omega⟩

theorem batchAt_of_range (batches : List RecordBatch) (i : Int) (h0 : 0 ≤ i)
    (h1 : i < batches.length) : ∃ b, batchAt batches i = Except.ok b := by
  have hlt : i.toNat < batches.length := by omega
  refine ⟨batches[i.toNat], ?_⟩
  simp [batchAt, not_lt.mpr h0, List.getElem?_eq_getElem hlt]

theorem this_createRowPyObject_positional (env : Externals) (it it2 : CArrowChunkIterator)
    (hd : it.isDict = false) (h : this_createRowPyObject env it = Except.ok it2) :
    ∃ items, it2.m_latestReturnedRow = some (PyObject.Tuple items) ∧
      items.length = it.m_columnCount.toNat ∧
      ∀ i, i < items.length →
        ∃ c, it2.m_currentBatchConverters[i]? = some c ∧
          items[i]? = some (c.toPyObject env it2.m_rowIndexInBatch).obj := by
  have hframe := this_createRowPyObject_frame env it it2 h
  simp only [this_createRowPyObject, hd] at h
  obtain ⟨items, h1, h2, h3⟩ := createRowPyObject_tuple_items env it it2 h
  refine ⟨items, h1, h2, ?_⟩
  rw [hframe.2.1, hframe.1.2.1]
  exact h3

/-- C4 (as amended): every row that `next()` returns from a positional
iterator is a tuple whose length is the number of columns of the first batch
(the value the constructor stored in `m_columnCount`), whose element at
position `i` is what the `i`-th converter of the current roster returns for
the current row index (a `None` stays in its position); when every batch has as
many columns as the first, that length is the number of columns of the batch
the row comes from. -/
theorem positional_row_shape (env : Externals) (batches : List RecordBatch) (use_numpy : Bool)
    (n : Nat) (rvs : List ReturnVal) (it it1 : CArrowChunkIterator) (rv : ReturnVal)
    (hrun : nextN env n (CArrowChunkIterator.new batches use_numpy false) = Except.ok (rvs, it))
    (h : CArrowChunkIterator.next env it = Except.ok (rv, it1))
    (hexc : rv.exception = none) (hne : rv ≠ exhausted) :
    ∃ items, rv.successObj = some (PyObject.Tuple items) ∧
      items.length = firstBatchColumns batches ∧
      (∀ i, i < items.length →
        ∃ c, it1.m_currentBatchConverters[i]? = some c ∧
          items[i]? = some (c.toPyObject env it1.m_rowIndexInBatch).obj) ∧
      ((∀ b ∈ batches, b.columns.length = firstBatchColumns batches) →
        ∃ b, batchAt batches it1.m_currentBatchIndex = Except.ok b ∧
          items.length = b.columns.length) := by
  obtain ⟨hinv, hbs, hcc, hdict, _⟩ :=
    nextN_CountersOk env n _ it rvs (new_CountersOk batches use_numpy false) hrun
  rw [new_columnCount] at hcc
  have hbs2 : it.m_cRecordBatches = batches := hbs
  have hdict2 : it.isDict = false := hdict
  obtain ⟨i1, i2, i3⟩ := hinv
  rcases next_cases env it it1 rv h with hA | hB | hC
  · obtain ⟨h1, it2, hc, ⟨_, rfl, rfl⟩ | ⟨e, _, rfl, _⟩⟩ := hA
    · obtain ⟨items, j1, j2, j3⟩ := this_createRowPyObject_positional env (stepRow it) _
        (show (stepRow it).isDict = false from hdict2) hc
      have hlen : items.length = firstBatchColumns batches := by
        rw [j2]
        show it.m_columnCount.toNat = _
        rw [hcc]
        simp
      refine ⟨items, j1, hlen, j3, ?_⟩
      intro hall
      have hidx : it1.m_currentBatchIndex = it.m_currentBatchIndex :=
        (this_createRowPyObject_frame env _ _ hc).1.2.2.2.2.1
      obtain ⟨r0, r1⟩ := i3 h1
      rw [i1, hbs2] at r1
      obtain ⟨b, hb⟩ := batchAt_of_range batches it.m_currentBatchIndex r0 r1
      refine ⟨b, by rw [hidx]; exact hb, ?_⟩
      rw [hlen, hall b (batchAt_mem _ _ _ hb).1]
    · simp at hexc
  · obtain ⟨h1, h2, b, it4, hb, hi, hrest⟩ := hB
    rcases hrest with ⟨e, _, rfl, _⟩ | ⟨_, it5, hc, ⟨_, rfl, rfl⟩ | ⟨e, _, rfl, _⟩⟩
    · simp at hexc
    · obtain ⟨_, _, _, _, _, h4⟩ := initColumnConverters_ok env _ _ hi
      have hd4 : it4.isDict = false := by rw [h4]; exact hdict2
      have hc4 : it4.m_columnCount = it.m_columnCount := by rw [h4]; rfl
      obtain ⟨items, j1, j2, j3⟩ := this_createRowPyObject_positional env it4 _ hd4 hc
      have hlen : items.length = firstBatchColumns batches := by
        rw [j2, hc4, hcc]
        simp
      refine ⟨items, j1, hlen, j3, ?_⟩
      intro hall
      have hidx : it1.m_currentBatchIndex = it.m_currentBatchIndex + 1 := by
        rw [(this_createRowPyObject_frame env _ _ hc).1.2.2.2.2.1, h4]
        rfl
      rw [hbs2] at hb
      refine ⟨b, by rw [hidx]; exact hb, ?_⟩
      rw [hlen, hall b (batchAt_mem _ _ _ hb).1]
    · simp at hexc
  · exact absurd hC.2.2.1 hne

theorem positional_row_shape_witness :
    ∃ items, (⟨some (PyObject.Tuple [some (PyValue.Object 0)]), none⟩ : ReturnVal).successObj =
        some (PyObject.Tuple items) ∧
      items.length = firstBatchColumns [⟨2, [sampleFixedInt32]⟩] ∧
      (∀ i, i < items.length →
        ∃ c, samplePositionalAfter.m_currentBatchConverters[i]? = some c ∧
          items[i]? = some (c.toPyObject sampleEnv samplePositionalAfter.m_rowIndexInBatch).obj) ∧
      ((∀ b ∈ [(⟨2, [sampleFixedInt32]⟩ : RecordBatch)],
          b.columns.length = firstBatchColumns [⟨2, [sampleFixedInt32]⟩]) →
        ∃ b, batchAt [⟨2, [sampleFixedInt32]⟩] samplePositionalAfter.m_currentBatchIndex =
            Except.ok b ∧
          items.length = b.columns.length) :=
  positional_row_shape sampleEnv [⟨2, [sampleFixedInt32]⟩] false 0 []
    (CArrowChunkIterator.new [⟨2, [sampleFixedInt32]⟩] false false) samplePositionalAfter
    ⟨some (PyObject.Tuple [some (PyValue.Object 0)]), none⟩
    (by decide) (by decide) (by decide) (by decide)

/-- C4 (counterexample): with a first batch of one column and a second batch of
two columns, the row served from the second batch is a tuple of length 1, not
of the length 2 of the batch it comes from. -/
theorem positional_row_length_from_first_batch :
    Except.map Prod.fst (nextN sampleEnv 2 (CArrowChunkIterator.new sampleUnevenBatches false false)) =
      Except.ok [⟨some (PyObject.Tuple [some (PyValue.Object 0)]), none⟩,
        ⟨some (PyObject.Tuple [some (PyValue.Object 0)]), none⟩] ∧
    Except.map (fun r => (r.2.m_currentBatchIndex, r.2.m_rowIndexInBatch))
        (nextN sampleEnv 2 (CArrowChunkIterator.new sampleUnevenBatches false false)) =
      Except.ok (1, 0) ∧
    Except.map RecordBatch.num_columns (batchAt sampleUnevenBatches 1) = Except.ok 2 := by
  decide

/-! ## Factory failure -/

theorem initColumns_fail_at (env : Externals) (m_useNumpy : Bool) (col : Column)
    (post : List Column) (e : PyException)
    (hcol : initColumn env m_useNumpy col = Except.ok (ColumnInit.fail e)) :
    ∀ (pre : List Column) (roster : List IColumnConverter) (pyErr : Option PyException) r,
      initColumns env m_useNumpy pre roster pyErr = Except.ok r →
      ∃ roster2 e2,
        initColumns env m_useNumpy (pre ++ col :: post) roster pyErr =
          Except.ok (roster2, some e2) ∧
        roster2.length ≤ roster.length + pre.length ∧
        ∀ c ∈ roster2, c ∈ roster ∨
          ∃ p ∈ pre, initColumn env m_useNumpy p = Except.ok (ColumnInit.push c) := by
  intro pre
  induction pre with
  | nil =>
    intro roster pyErr r _
    refine ⟨roster, e, ?_, by simp, ?_⟩
    · simp only [List.nil_append, initColumns, hcol]
    · intro c hc; exact Or.inl hc
  | cons p pre ih =>
    intro roster pyErr r h
    simp only [initColumns] at h
    simp only [List.cons_append, initColumns]
    cases hp : initColumn env m_useNumpy p with
    | error a => simp [hp] at h
    | ok ci =>
      cases ci with
      | push c0 =>
        simp only [hp] at h
        obtain ⟨roster2, e2, g1, g2, g3⟩ := ih _ _ r h
        refine ⟨roster2, e2, g1, ?_, ?_⟩
        · simp only [List.length_append, List.length_cons, List.length_nil] at g2 ⊢
          omega
        · intro c hc
          rcases g3 c hc with hin | ⟨q, hq, hqc⟩
          · rcases List.mem_append.mp hin with hin2 | hin2
            · exact Or.inl hin2
            · simp only [List.mem_singleton] at hin2
              subst hin2
              exact Or.inr ⟨p, List.mem_cons_self _ _, hp⟩
          · exact Or.inr ⟨q, List.mem_cons_of_mem _ hq, hqc⟩
      | fail e0 =>
        refine ⟨roster, e0, rfl, by simp, ?_⟩
        intro c hc; exact Or.inl hc

theorem next_rebuild_fails (env : Externals) (it : CArrowChunkIterator) (b : RecordBatch)
    (roster : List IColumnConverter) (e : PyException)
    (h1 : ¬ it.m_rowIndexInBatch + 1 < it.m_rowCountInBatch)
    (h2 : it.m_currentBatchIndex + 1 < it.m_batchCount)
    (hb : batchAt it.m_cRecordBatches (it.m_currentBatchIndex + 1) = Except.ok b)
    (hfail : initColumns env it.m_useNumpy b.columns [] it.pyErr = Except.ok (roster, some e)) :
    CArrowChunkIterator.next env it =
      Except.ok (⟨none, some e⟩,
        { stepBatch it b with
          m_currentBatchConverters := roster
          m_currentSchema := some b.schema
          pyErr := none
          m_currentPyException := some e
          calls := it.calls ++ [Call.initColumnConverters (it.m_currentBatchIndex + 1)] }) := by
  have hb2 : batchAt (stepBatch it b).m_cRecordBatches (stepBatch it b).m_currentBatchIndex =
      Except.ok b := hb
  have hf2 : initColumns env (stepBatch it b).m_useNumpy b.columns [] (stepBatch it b).pyErr =
      Except.ok (roster, some e) := hfail
  rw [next_unfold, if_neg h1, if_pos h2]
  simp only [hb, CArrowChunkIterator.initColumnConverters, hb2, hf2, fetchErr]
  rfl

/-- C5 (as amended): when the batch that `next()` is about to load has a FIXED
column whose physical type is none of int8, int16, int32, int64, decimal128 (a
struct, for one), `std::stoi` reads its scale and its precision without
throwing, and the columns before it are processed without a C++ exception,
that call of `next()` returns an error and no row: the roster it leaves holds
converters of columns before the failing one only, and the call runs
`initColumnConverters` and neither `createRowPyObject` nor a converter. -/
theorem fixed_unsupported_storage_fails (env : Externals) (it : CArrowChunkIterator)
    (b : RecordBatch) (pre post : List Column) (col : Column) (scale precision : Int)
    (h1 : ¬ it.m_rowIndexInBatch + 1 < it.m_rowCountInBatch)
    (h2 : it.m_currentBatchIndex + 1 < it.m_batchCount)
    (hb : batchAt it.m_cRecordBatches (it.m_currentBatchIndex + 1) = Except.ok b)
    (hcols : b.columns = pre ++ col :: post)
    (hreg : env.snowflakeTypeFromString (logicalTypeString col.field.metadata) =
      SnowflakeType.FIXED)
    (hs : metaIntData col.field.metadata "scale" 0 = Except.ok scale)
    (hp : metaIntData col.field.metadata "precision" 38 = Except.ok precision)
    (ht : isFixedInt col.field.type = false)
    (hd : col.field.type ≠ ArrowType.NANOARROW_TYPE_DECIMAL128)
    (hpre : ∃ r, initColumns env it.m_useNumpy pre [] it.pyErr = Except.ok r) :
    ∃ e it1, CArrowChunkIterator.next env it = Except.ok (⟨none, some e⟩, it1) ∧
      it1.m_currentBatchConverters.length ≤ pre.length ∧
      (∀ c ∈ it1.m_currentBatchConverters,
        ∃ p ∈ pre, initColumn env it.m_useNumpy p = Except.ok (ColumnInit.push c)) ∧
      it1.calls = it.calls ++ [Call.initColumnConverters (it.m_currentBatchIndex + 1)] ∧
      it1.m_latestReturnedRow = it.m_latestReturnedRow := by
  obtain ⟨r, hr⟩ := hpre
  have hcol : initColumn env it.m_useNumpy col =
      Except.ok (ColumnInit.fail (PyException.unknown_arrow_type "FIXED" col.field.type)) := by
    rw [initColumn_FIXED env _ col hreg, initFIXED_other _ col scale precision hs hp ht hd]
  obtain ⟨roster2, e2, g1, g2, g3⟩ :=
    initColumns_fail_at env it.m_useNumpy col post _ hcol pre [] it.pyErr r hr
  rw [← hcols] at g1
  refine ⟨e2, _, next_rebuild_fails env it b roster2 e2 h1 h2 hb g1, ?_, ?_, rfl, rfl⟩
  · simpa using g2
  · intro c hc
    rcases g3 c hc with hin | hex
    · simp at hin
    · exact hex

theorem fixed_unsupported_storage_fails_witness :
    ∃ e it1, CArrowChunkIterator.next sampleEnv (CArrowChunkIterator.new [sampleStructBatch] false false) =
        Except.ok (⟨none, some e⟩, it1) ∧
      it1.m_currentBatchConverters.length ≤ [sampleText "A"].length ∧
      (∀ c ∈ it1.m_currentBatchConverters,
        ∃ p ∈ [sampleText "A"],
          initColumn sampleEnv (CArrowChunkIterator.new [sampleStructBatch] false false).m_useNumpy p =
            Except.ok (ColumnInit.push c)) ∧
      it1.calls = (CArrowChunkIterator.new [sampleStructBatch] false false).calls ++
        [Call.initColumnConverters
          ((CArrowChunkIterator.new [sampleStructBatch] false false).m_currentBatchIndex + 1)] ∧
      it1.m_latestReturnedRow =
        (CArrowChunkIterator.new [sampleStructBatch] false false).m_latestReturnedRow :=
  fixed_unsupported_storage_fails sampleEnv (CArrowChunkIterator.new [sampleStructBatch] false false)
    sampleStructBatch [sampleText "A"] [] sampleFixedStruct 0 3
    (by decide) (by decide) (by decide) (by decide) (by decide) (by decide) (by decide)
    (by decide) (by decide) ⟨_, rfl⟩

/-- C5 (counterexample): a batch whose only column is FIXED, stored as a
struct, with the scale metadata `x`. The FIXED case parses the scale before it
looks at the physical type, `std::stoi` throws `std::invalid_argument`, and the
call of `next()` that loads the batch is left by that exception: it returns
neither an error nor a row. -/
theorem fixed_unsupported_storage_throws :
    sampleFixedStructBadScale.logicalType sampleEnv = SnowflakeType.FIXED ∧
    sampleFixedStructBadScale.field.type = ArrowType.NANOARROW_TYPE_STRUCT ∧
    CArrowChunkIterator.next sampleEnv
        (CArrowChunkIterator.new [⟨2, [sampleFixedStructBadScale]⟩] false false) =
      Except.error Abort.invalid_argument ∧
    CArrowChunkIterator.next sampleEnv
        (CArrowChunkIterator.new [⟨2, [sampleFixedStructBadScale]⟩] false true) =
      Except.error Abort.invalid_argument := by
  decide

theorem next_idx_mono (env : Externals) (it it1 : CArrowChunkIterator) (rv : ReturnVal)
    (h : CArrowChunkIterator.next env it = Except.ok (rv, it1)) :
    it.m_currentBatchIndex ≤ it1.m_currentBatchIndex := by
  rcases next_counters env it it1 rv h with ⟨_, hs⟩ | ⟨_, _, b, _, hs⟩ | ⟨_, _, _, rfl⟩
  · rw [hs.2.2.2.2.1]
    exact le_refl _
  · rw [hs.2.2.2.2.1]
    show it.m_currentBatchIndex ≤ it.m_currentBatchIndex + 1
    omega
  · show it.m_currentBatchIndex ≤ it.m_currentBatchIndex + 1
    omega

theorem nextN_idx_mono (env : Externals) :
    ∀ (n : Nat) (it it1 : CArrowChunkIterator) (rvs : List ReturnVal),
      nextN env n it = Except.ok (rvs, it1) →
      it.m_currentBatchIndex ≤ it1.m_currentBatchIndex := by
  intro n
  induction n with
  | zero =>
    intro it it1 rvs h
    simp only [nextN] at h
    injection h with h
    injection h with _ h2
    subst h2
    exact le_refl _
  | succ n ih =>
    intro it it1 rvs h
    simp only [nextN] at h
    cases hstep : CArrowChunkIterator.next env it with
    | error a => simp [hstep] at h
    | ok r =>
      obtain ⟨rv, itm⟩ := r
      simp only [hstep] at h
      cases hrest : nextN env n itm with
      | error a => simp [hrest] at h
      | ok r2 =>
        obtain ⟨rvs2, it2⟩ := r2
        simp only [hrest] at h
        injection h with h
        injection h with _ h2
        subst h2
        exact le_trans (next_idx_mono env it itm rv hstep) (ih itm it2 rvs2 hrest)

/-- C6 (counterexample): after a batch of one row with one text column, a batch
of two rows whose second column (FIXED stored as a struct) makes the rebuild
fail: the second call of `next()` returns the error, and the third call
returns a row of the failed batch (batch index 1, row index 1), built from the
one converter the failed rebuild left in the roster. Likewise, for a single
batch of two rows whose text column makes `ArrowArrayViewInitFromSchema` fail,
the first call returns the error and the second call returns row 1 of that
batch. -/
theorem row_served_after_failed_rebuild :
    Except.map Prod.fst (nextN sampleEnv 3 (CArrowChunkIterator.new sampleFailingBatches false false)) =
      Except.ok [⟨some (PyObject.Tuple [some (PyValue.Object 0)]), none⟩,
        ⟨none, some (PyException.unknown_arrow_type "FIXED" ArrowType.NANOARROW_TYPE_STRUCT)⟩,
        ⟨some (PyObject.Tuple [some PyValue.None]), none⟩] ∧
    Except.map (fun r => (r.2.m_currentBatchIndex, r.2.m_rowIndexInBatch,
          r.2.m_currentBatchConverters, r.2.calls))
        (nextN sampleEnv 3 (CArrowChunkIterator.new sampleFailingBatches false false)) =
      Except.ok (1, 1, [⟨ConverterKind.StringConverter, sampleArray⟩],
        [Call.initColumnConverters 0, Call.createRowPyObject 0 0, Call.toPyObject 0 0,
          Call.initColumnConverters 1, Call.createRowPyObject 1 1, Call.toPyObject 0 1]) ∧
    Except.map RecordBatch.num_columns (batchAt sampleFailingBatches 1) = Except.ok 2 ∧
    Except.map (fun r => (r.1, r.2.m_currentBatchIndex, r.2.m_rowIndexInBatch))
        (nextN sampleEnv 2 (CArrowChunkIterator.new [sampleBadViewBatch] false false)) =
      Except.ok ([⟨none, some PyException.ArrowArrayViewInitFromSchema_failure⟩,
        ⟨some (PyObject.Tuple [some PyValue.None]), none⟩], 0, 1) := by
  decide

/-! ## Runs over batches that have rows -/

theorem foldl_raise_none (env : Externals) (roster : List IColumnConverter) (row : Int)
    (hdec : ∀ c ∈ roster, ∀ r, (c.toPyObject env r).err = none) :
    ∀ (l : List Nat) (e : Option PyException),
      l.foldl (fun e j => raise (cellAt env roster row j) e) e = e := by
  intro l
  induction l with
  | nil => intro e; rfl
  | cons j l ih =>
    intro e
    simp only [List.foldl_cons]
    have hj : raise (cellAt env roster row j) e = e := by
      unfold raise cellAt
      cases hget : roster[j]? with
      | none => rfl
      | some c =>
        simp only []
        rw [hdec c (List.getElem?_mem hget) row]
    rw [hj]
    exact ih e

theorem createRowPyObject_positional_ok (env : Externals) (it : CArrowChunkIterator)
    (hd : it.isDict = false) (herr : it.pyErr = none)
    (hlen : it.m_columnCount.toNat ≤ it.m_currentBatchConverters.length)
    (hdec : ∀ c ∈ it.m_currentBatchConverters, ∀ r, (c.toPyObject env r).err = none) :
    ∃ it2, this_createRowPyObject env it = Except.ok it2 ∧ it2.pyErr = none ∧
      ({ successObj := it2.m_latestReturnedRow, exception := none } : ReturnVal) =
        rowAt env it.m_currentBatchConverters it.m_columnCount.toNat it.m_rowIndexInBatch ∧
      sameCounters it it2 ∧ it2.m_currentBatchConverters = it.m_currentBatchConverters := by
  have hloop := tupleLoop_eq env it.m_currentBatchConverters it.m_rowIndexInBatch
    it.m_columnCount.toNat 0 [] it.pyErr
    (it.calls ++ [Call.createRowPyObject it.m_currentBatchIndex it.m_rowIndexInBatch])
    (by omega)
  rw [foldl_raise_none env _ _ hdec] at hloop
  have hcreate : this_createRowPyObject env it =
      CArrowChunkIterator.createRowPyObject env it := by
    simp [this_createRowPyObject, hd]
  rw [hcreate]
  unfold CArrowChunkIterator.createRowPyObject
  rw [hloop]
  refine ⟨_, rfl, herr, ?_, ⟨rfl, rfl, rfl, rfl, rfl, rfl, rfl, rfl⟩, rfl⟩
  simp [rowAt]

theorem next_inBatch (env : Externals) (it : CArrowChunkIterator)
    (hd : it.isDict = false) (herr : it.pyErr = none)
    (hlt : it.m_rowIndexInBatch + 1 < it.m_rowCountInBatch)
    (hlen : it.m_columnCount.toNat ≤ it.m_currentBatchConverters.length)
    (hdec : ∀ c ∈ it.m_currentBatchConverters, ∀ r, (c.toPyObject env r).err = none) :
    ∃ it1, CArrowChunkIterator.next env it =
        Except.ok (rowAt env it.m_currentBatchConverters it.m_columnCount.toNat
          (it.m_rowIndexInBatch + 1), it1) ∧
      it1.pyErr = none ∧ sameCounters (stepRow it) it1 ∧
      it1.m_currentBatchConverters = it.m_currentBatchConverters := by
  obtain ⟨it2, hc, he, hrow, hsame, hros⟩ :=
    createRowPyObject_positional_ok env (stepRow it) hd herr hlen hdec
  refine ⟨it2, ?_, he, hsame, hros⟩
  rw [next_unfold, if_pos hlt]
  simp only [hc, he, hrow]
  rfl

theorem arrayViewChecks_some (col : Column) (e : PyException) :
    ∃ e2, arrayViewChecks col (some e) = some e2 := by
  unfold arrayViewChecks
  cases col.viewInitOk <;> cases col.setArrayOk <;> simp

theorem arrayViewChecks_none (col : Column) (h : arrayViewChecks col none = none)
    (e : Option PyException) : arrayViewChecks col e = e := by
  unfold arrayViewChecks at h ⊢
  cases hv : col.viewInitOk <;> cases hs : col.setArrayOk <;> simp [hv, hs] at h ⊢

theorem initColumns_err_some (env : Externals) (m_useNumpy : Bool) :
    ∀ (cols : List Column) (roster r2 : List IColumnConverter) (e : PyException)
      (e2 : Option PyException),
      initColumns env m_useNumpy cols roster (some e) = Except.ok (r2, e2) → e2 ≠ none := by
  intro cols
  induction cols with
  | nil =>
    intro roster r2 e e2 h
    simp only [initColumns] at h
    injection h with h
    injection h with _ h2
    rw [← h2]
    simp
  | cons col rest ih =>
    intro roster r2 e e2 h
    simp only [initColumns] at h
    cases hc : initColumn env m_useNumpy col with
    | error a => simp [hc] at h
    | ok ci =>
      cases ci with
      | fail e0 =>
        simp only [hc] at h
        injection h with h
        injection h with _ h2
        rw [← h2]
        simp
      | push c =>
        simp only [hc] at h
        obtain ⟨e3, he3⟩ := arrayViewChecks_some col e
        rw [he3] at h
        exact ih _ _ _ _ h

theorem initColumns_pyErr (env : Externals) (m_useNumpy : Bool) :
    ∀ (cols : List Column) (roster r2 : List IColumnConverter) (e : Option PyException),
      initColumns env m_useNumpy cols roster none = Except.ok (r2, none) →
      initColumns env m_useNumpy cols roster e = Except.ok (r2, e) := by
  intro cols
  induction cols with
  | nil =>
    intro roster r2 e h
    simp only [initColumns] at h ⊢
    injection h with h
    injection h with h1 _
    rw [h1]
  | cons col rest ih =>
    intro roster r2 e h
    simp only [initColumns] at h ⊢
    cases hc : initColumn env m_useNumpy col with
    | error a => simp [hc] at h
    | ok ci =>
      cases ci with
      | fail e0 => simp [hc] at h
      | push c =>
        simp only [hc] at h ⊢
        cases hchk : arrayViewChecks col none with
        | some e3 =>
          rw [hchk] at h
          exact absurd rfl (initColumns_err_some env m_useNumpy rest _ _ _ _ h)
        | none =>
          rw [hchk] at h
          rw [arrayViewChecks_none col hchk e]
          exact ih _ _ e h

theorem rosterOf_eq (env : Externals) (m_useNumpy : Bool) (b : RecordBatch)
    (roster : List IColumnConverter) (e : Option PyException)
    (h : initColumns env m_useNumpy b.columns [] none = Except.ok (roster, e)) :
    rosterOf env m_useNumpy b = roster := by
  simp only [rosterOf, h]

theorem next_load (env : Externals) (it : CArrowChunkIterator) (b : RecordBatch)
    (hd : it.isDict = false) (hbd : AtBoundary it)
    (h2 : it.m_currentBatchIndex + 1 < it.m_batchCount)
    (hb : batchAt it.m_cRecordBatches (it.m_currentBatchIndex + 1) = Except.ok b)
    (hserv : BatchServable env it.m_useNumpy it.m_columnCount.toNat b) :
    ∃ it1, CArrowChunkIterator.next env it =
        Except.ok (rowAt env (rosterOf env it.m_useNumpy b) it.m_columnCount.toNat 0, it1) ∧
      it1.pyErr = none ∧ sameCounters (stepBatch it b) it1 ∧
      it1.m_currentBatchConverters = rosterOf env it.m_useNumpy b := by
  obtain ⟨h1, herr⟩ := hbd
  obtain ⟨_, ⟨roster, hbuild⟩, hlen, hdec⟩ := hserv
  rw [rosterOf_eq env _ b roster none hbuild] at hlen hdec ⊢
  have hbuild2 := initColumns_pyErr env it.m_useNumpy b.columns [] roster it.pyErr hbuild
  rw [herr] at hbuild2
  have hi : CArrowChunkIterator.initColumnConverters env (stepBatch it b) =
      Except.ok { stepBatch it b with
        m_currentBatchConverters := roster
        m_currentSchema := some b.schema
        pyErr := none
        calls := (stepBatch it b).calls ++
          [Call.initColumnConverters (stepBatch it b).m_currentBatchIndex] } := by
    have hb2 : batchAt (stepBatch it b).m_cRecordBatches (stepBatch it b).m_currentBatchIndex =
        Except.ok b := hb
    have hf2 : initColumns env (stepBatch it b).m_useNumpy b.columns [] (stepBatch it b).pyErr =
        Except.ok (roster, none) := by
      show initColumns env it.m_useNumpy b.columns [] it.pyErr = _
      rw [herr]
      exact hbuild2
    simp only [CArrowChunkIterator.initColumnConverters, hb2, hf2]
  obtain ⟨it5, hc, he, hrow, hsame, hros⟩ :=
    createRowPyObject_positional_ok env
      { stepBatch it b with
        m_currentBatchConverters := roster
        m_currentSchema := some b.schema
        pyErr := none
        calls := (stepBatch it b).calls ++
          [Call.initColumnConverters (stepBatch it b).m_currentBatchIndex] }
      hd rfl hlen hdec
  refine ⟨it5, ?_, he, hsame, hros⟩
  rw [next_unfold, if_neg h1, if_pos h2]
  simp only [hb, hi, hc, he, hrow]
  rfl

theorem nextN_cons (env : Externals) (k : Nat) (it it1 it2 : CArrowChunkIterator)
    (rv : ReturnVal) (rvs : List ReturnVal)
    (h1 : CArrowChunkIterator.next env it = Except.ok (rv, it1))
    (h2 : nextN env k it1 = Except.ok (rvs, it2)) :
    nextN env (k + 1) it = Except.ok (rv :: rvs, it2) := by
  simp only [nextN, h1, h2]

theorem nextN_add (env : Externals) :
    ∀ (a b : Nat) (it it1 it2 : CArrowChunkIterator) (r1 r2 : List ReturnVal),
      nextN env a it = Except.ok (r1, it1) → nextN env b it1 = Except.ok (r2, it2) →
      nextN env (a + b) it = Except.ok (r1 ++ r2, it2) := by
  intro a
  induction a with
  | zero =>
    intro b it it1 it2 r1 r2 h1 h2
    simp only [nextN] at h1
    injection h1 with h1
    injection h1 with ha hb
    subst ha
    subst hb
    simpa using h2
  | succ a ih =>
    intro b it it1 it2 r1 r2 h1 h2
    simp only [nextN] at h1
    cases hstep : CArrowChunkIterator.next env it with
    | error e => simp [hstep] at h1
    | ok r =>
      obtain ⟨rv, itm⟩ := r
      simp only [hstep] at h1
      cases hrest : nextN env a itm with
      | error e => simp [hrest] at h1
      | ok r3 =>
        obtain ⟨rvs, it3⟩ := r3
        simp only [hrest] at h1
        injection h1 with h1
        injection h1 with ha hb
        subst ha
        subst hb
        have := ih b itm it3 it2 rvs r2 hrest h2
        rw [show a + 1 + b = (a + b) + 1 by omega]
        exact nextN_cons env (a + b) it itm it2 rv (rvs ++ r2) hstep this

theorem run_in_batch (env : Externals) :
    ∀ (k s : Nat) (it : CArrowChunkIterator),
      it.isDict = false → it.pyErr = none →
      it.m_rowIndexInBatch + 1 = (s : Int) →
      it.m_rowIndexInBatch + k < it.m_rowCountInBatch →
      it.m_columnCount.toNat ≤ it.m_currentBatchConverters.length →
      (∀ c ∈ it.m_currentBatchConverters, ∀ r, (c.toPyObject env r).err = none) →
      ∃ it1, nextN env k it =
          Except.ok ((List.range' s k).map
            (fun (j : Nat) =>
              rowAt env it.m_currentBatchConverters it.m_columnCount.toNat (j : Int)),
            it1) ∧
        it1.pyErr = none ∧ it1.m_rowIndexInBatch = it.m_rowIndexInBatch + k ∧
        sameBatch it it1 := by
  intro k
  induction k with
  | zero =>
    intro s it _ herr _ _ _ _
    exact ⟨it, rfl, herr, by simp, ⟨rfl, rfl, rfl, rfl, rfl, rfl, rfl, rfl⟩⟩
  | succ k ih =>
    intro s it hd herr hs hlt hlen hdec
    obtain ⟨itm, hstep, hem, hsame, hros⟩ :=
      next_inBatch env it hd herr (by omega) hlen hdec
    obtain ⟨s1, s2, s3, s4, s5, s6, s7, s8⟩ := hsame
    simp only [stepRow] at s1 s2 s3 s4 s5 s6 s7 s8
    obtain ⟨it1, hrun, he1, hrow1, hb1⟩ := ih (s + 1) itm (by rw [s8]; exact hd) hem
      (by rw [s2, hs]; push_cast; ring) (by rw [s2, s6]; push_cast at hlt ⊢; omega)
      (by rw [s3, hros]; exact hlen) (by rw [hros]; exact hdec)
    refine ⟨it1, ?_, he1, ?_, ?_⟩
    · rw [hros, s3] at hrun
      rw [hs] at hstep
      rw [List.range'_succ, List.map_cons]
      exact nextN_cons env k it itm it1 _ _ hstep hrun
    · rw [hrow1, s2]
      push_cast
      ring
    · obtain ⟨b1, b2, b3, b4, b5, b6, b7, b8⟩ := hb1
      exact ⟨b1.trans s1, b2.trans s3, b3.trans s4, b4.trans s5, b5.trans s6, b6.trans s7,
        b7.trans s8, b8.trans hros⟩

theorem batch_run (env : Externals) (it : CArrowChunkIterator) (b : RecordBatch)
    (hd : it.isDict = false) (hbd : AtBoundary it)
    (h2 : it.m_currentBatchIndex + 1 < it.m_batchCount)
    (hb : batchAt it.m_cRecordBatches (it.m_currentBatchIndex + 1) = Except.ok b)
    (hserv : BatchServable env it.m_useNumpy it.m_columnCount.toNat b) :
    ∃ it1, nextN env b.num_rows.toNat it =
        Except.ok (batchRows env it.m_useNumpy it.m_columnCount.toNat b, it1) ∧
      AtBoundary it1 ∧ it1.m_currentBatchIndex = it.m_currentBatchIndex + 1 ∧
      it1.m_cRecordBatches = it.m_cRecordBatches ∧ it1.m_columnCount = it.m_columnCount ∧
      it1.m_batchCount = it.m_batchCount ∧ it1.m_useNumpy = it.m_useNumpy ∧
      it1.isDict = it.isDict := by
  obtain ⟨itm, hstep, hem, hsame, hros⟩ := next_load env it b hd hbd h2 hb hserv
  obtain ⟨hrows, _, hlen, hdec⟩ := hserv
  obtain ⟨s1, s2, s3, s4, s5, s6, s7, s8⟩ := hsame
  simp only [stepBatch] at s1 s2 s3 s4 s5 s6 s7 s8
  obtain ⟨n, hn⟩ : ∃ n : Nat, b.num_rows.toNat = n + 1 := ⟨b.num_rows.toNat - 1, by omega⟩
  have hnum : b.num_rows = (n : Int) + 1 := by omega
  obtain ⟨it1, hrun, he1, hrow1, hb1⟩ := run_in_batch env n 1 itm (by rw [s8]; exact hd) hem
    (by rw [s2]; rfl) (by rw [s2, s6, hnum]; omega) (by rw [s3, hros]; exact hlen)
    (by rw [hros]; exact hdec)
  obtain ⟨b1, b2, b3, b4, b5, b6, b7, b8⟩ := hb1
  refine ⟨it1, ?_, ⟨?_, he1⟩, by rw [b4, s5], b1.trans s1, b2.trans s3, b3.trans s4,
    b6.trans s7, b7.trans s8⟩
  · rw [hros, s3] at hrun
    rw [hn]
    have hrows2 : batchRows env it.m_useNumpy it.m_columnCount.toNat b =
        rowAt env (rosterOf env it.m_useNumpy b) it.m_columnCount.toNat 0 ::
          (List.range' 1 n).map (fun (j : Nat) =>
            rowAt env (rosterOf env it.m_useNumpy b) it.m_columnCount.toNat (j : Int)) := by
      simp only [batchRows, hn, List.range'_succ, List.map_cons]
      rfl
    rw [hrows2]
    exact nextN_cons env n it itm it1 _ _ hstep hrun
  · rw [hrow1, b5, s2, s6, hnum]
    omega

theorem batchAt_append (done rest : List RecordBatch) (b : RecordBatch) (i : Int)
    (hi : i = (done.length : Int)) :
    batchAt (done ++ b :: rest) i = Except.ok b := by
  subst hi
  have h0 : ¬ ((done.length : Int) < 0) := by omega
  have hget : (done ++ b :: rest)[done.length]? = some b := by
    rw [List.getElem?_append_right (le_refl _)]
    simp
  simp only [batchAt, if_neg h0, Int.toNat_ofNat, hget]

theorem run_batches (env : Externals) :
    ∀ (rest done : List RecordBatch) (it : CArrowChunkIterator),
      it.m_cRecordBatches = done ++ rest →
      it.m_currentBatchIndex + 1 = (done.length : Int) →
      it.m_batchCount = ((done ++ rest).length : Int) →
      AtBoundary it → it.isDict = false →
      (∀ b ∈ rest, BatchServable env it.m_useNumpy it.m_columnCount.toNat b) →
      ∃ it1, nextN env (totalRows rest) it =
          Except.ok (allRows env it.m_useNumpy it.m_columnCount.toNat rest, it1) ∧
        AtBoundary it1 ∧ it1.m_currentBatchIndex + 1 = ((done ++ rest).length : Int) ∧
        it1.m_batchCount = it.m_batchCount := by
  intro rest
  induction rest with
  | nil =>
    intro done it _ hidx _ hbd _ _
    exact ⟨it, rfl, hbd, by simpa using hidx, rfl⟩
  | cons b rest ih =>
    intro done it hbs hidx hcount hbd hd hserv
    have h2 : it.m_currentBatchIndex + 1 < it.m_batchCount := by
      rw [hidx, hcount]
      simp only [List.length_append, List.length_cons]
      push_cast
      omega
    have hb : batchAt it.m_cRecordBatches (it.m_currentBatchIndex + 1) = Except.ok b := by
      rw [hbs]
      exact batchAt_append done rest b _ hidx
    obtain ⟨itm, hrun1, hbdm, hidxm, hbsm, hccm, hbcm, hnpm, hdm⟩ :=
      batch_run env it b hd hbd h2 hb (hserv b (List.mem_cons_self _ _))
    obtain ⟨it1, hrun2, hbd1, hidx1, hbc1⟩ := ih (done ++ [b]) itm
      (by rw [hbsm, hbs]; simp)
      (by rw [hidxm, hidx]; simp)
      (by rw [hbcm, hcount]; simp)
      hbdm (by rw [hdm]; exact hd)
      (by
        intro b2 hb2
        rw [hnpm, hccm]
        exact hserv b2 (List.mem_cons_of_mem _ hb2))
    refine ⟨it1, ?_, hbd1, by simpa using hidx1, hbc1.trans hbcm⟩
    rw [hnpm, hccm] at hrun2
    simp only [totalRows, allRows]
    exact nextN_add env _ _ it itm it1 _ _ hrun1 hrun2

theorem allRows_length (env : Externals) (m_useNumpy : Bool) (ncols : Nat) :
    ∀ batches : List RecordBatch,
      (allRows env m_useNumpy ncols batches).length = totalRows batches := by
  intro batches
  induction batches with
  | nil => rfl
  | cons b rest ih =>
    simp only [allRows, totalRows, List.length_append, batchRows, List.length_map,
      List.length_range', ih]

/-- Over batches that all have at least one row, whose rosters build without
error and hold at least as many converters as the first batch has columns, and
whose converters raise no error, `next()` serves the rows of all batches in
batch order then row order, one per call, and then the exhaustion signal. -/
theorem run_serves_all_rows (env : Externals) (batches : List RecordBatch) (use_numpy : Bool)
    (hserv : ∀ b ∈ batches, BatchServable env use_numpy (firstBatchColumns batches) b) :
    ∃ it1, nextN env (totalRows batches + 1) (CArrowChunkIterator.new batches use_numpy false) =
        Except.ok (allRows env use_numpy (firstBatchColumns batches) batches ++ [exhausted],
          it1) ∧
      (allRows env use_numpy (firstBatchColumns batches) batches).length = totalRows batches := by
  have hcc : (CArrowChunkIterator.new batches use_numpy false).m_columnCount.toNat =
      firstBatchColumns batches := by
    rw [new_columnCount]
    simp
  obtain ⟨itm, hrun, ⟨hrow, _⟩, hidx, hbc⟩ := run_batches env batches []
    (CArrowChunkIterator.new batches use_numpy false) rfl rfl rfl
    ⟨by simp [CArrowChunkIterator.new], rfl⟩ rfl
    (by
      intro b hb
      rw [hcc]
      exact hserv b hb)
  rw [hcc] at hrun
  have hlast : nextN env 1 itm = Except.ok ([exhausted], stepEnd itm) := by
    have hn : ¬ itm.m_currentBatchIndex + 1 < itm.m_batchCount := by
      rw [hidx, hbc]
      simp [CArrowChunkIterator.new]
    simp only [nextN, next_unfold, if_neg hrow, if_neg hn]
  exact ⟨stepEnd itm, nextN_add env _ _ _ itm _ _ _ hrun hlast, allRows_length env _ _ _⟩

theorem sampleTwoBatches_servable :
    ∀ b ∈ sampleTwoBatches, BatchServable sampleEnv false (firstBatchColumns sampleTwoBatches) b := by
  have hr : ∀ b ∈ sampleTwoBatches, rosterOf sampleEnv false b =
      [⟨ConverterKind.DecimalFromIntConverter 5 2, sampleArray⟩] := by decide
  intro b hb
  refine ⟨?_, ?_, ?_, ?_⟩
  · revert b
    decide
  · exact ⟨[⟨ConverterKind.DecimalFromIntConverter 5 2, sampleArray⟩], by
      revert b
      decide⟩
  · rw [hr b hb]
    decide
  · rw [hr b hb]
    intro c hc row
    simp only [List.mem_singleton] at hc
    subst hc
    simp only [IColumnConverter.toPyObject, sampleEnv, sampleToPyObject]
    split <;> rfl

theorem run_serves_all_rows_sample :
    ∃ it1, nextN sampleEnv (totalRows sampleTwoBatches + 1)
        (CArrowChunkIterator.new sampleTwoBatches false false) =
        Except.ok (allRows sampleEnv false (firstBatchColumns sampleTwoBatches) sampleTwoBatches ++
          [exhausted], it1) ∧
      (allRows sampleEnv false (firstBatchColumns sampleTwoBatches) sampleTwoBatches).length =
        totalRows sampleTwoBatches :=
  run_serves_all_rows sampleEnv sampleTwoBatches false sampleTwoBatches_servable

/-! ## The factory: which cases look at the physical type -/

theorem metaIntData_of_parses (st : SnowflakeType) (metadata : Option (List (String × String)))
    (hst : st = SnowflakeType.FIXED ∨ st = SnowflakeType.TIME ∨
      st = SnowflakeType.TIMESTAMP_NTZ)
    (h : metadataParses st metadata) (d : Int) :
    ∃ s, metaIntData metadata "scale" d = Except.ok s := by
  cases metadata with
  | none => exact ⟨d, rfl⟩
  | some md =>
    obtain ⟨s, hs⟩ := h.1
    refine ⟨s, ?_⟩
    rcases hst with rfl | rfl | rfl <;> exact hs

theorem metaInt_of_parses (metadata : Option (List (String × String)))
    (h : metadataParses SnowflakeType.TIMESTAMP_LTZ metadata) (d : Int) :
    ∃ s, metaInt metadata "scale" d = Except.ok s := by
  cases metadata with
  | none => exact ⟨d, rfl⟩
  | some md =>
    obtain ⟨s, hs⟩ := h.1
    exact ⟨s, hs⟩

theorem metaIntData_precision_of_parses (metadata : Option (List (String × String)))
    (h : metadataParses SnowflakeType.FIXED metadata) (d : Int) :
    ∃ p, metaIntData metadata "precision" d = Except.ok p := by
  cases metadata with
  | none => exact ⟨d, rfl⟩
  | some md =>
    obtain ⟨p, hp⟩ := h.2 rfl
    exact ⟨p, hp⟩

theorem initFIXED_push_type (m_useNumpy : Bool) (col : Column) (c : IColumnConverter)
    (h : initFIXED m_useNumpy col = Except.ok (ColumnInit.push c)) :
    isFixedInt col.field.type = true ∨ col.field.type = ArrowType.NANOARROW_TYPE_DECIMAL128 := by
  unfold initFIXED at h
  cases hs : metaIntData col.field.metadata "scale" 0 with
  | error a => simp [hs] at h
  | ok s =>
    cases hp : metaIntData col.field.metadata "precision" 38 with
    | error a => simp [hs, hp] at h
    | ok p =>
      simp only [hs, hp] at h
      cases ht : col.field.type <;> simp_all [isFixedInt]

theorem initTIME_cases (col : Column) (scale : Int)
    (hs : metaIntData col.field.metadata "scale" 9 = Except.ok scale) :
    initTIME col =
      if col.field.type = ArrowType.NANOARROW_TYPE_INT32 ∨
          col.field.type = ArrowType.NANOARROW_TYPE_INT64 then
        Except.ok (ColumnInit.push ⟨ConverterKind.TimeConverter scale, col.array⟩)
      else Except.ok (ColumnInit.fail (PyException.unknown_arrow_type "TIME" col.field.type)) := by
  simp only [initTIME, hs]
  cases ht : col.field.type <;> simp

theorem initTIMESTAMP_NTZ_cases (m_useNumpy : Bool) (col : Column) (scale : Int)
    (hs : metaIntData col.field.metadata "scale" 9 = Except.ok scale) :
    initTIMESTAMP_NTZ m_useNumpy col =
      if col.field.type = ArrowType.NANOARROW_TYPE_INT64 then
        Except.ok (ColumnInit.push
          ⟨if m_useNumpy then ConverterKind.NumpyOneFieldTimeStampNTZConverter scale
            else ConverterKind.OneFieldTimeStampNTZConverter scale, col.array⟩)
      else if col.field.type = ArrowType.NANOARROW_TYPE_STRUCT then
        Except.ok (ColumnInit.push
          ⟨if m_useNumpy then ConverterKind.NumpyTwoFieldTimeStampNTZConverter scale
            else ConverterKind.TwoFieldTimeStampNTZConverter scale, col.array⟩)
      else
        Except.ok (ColumnInit.fail
          (PyException.unknown_arrow_type "TIMESTAMP_NTZ" col.field.type)) := by
  simp only [initTIMESTAMP_NTZ, hs]
  cases ht : col.field.type <;> cases m_useNumpy <;> simp

theorem initTIMESTAMP_LTZ_cases (col : Column) (scale : Int)
    (hs : metaInt col.field.metadata "scale" 9 = Except.ok scale) :
    initTIMESTAMP_LTZ col =
      if col.field.type = ArrowType.NANOARROW_TYPE_INT64 then
        Except.ok (ColumnInit.push ⟨ConverterKind.OneFieldTimeStampLTZConverter scale, col.array⟩)
      else if col.field.type = ArrowType.NANOARROW_TYPE_STRUCT then
        Except.ok (ColumnInit.push ⟨ConverterKind.TwoFieldTimeStampLTZConverter scale, col.array⟩)
      else
        Except.ok (ColumnInit.fail
          (PyException.unknown_arrow_type "TIMESTAMP_LTZ" col.field.type)) := by
  simp only [initTIMESTAMP_LTZ, hs]
  cases ht : col.field.type <;> simp

theorem initTIME_push_type (col : Column) (c : IColumnConverter)
    (h : initTIME col = Except.ok (ColumnInit.push c)) :
    col.field.type = ArrowType.NANOARROW_TYPE_INT32 ∨
      col.field.type = ArrowType.NANOARROW_TYPE_INT64 := by
  cases hs : metaIntData col.field.metadata "scale" 9 with
  | error a => simp [initTIME, hs] at h
  | ok s =>
    rw [initTIME_cases col s hs] at h
    by_contra hn
    rw [if_neg hn] at h
    simp at h

theorem initTIMESTAMP_NTZ_push_type (m_useNumpy : Bool) (col : Column) (c : IColumnConverter)
    (h : initTIMESTAMP_NTZ m_useNumpy col = Except.ok (ColumnInit.push c)) :
    col.field.type = ArrowType.NANOARROW_TYPE_INT64 ∨
      col.field.type = ArrowType.NANOARROW_TYPE_STRUCT := by
  cases hs : metaIntData col.field.metadata "scale" 9 with
  | error a => simp [initTIMESTAMP_NTZ, hs] at h
  | ok s =>
    rw [initTIMESTAMP_NTZ_cases m_useNumpy col s hs] at h
    by_cases h1 : col.field.type = ArrowType.NANOARROW_TYPE_INT64
    · exact Or.inl h1
    · by_cases h2 : col.field.type = ArrowType.NANOARROW_TYPE_STRUCT
      · exact Or.inr h2
      · rw [if_neg h1, if_neg h2] at h
        simp at h

theorem initTIMESTAMP_LTZ_push_type (col : Column) (c : IColumnConverter)
    (h : initTIMESTAMP_LTZ col = Except.ok (ColumnInit.push c)) :
    col.field.type = ArrowType.NANOARROW_TYPE_INT64 ∨
      col.field.type = ArrowType.NANOARROW_TYPE_STRUCT := by
  cases hs : metaInt col.field.metadata "scale" 9 with
  | error a => simp [initTIMESTAMP_LTZ, hs] at h
  | ok s =>
    rw [initTIMESTAMP_LTZ_cases col s hs] at h
    by_cases h1 : col.field.type = ArrowType.NANOARROW_TYPE_INT64
    · exact Or.inl h1
    · by_cases h2 : col.field.type = ArrowType.NANOARROW_TYPE_STRUCT
      · exact Or.inr h2
      · rw [if_neg h1, if_neg h2] at h
        simp at h

theorem initColumn_push_checked (env : Externals) (m_useNumpy : Bool) (col : Column)
    (c : IColumnConverter) (h : initColumn env m_useNumpy col = Except.ok (ColumnInit.push c)) :
    checkedAdmits (col.logicalType env) col.field.type = true := by
  unfold Column.logicalType
  unfold initColumn at h
  cases hst : env.snowflakeTypeFromString (logicalTypeString col.field.metadata) <;>
    rw [hst] at h <;> simp only [checkedAdmits]
  · rcases initFIXED_push_type m_useNumpy col c h with h1 | h1 <;> simp [h1]
  · rcases initTIME_push_type col c h with h1 | h1 <;> simp [h1]
  · rcases initTIMESTAMP_LTZ_push_type col c h with h1 | h1 <;> simp [h1]
  · rcases initTIMESTAMP_NTZ_push_type m_useNumpy col c h with h1 | h1 <;> simp [h1]

theorem initColumn_unchecked_fails (env : Externals) (m_useNumpy : Bool) (col : Column)
    (hadm : checkedAdmits (col.logicalType env) col.field.type = false)
    (hmeta : metadataParses (col.logicalType env) col.field.metadata) :
    initColumn env m_useNumpy col =
      Except.ok (ColumnInit.fail
        (PyException.unknown_arrow_type
          (match col.logicalType env with
            | SnowflakeType.FIXED => "FIXED"
            | SnowflakeType.TIME => "TIME"
            | SnowflakeType.TIMESTAMP_NTZ => "TIMESTAMP_NTZ"
            | _ => "TIMESTAMP_LTZ")
          col.field.type)) := by
  unfold Column.logicalType at hadm hmeta ⊢
  unfold initColumn
  cases hst : env.snowflakeTypeFromString (logicalTypeString col.field.metadata) <;>
    rw [hst] at hadm hmeta <;> simp only [checkedAdmits] at hadm <;>
    try (exact absurd hadm (by decide))
  · obtain ⟨s, hs⟩ := metaIntData_of_parses _ _ (Or.inl rfl) hmeta 0
    obtain ⟨p, hp⟩ := metaIntData_precision_of_parses _ hmeta 38
    simp only [Bool.or_eq_false_iff, decide_eq_false_iff_not] at hadm
    exact initFIXED_other m_useNumpy col s p hs hp hadm.1 hadm.2
  · obtain ⟨s, hs⟩ := metaIntData_of_parses _ _ (Or.inr (Or.inl rfl)) hmeta 9
    simp only [Bool.or_eq_false_iff, decide_eq_false_iff_not] at hadm
    show initTIME col = _
    rw [initTIME_cases col s hs, if_neg (not_or.mpr hadm)]
  · obtain ⟨s, hs⟩ := metaInt_of_parses _ hmeta 9
    simp only [Bool.or_eq_false_iff, decide_eq_false_iff_not] at hadm
    show initTIMESTAMP_LTZ col = _
    rw [initTIMESTAMP_LTZ_cases col s hs, if_neg hadm.1, if_neg hadm.2]
  · obtain ⟨s, hs⟩ := metaIntData_of_parses _ _ (Or.inr (Or.inr rfl)) hmeta 9
    simp only [Bool.or_eq_false_iff, decide_eq_false_iff_not] at hadm
    show initTIMESTAMP_NTZ m_useNumpy col = _
    rw [initTIMESTAMP_NTZ_cases m_useNumpy col s hs, if_neg hadm.1, if_neg hadm.2]

theorem initColumn_textLike (env : Externals) (m_useNumpy : Bool) (col : Column)
    (h : isTextLike (col.logicalType env) = true) :
    initColumn env m_useNumpy col =
      Except.ok (ColumnInit.push ⟨ConverterKind.StringConverter, col.array⟩) := by
  unfold Column.logicalType at h
  unfold initColumn
  cases hst : env.snowflakeTypeFromString (logicalTypeString col.field.metadata) <;>
    rw [hst] at h <;> first | rfl | (simp [isTextLike] at h)

theorem initColumn_BINARY (env : Externals) (m_useNumpy : Bool) (col : Column)
    (h : col.logicalType env = SnowflakeType.BINARY) :
    initColumn env m_useNumpy col =
      Except.ok (ColumnInit.push ⟨ConverterKind.BinaryConverter, col.array⟩) := by
  unfold Column.logicalType at h
  simp only [initColumn, h]

theorem initColumn_BOOLEAN (env : Externals) (m_useNumpy : Bool) (col : Column)
    (h : col.logicalType env = SnowflakeType.BOOLEAN) :
    initColumn env m_useNumpy col =
      Except.ok (ColumnInit.push ⟨ConverterKind.BooleanConverter, col.array⟩) := by
  unfold Column.logicalType at h
  simp only [initColumn, h]

theorem initColumn_REAL (env : Externals) (m_useNumpy : Bool) (col : Column)
    (h : col.logicalType env = SnowflakeType.REAL) :
    initColumn env m_useNumpy col =
      Except.ok (ColumnInit.push
        ⟨if m_useNumpy then ConverterKind.NumpyFloat64Converter else ConverterKind.FloatConverter,
          col.array⟩) := by
  unfold Column.logicalType at h
  cases m_useNumpy <;> simp [initColumn, h]

theorem initColumn_DATE (env : Externals) (m_useNumpy : Bool) (col : Column)
    (h : col.logicalType env = SnowflakeType.DATE) :
    initColumn env m_useNumpy col =
      Except.ok (ColumnInit.push
        ⟨if m_useNumpy then ConverterKind.NumpyDateConverter else ConverterKind.DateConverter,
          col.array⟩) := by
  unfold Column.logicalType at h
  cases m_useNumpy <;> simp [initColumn, h]

theorem initColumn_TIME (env : Externals) (m_useNumpy : Bool) (col : Column)
    (h : col.logicalType env = SnowflakeType.TIME) :
    initColumn env m_useNumpy col = initTIME col := by
  unfold Column.logicalType at h
  simp only [initColumn, h]

theorem initColumn_TIMESTAMP_NTZ (env : Externals) (m_useNumpy : Bool) (col : Column)
    (h : col.logicalType env = SnowflakeType.TIMESTAMP_NTZ) :
    initColumn env m_useNumpy col = initTIMESTAMP_NTZ m_useNumpy col := by
  unfold Column.logicalType at h
  simp only [initColumn, h]

theorem initColumn_TIMESTAMP_LTZ (env : Externals) (m_useNumpy : Bool) (col : Column)
    (h : col.logicalType env = SnowflakeType.TIMESTAMP_LTZ) :
    initColumn env m_useNumpy col = initTIMESTAMP_LTZ col := by
  unfold Column.logicalType at h
  simp only [initColumn, h]

theorem initColumn_default (env : Externals) (m_useNumpy : Bool) (col : Column)
    (h : col.logicalType env = SnowflakeType.UNKNOWN ∨
      ∃ n, col.logicalType env = SnowflakeType.OTHER n) :
    initColumn env m_useNumpy col = initDefault col := by
  unfold Column.logicalType at h
  rcases h with h | ⟨n, h⟩ <;> simp only [initColumn, h]

theorem initTIMESTAMP_TZ_cases (col : Column) (scale byteLength : Int)
    (hs : metaInt col.field.metadata "scale" 9 = Except.ok scale)
    (hb : metaInt col.field.metadata "byteLength" 16 = Except.ok byteLength) :
    initTIMESTAMP_TZ col =
      if byteLength = 8 then
        Except.ok (ColumnInit.push ⟨ConverterKind.TwoFieldTimeStampTZConverter scale, col.array⟩)
      else if byteLength = 16 then
        Except.ok (ColumnInit.push ⟨ConverterKind.ThreeFieldTimeStampTZConverter scale, col.array⟩)
      else
        Except.ok (ColumnInit.fail
          (PyException.unknown_arrow_type "TIMESTAMP_TZ" col.field.type)) := by
  simp only [initTIMESTAMP_TZ, hs, hb]

/-- C11 (as amended): the factory compares the physical type with the logical
type in four cases only. A column for which a converter is installed has, when
its logical type is FIXED, an integer width or decimal128; when TIME, int32 or
int64; when TIMESTAMP_NTZ or TIMESTAMP_LTZ, int64 or struct; and a column of
one of these four logical types with any other physical type (and metadata
integers that parse) makes the factory fail with an error. For the text-like
types, BINARY, BOOLEAN, REAL and DATE a converter is installed whatever the
physical type, and for TIMESTAMP_TZ whenever byteLength is 8 or 16. -/
theorem factory_checks_physical_type (env : Externals) (m_useNumpy : Bool) (col : Column) :
    (∀ c, initColumn env m_useNumpy col = Except.ok (ColumnInit.push c) →
      checkedAdmits (col.logicalType env) col.field.type = true) ∧
    (checkedAdmits (col.logicalType env) col.field.type = false →
      metadataParses (col.logicalType env) col.field.metadata →
      ∃ e, initColumn env m_useNumpy col = Except.ok (ColumnInit.fail e)) ∧
    ((isTextLike (col.logicalType env) = true ∨ col.logicalType env = SnowflakeType.BINARY ∨
        col.logicalType env = SnowflakeType.BOOLEAN ∨ col.logicalType env = SnowflakeType.REAL ∨
        col.logicalType env = SnowflakeType.DATE) →
      ∃ c, initColumn env m_useNumpy col = Except.ok (ColumnInit.push c)) ∧
    (col.logicalType env = SnowflakeType.TIMESTAMP_TZ →
      ∀ scale byteLength, metaInt col.field.metadata "scale" 9 = Except.ok scale →
        metaInt col.field.metadata "byteLength" 16 = Except.ok byteLength →
        (byteLength = 8 ∨ byteLength = 16) →
        ∃ c, initColumn env m_useNumpy col = Except.ok (ColumnInit.push c)) := by
  refine ⟨fun c h => initColumn_push_checked env m_useNumpy col c h, ?_, ?_, ?_⟩
  · intro hadm hmeta
    exact ⟨_, initColumn_unchecked_fails env m_useNumpy col hadm hmeta⟩
  · rintro (h | h | h | h | h)
    · exact ⟨_, initColumn_textLike env m_useNumpy col h⟩
    · exact ⟨_, initColumn_BINARY env m_useNumpy col h⟩
    · exact ⟨_, initColumn_BOOLEAN env m_useNumpy col h⟩
    · exact ⟨_, initColumn_REAL env m_useNumpy col h⟩
    · exact ⟨_, initColumn_DATE env m_useNumpy col h⟩
  · intro hst scale byteLength hs hb hbl
    rw [initColumn_TIMESTAMP_TZ env m_useNumpy col hst, initTIMESTAMP_TZ_cases col scale byteLength hs hb]
    rcases hbl with h8 | h16
    · exact ⟨_, by rw [if_pos h8]⟩
    · have h8 : byteLength ≠ 8 := by omega
      exact ⟨_, by rw [if_neg h8, if_pos h16]⟩

theorem factory_checks_physical_type_witness :
    checkedAdmits ((sampleColumn "TIME" ArrowType.NANOARROW_TYPE_INT32).logicalType sampleEnv)
        (sampleColumn "TIME" ArrowType.NANOARROW_TYPE_INT32).field.type = true ∧
    (∃ e, initColumn sampleEnv false (sampleColumn "TIME" ArrowType.NANOARROW_TYPE_STRUCT) =
      Except.ok (ColumnInit.fail e)) ∧
    (∃ c, initColumn sampleEnv false (sampleColumn "TEXT" ArrowType.NANOARROW_TYPE_INT8) =
      Except.ok (ColumnInit.push c)) ∧
    (∃ c, initColumn sampleEnv false (sampleColumn "TIMESTAMP_TZ" ArrowType.NANOARROW_TYPE_INT32) =
      Except.ok (ColumnInit.push c)) :=
  ⟨(factory_checks_physical_type sampleEnv false
      (sampleColumn "TIME" ArrowType.NANOARROW_TYPE_INT32)).1
      ⟨ConverterKind.TimeConverter 3, sampleArray⟩ (by decide),
   (factory_checks_physical_type sampleEnv false
      (sampleColumn "TIME" ArrowType.NANOARROW_TYPE_STRUCT)).2.1 (by decide)
      ⟨⟨3, by decide⟩, fun h => absurd h (by decide)⟩,
   (factory_checks_physical_type sampleEnv false
      (sampleColumn "TEXT" ArrowType.NANOARROW_TYPE_INT8)).2.2.1 (Or.inl (by decide)),
   (factory_checks_physical_type sampleEnv false
      (sampleColumn "TIMESTAMP_TZ" ArrowType.NANOARROW_TYPE_INT32)).2.2.2 (by decide) 3 8
      (by decide) (by decide) (Or.inl rfl)⟩

/-- C11 (counterexample): a TIMESTAMP_TZ column stored as int32 (byteLength 8)
gets `TwoFieldTimeStampTZConverter`, and a BINARY column stored as int64 gets
`BinaryConverter`: a converter is installed although the physical type is not
one the logical type admits, and the factory does not fail. -/
theorem timestamp_tz_and_binary_ignore_physical_type :
    initColumn sampleEnv false (sampleColumn "TIMESTAMP_TZ" ArrowType.NANOARROW_TYPE_INT32) =
      Except.ok (ColumnInit.push ⟨ConverterKind.TwoFieldTimeStampTZConverter 3, sampleArray⟩) ∧
    specAdmits ((sampleColumn "TIMESTAMP_TZ" ArrowType.NANOARROW_TYPE_INT32).logicalType sampleEnv)
      ArrowType.NANOARROW_TYPE_INT32 = false ∧
    initColumn sampleEnv false (sampleColumn "BINARY" ArrowType.NANOARROW_TYPE_INT64) =
      Except.ok (ColumnInit.push ⟨ConverterKind.BinaryConverter, sampleArray⟩) ∧
    specAdmits ((sampleColumn "BINARY" ArrowType.NANOARROW_TYPE_INT64).logicalType sampleEnv)
      ArrowType.NANOARROW_TYPE_INT64 = false := by
  decide

/-! ## The roster, entry by entry -/

theorem initColumns_get (env : Externals) (m_useNumpy : Bool) :
    ∀ (cols : List Column) (r0 r : List IColumnConverter) (e0 e : Option PyException),
      initColumns env m_useNumpy cols r0 e0 = Except.ok (r, e) →
      r0.length ≤ r.length ∧ (∀ j, j < r0.length → r[j]? = r0[j]?) ∧
      ∀ i c, r[r0.length + i]? = some c →
        ∃ col, cols[i]? = some col ∧
          initColumn env m_useNumpy col = Except.ok (ColumnInit.push c) := by
  intro cols
  induction cols with
  | nil =>
    intro r0 r e0 e h
    simp only [initColumns] at h
    injection h with h
    injection h with h1 _
    subst h1
    refine ⟨le_refl _, fun _ _ => rfl, ?_⟩
    intro i c hc
    rw [List.getElem?_eq_none (by omega)] at hc
    cases hc
  | cons col rest ih =>
    intro r0 r e0 e h
    simp only [initColumns] at h
    cases hcol : initColumn env m_useNumpy col with
    | error a => simp [hcol] at h
    | ok ci =>
      cases ci with
      | fail e1 =>
        simp only [hcol] at h
        injection h with h
        injection h with h1 _
        subst h1
        refine ⟨le_refl _, fun _ _ => rfl, ?_⟩
        intro i c hc
        rw [List.getElem?_eq_none (by omega)] at hc
        cases hc
      | push c0 =>
        simp only [hcol] at h
        obtain ⟨g1, g2, g3⟩ := ih _ _ _ _ h
        simp only [List.length_append, List.length_cons, List.length_nil] at g1 g2 g3
        refine ⟨by omega, ?_, ?_⟩
        · intro j hj
          rw [g2 j (by omega), List.getElem?_append_left hj]
        · intro i c hc
          cases i with
          | zero =>
            have h0 := g2 r0.length (by omega)
            rw [List.getElem?_append_right (le_refl _)] at h0
            simp only [Nat.sub_self, List.getElem?_cons_zero] at h0
            simp only [Nat.add_zero] at hc
            rw [h0] at hc
            injection hc with hc
            subst hc
            exact ⟨col, by simp, hcol⟩
          | succ i =>
            have hc2 : r[r0.length + 1 + i]? = some c := by
              rw [show r0.length + 1 + i = r0.length + (i + 1) by omega]
              exact hc
            obtain ⟨col2, hget, hpush⟩ := g3 i c hc2
            exact ⟨col2, by simpa using hget, hpush⟩

theorem initColumns_complete (env : Externals) (m_useNumpy : Bool) :
    ∀ (cols : List Column) (r0 r : List IColumnConverter) (e0 : Option PyException),
      initColumns env m_useNumpy cols r0 e0 = Except.ok (r, none) →
      r.length = r0.length + cols.length := by
  intro cols
  induction cols with
  | nil =>
    intro r0 r e0 h
    simp only [initColumns] at h
    injection h with h
    injection h with h1 _
    subst h1
    simp
  | cons col rest ih =>
    intro r0 r e0 h
    simp only [initColumns] at h
    cases hcol : initColumn env m_useNumpy col with
    | error a => simp [hcol] at h
    | ok ci =>
      cases ci with
      | fail e1 => simp [hcol] at h
      | push c0 =>
        simp only [hcol] at h
        have := ih _ _ _ h
        simp only [List.length_append, List.length_cons, List.length_nil] at this ⊢
        omega

/-! ## The array-backed flag -/

/-- C12: for a column whose logical type is text-like or BINARY the factory
installs the same converter under both values of the array-backed flag:
`StringConverter` for the text-like types, `BinaryConverter` for BINARY; and in
two runs of the column loop that differ only in the flag, the converters found
at that column's position in the two rosters are equal. -/
theorem flag_irrelevant_for_text_and_binary (env : Externals) (col : Column)
    (h : isTextLike (col.logicalType env) = true ∨ col.logicalType env = SnowflakeType.BINARY) :
    initColumn env true col = initColumn env false col ∧
    (isTextLike (col.logicalType env) = true → ∀ flag, initColumn env flag col =
      Except.ok (ColumnInit.push ⟨ConverterKind.StringConverter, col.array⟩)) ∧
    (col.logicalType env = SnowflakeType.BINARY → ∀ flag, initColumn env flag col =
      Except.ok (ColumnInit.push ⟨ConverterKind.BinaryConverter, col.array⟩)) ∧
    (∀ (cols : List Column) (e : Option PyException) (r1 r2 : List IColumnConverter)
        (e1 e2 : Option PyException) (i : Nat) (c1 c2 : IColumnConverter),
      initColumns env true cols [] e = Except.ok (r1, e1) →
      initColumns env false cols [] e = Except.ok (r2, e2) →
      cols[i]? = some col → r1[i]? = some c1 → r2[i]? = some c2 → c1 = c2) := by
  have hsame : ∀ flag, initColumn env flag col = initColumn env false col := by
    intro flag
    rcases h with h | h
    · rw [initColumn_textLike env flag col h, initColumn_textLike env false col h]
    · rw [initColumn_BINARY env flag col h, initColumn_BINARY env false col h]
  refine ⟨hsame true, fun ht flag => initColumn_textLike env flag col ht,
    fun hb flag => initColumn_BINARY env flag col hb, ?_⟩
  intro cols e r1 r2 e1 e2 i c1 c2 h1 h2 hcol hc1 hc2
  obtain ⟨_, _, g1⟩ := initColumns_get env true cols [] r1 e e1 h1
  obtain ⟨_, _, g2⟩ := initColumns_get env false cols [] r2 e e2 h2
  obtain ⟨col1, hget1, hp1⟩ := g1 i c1 (by simpa using hc1)
  obtain ⟨col2, hget2, hp2⟩ := g2 i c2 (by simpa using hc2)
  rw [hcol] at hget1 hget2
  injection hget1 with hget1
  injection hget2 with hget2
  subst hget1
  subst hget2
  rw [hsame true] at hp1
  rw [hp1] at hp2
  injection hp2 with hp2
  injection hp2

theorem flag_irrelevant_for_text_and_binary_witness :
    initColumn sampleEnv true (sampleBinary "B") = initColumn sampleEnv false (sampleBinary "B") ∧
    (∀ flag, initColumn sampleEnv flag (sampleText "A") =
      Except.ok (ColumnInit.push ⟨ConverterKind.StringConverter, (sampleText "A").array⟩)) ∧
    (∀ flag, initColumn sampleEnv flag (sampleBinary "B") =
      Except.ok (ColumnInit.push ⟨ConverterKind.BinaryConverter, (sampleBinary "B").array⟩)) ∧
    (⟨ConverterKind.BinaryConverter, sampleBinaryArray⟩ : IColumnConverter) =
      ⟨ConverterKind.BinaryConverter, sampleBinaryArray⟩ :=
  ⟨(flag_irrelevant_for_text_and_binary sampleEnv (sampleBinary "B") (Or.inr (by decide))).1,
   (flag_irrelevant_for_text_and_binary sampleEnv (sampleText "A") (Or.inl (by decide))).2.1
      (by decide),
   (flag_irrelevant_for_text_and_binary sampleEnv (sampleBinary "B") (Or.inr (by decide))).2.2.1
      (by decide),
   (flag_irrelevant_for_text_and_binary sampleEnv (sampleBinary "B")
      (Or.inr (by decide))).2.2.2 sampleTextBinaryColumns none
      [⟨ConverterKind.StringConverter, sampleArray⟩, ⟨ConverterKind.BinaryConverter, sampleBinaryArray⟩]
      [⟨ConverterKind.StringConverter, sampleArray⟩, ⟨ConverterKind.BinaryConverter, sampleBinaryArray⟩]
      none none 1 _ _ (by decide) (by decide) (by decide) (by decide) (by decide)⟩

/-- C13 (as amended): with the array-backed flag set, a column the factory
accepts gets a `Numpy*` converter when its logical type is FIXED stored as an
integer width, REAL, DATE or TIMESTAMP_NTZ; a BOOLEAN column gets
`BooleanConverter`, a FIXED column stored as decimal128 gets
`DecimalFromDecimalConverter`, and TIMESTAMP_LTZ and TIMESTAMP_TZ columns get
their standard converters: none of these is array-backed. -/
theorem numpy_flag_converters (env : Externals) (col : Column) (c : IColumnConverter)
    (h : initColumn env true col = Except.ok (ColumnInit.push c)) :
    (col.logicalType env = SnowflakeType.FIXED → isFixedInt col.field.type = true →
      c.kind.isNumpy = true) ∧
    (col.logicalType env = SnowflakeType.REAL → c.kind.isNumpy = true) ∧
    (col.logicalType env = SnowflakeType.DATE → c.kind.isNumpy = true) ∧
    (col.logicalType env = SnowflakeType.TIMESTAMP_NTZ → c.kind.isNumpy = true) ∧
    (col.logicalType env = SnowflakeType.BOOLEAN → c.kind = ConverterKind.BooleanConverter) ∧
    (col.logicalType env = SnowflakeType.FIXED →
      col.field.type = ArrowType.NANOARROW_TYPE_DECIMAL128 →
      ∃ s, c.kind = ConverterKind.DecimalFromDecimalConverter s) ∧
    (col.logicalType env = SnowflakeType.TIMESTAMP_LTZ →
      ∃ s, c.kind = ConverterKind.OneFieldTimeStampLTZConverter s ∨
        c.kind = ConverterKind.TwoFieldTimeStampLTZConverter s) ∧
    (col.logicalType env = SnowflakeType.TIMESTAMP_TZ →
      ∃ s, c.kind = ConverterKind.TwoFieldTimeStampTZConverter s ∨
        c.kind = ConverterKind.ThreeFieldTimeStampTZConverter s) := by
  refine ⟨?_, ?_, ?_, ?_, ?_, ?_, ?_, ?_⟩
  · intro hst ht
    rw [initColumn_FIXED env true col hst] at h
    cases hs : metaIntData col.field.metadata "scale" 0 with
    | error a => simp [initFIXED, hs] at h
    | ok s =>
      cases hp : metaIntData col.field.metadata "precision" 38 with
      | error a => simp [initFIXED, hs, hp] at h
      | ok p =>
        rw [initFIXED_int true col s p hs hp ht] at h
        injection h with h
        injection h with h
        subst h
        by_cases hpos : s > 0 <;> simp [SF_INIT_FIXED_CONVERTER, hpos, ConverterKind.isNumpy]
  · intro hst
    rw [initColumn_REAL env true col hst] at h
    injection h with h
    injection h with h
    subst h
    rfl
  · intro hst
    rw [initColumn_DATE env true col hst] at h
    injection h with h
    injection h with h
    subst h
    rfl
  · intro hst
    rw [initColumn_TIMESTAMP_NTZ env true col hst] at h
    cases hs : metaIntData col.field.metadata "scale" 9 with
    | error a => simp [initTIMESTAMP_NTZ, hs] at h
    | ok s =>
      rw [initTIMESTAMP_NTZ_cases true col s hs] at h
      by_cases h1 : col.field.type = ArrowType.NANOARROW_TYPE_INT64
      · rw [if_pos h1] at h
        injection h with h
        injection h with h
        subst h
        rfl
      · by_cases h2 : col.field.type = ArrowType.NANOARROW_TYPE_STRUCT
        · rw [if_neg h1, if_pos h2] at h
          injection h with h
          injection h with h
          subst h
          rfl
        · rw [if_neg h1, if_neg h2] at h
          simp at h
  · intro hst
    rw [initColumn_BOOLEAN env true col hst] at h
    injection h with h
    injection h with h
    subst h
    rfl
  · intro hst ht
    rw [initColumn_FIXED env true col hst] at h
    cases hs : metaIntData col.field.metadata "scale" 0 with
    | error a => simp [initFIXED, hs] at h
    | ok s =>
      cases hp : metaIntData col.field.metadata "precision" 38 with
      | error a => simp [initFIXED, hs, hp] at h
      | ok p =>
        rw [initFIXED_decimal128 true col s p hs hp ht] at h
        injection h with h
        injection h with h
        subst h
        exact ⟨s, rfl⟩
  · intro hst
    rw [initColumn_TIMESTAMP_LTZ env true col hst] at h
    cases hs : metaInt col.field.metadata "scale" 9 with
    | error a => simp [initTIMESTAMP_LTZ, hs] at h
    | ok s =>
      rw [initTIMESTAMP_LTZ_cases col s hs] at h
      by_cases h1 : col.field.type = ArrowType.NANOARROW_TYPE_INT64
      · rw [if_pos h1] at h
        injection h with h
        injection h with h
        subst h
        exact ⟨s, Or.inl rfl⟩
      · by_cases h2 : col.field.type = ArrowType.NANOARROW_TYPE_STRUCT
        · rw [if_neg h1, if_pos h2] at h
          injection h with h
          injection h with h
          subst h
          exact ⟨s, Or.inr rfl⟩
        · rw [if_neg h1, if_neg h2] at h
          simp at h
  · intro hst
    rw [initColumn_TIMESTAMP_TZ env true col hst] at h
    cases hs : metaInt col.field.metadata "scale" 9 with
    | error a => simp [initTIMESTAMP_TZ, hs] at h
    | ok s =>
      cases hb : metaInt col.field.metadata "byteLength" 16 with
      | error a => simp [initTIMESTAMP_TZ, hs, hb] at h
      | ok bl =>
        rw [initTIMESTAMP_TZ_cases col s bl hs hb] at h
        by_cases h1 : bl = 8
        · rw [if_pos h1] at h
          injection h with h
          injection h with h
          subst h
          exact ⟨s, Or.inl rfl⟩
        · by_cases h2 : bl = 16
          · rw [if_neg h1, if_pos h2] at h
            injection h with h
            injection h with h
            subst h
            exact ⟨s, Or.inr rfl⟩
          · rw [if_neg h1, if_neg h2] at h
            simp at h

theorem numpy_flag_converters_witness :
    (ConverterKind.NumpyDecimalConverter 10 3).isNumpy = true :=
  (numpy_flag_converters sampleEnv (sampleColumn "FIXED" ArrowType.NANOARROW_TYPE_INT32)
    ⟨ConverterKind.NumpyDecimalConverter 10 3, sampleArray⟩ (by decide)).1 (by decide) (by decide)

/-- C13 (counterexample): with the array-backed flag set, a BOOLEAN column gets
`BooleanConverter`, a TIMESTAMP_LTZ column stored as int64 gets
`OneFieldTimeStampLTZConverter`, a TIMESTAMP_TZ column gets
`TwoFieldTimeStampTZConverter` and a FIXED column stored as decimal128 gets
`DecimalFromDecimalConverter`; none of them is a `Numpy*` converter. -/
theorem numpy_flag_leaves_standard_converters :
    initColumn sampleEnv true (sampleColumn "BOOLEAN" ArrowType.NANOARROW_TYPE_BOOL) =
      Except.ok (ColumnInit.push ⟨ConverterKind.BooleanConverter, sampleArray⟩) ∧
    ConverterKind.BooleanConverter.isNumpy = false ∧
    initColumn sampleEnv true (sampleColumn "TIMESTAMP_LTZ" ArrowType.NANOARROW_TYPE_INT64) =
      Except.ok (ColumnInit.push ⟨ConverterKind.OneFieldTimeStampLTZConverter 3, sampleArray⟩) ∧
    (ConverterKind.OneFieldTimeStampLTZConverter 3).isNumpy = false ∧
    initColumn sampleEnv true (sampleColumn "TIMESTAMP_TZ" ArrowType.NANOARROW_TYPE_STRUCT) =
      Except.ok (ColumnInit.push ⟨ConverterKind.TwoFieldTimeStampTZConverter 3, sampleArray⟩) ∧
    (ConverterKind.TwoFieldTimeStampTZConverter 3).isNumpy = false ∧
    initColumn sampleEnv true (sampleColumn "FIXED" ArrowType.NANOARROW_TYPE_DECIMAL128) =
      Except.ok (ColumnInit.push ⟨ConverterKind.DecimalFromDecimalConverter 3, sampleArray⟩) ∧
    (ConverterKind.DecimalFromDecimalConverter 3).isNumpy = false := by
  decide

/-! ## Unknown logical types -/

theorem next_column_fails (env : Externals) (it : CArrowChunkIterator) (b : RecordBatch)
    (pre post : List Column) (col : Column) (e0 : PyException)
    (h1 : ¬ it.m_rowIndexInBatch + 1 < it.m_rowCountInBatch)
    (h2 : it.m_currentBatchIndex + 1 < it.m_batchCount)
    (hb : batchAt it.m_cRecordBatches (it.m_currentBatchIndex + 1) = Except.ok b)
    (hcols : b.columns = pre ++ col :: post)
    (hcol : initColumn env it.m_useNumpy col = Except.ok (ColumnInit.fail e0))
    (hpre : ∃ r, initColumns env it.m_useNumpy pre [] it.pyErr = Except.ok r) :
    ∃ e it1, CArrowChunkIterator.next env it = Except.ok (⟨none, some e⟩, it1) ∧
      it1.m_currentBatchConverters.length ≤ pre.length ∧
      (∀ c ∈ it1.m_currentBatchConverters,
        ∃ p ∈ pre, initColumn env it.m_useNumpy p = Except.ok (ColumnInit.push c)) ∧
      it1.calls = it.calls ++ [Call.initColumnConverters (it.m_currentBatchIndex + 1)] ∧
      it1.m_latestReturnedRow = it.m_latestReturnedRow := by
  obtain ⟨r, hr⟩ := hpre
  obtain ⟨roster2, e2, g1, g2, g3⟩ :=
    initColumns_fail_at env it.m_useNumpy col post _ hcol pre [] it.pyErr r hr
  rw [← hcols] at g1
  refine ⟨e2, _, next_rebuild_fails env it b roster2 e2 h1 h2 hb g1, ?_, ?_, rfl, rfl⟩
  · simpa using g2
  · intro c hc
    rcases g3 c hc with hin | hex
    · simp at hin
    · exact hex

/-- C14: a column whose `logicalType` metadata names a type that resolves to
UNKNOWN, or to any enumerator the switch does not name, makes the factory set
an error and return: no converter is installed for that column or for a later
one, and the call of `next()` that loads the batch returns the error and no
row (it runs `initColumnConverters` only). The columns before it are taken to
be processed without a C++ abort. -/
theorem unknown_logical_type_fails (env : Externals) (it : CArrowChunkIterator)
    (b : RecordBatch) (pre post : List Column) (col : Column)
    (md : List (String × String)) (name : String)
    (h1 : ¬ it.m_rowIndexInBatch + 1 < it.m_rowCountInBatch)
    (h2 : it.m_currentBatchIndex + 1 < it.m_batchCount)
    (hb : batchAt it.m_cRecordBatches (it.m_currentBatchIndex + 1) = Except.ok b)
    (hcols : b.columns = pre ++ col :: post)
    (hst : col.logicalType env = SnowflakeType.UNKNOWN ∨
      ∃ n, col.logicalType env = SnowflakeType.OTHER n)
    (hmd : col.field.metadata = some md) (hname : md.lookup "logicalType" = some name)
    (hpre : ∃ r, initColumns env it.m_useNumpy pre [] it.pyErr = Except.ok r) :
    initColumn env it.m_useNumpy col =
      Except.ok (ColumnInit.fail (PyException.unknown_snowflake_type name)) ∧
    ∃ e it1, CArrowChunkIterator.next env it = Except.ok (⟨none, some e⟩, it1) ∧
      it1.m_currentBatchConverters.length ≤ pre.length ∧
      (∀ c ∈ it1.m_currentBatchConverters,
        ∃ p ∈ pre, initColumn env it.m_useNumpy p = Except.ok (ColumnInit.push c)) ∧
      it1.calls = it.calls ++ [Call.initColumnConverters (it.m_currentBatchIndex + 1)] ∧
      it1.m_latestReturnedRow = it.m_latestReturnedRow := by
  have hcol : initColumn env it.m_useNumpy col =
      Except.ok (ColumnInit.fail (PyException.unknown_snowflake_type name)) := by
    rw [initColumn_default env _ col hst]
    simp only [initDefault, hmd, hname]
  exact ⟨hcol, next_column_fails env it b pre post col _ h1 h2 hb hcols hcol hpre⟩

theorem unknown_logical_type_fails_witness :
    initColumn sampleEnv (CArrowChunkIterator.new [sampleUnknownBatch] false false).m_useNumpy
        (sampleColumn "GEOGRAPHY" ArrowType.NANOARROW_TYPE_STRING) =
      Except.ok (ColumnInit.fail (PyException.unknown_snowflake_type "GEOGRAPHY")) ∧
    ∃ e it1, CArrowChunkIterator.next sampleEnv
        (CArrowChunkIterator.new [sampleUnknownBatch] false false) =
        Except.ok (⟨none, some e⟩, it1) ∧
      it1.m_currentBatchConverters.length ≤ [sampleText "A"].length ∧
      (∀ c ∈ it1.m_currentBatchConverters,
        ∃ p ∈ [sampleText "A"],
          initColumn sampleEnv (CArrowChunkIterator.new [sampleUnknownBatch] false false).m_useNumpy p =
            Except.ok (ColumnInit.push c)) ∧
      it1.calls = (CArrowChunkIterator.new [sampleUnknownBatch] false false).calls ++
        [Call.initColumnConverters
          ((CArrowChunkIterator.new [sampleUnknownBatch] false false).m_currentBatchIndex + 1)] ∧
      it1.m_latestReturnedRow =
        (CArrowChunkIterator.new [sampleUnknownBatch] false false).m_latestReturnedRow :=
  unknown_logical_type_fails sampleEnv (CArrowChunkIterator.new [sampleUnknownBatch] false false)
    sampleUnknownBatch [sampleText "A"] [sampleText "Z"]
    (sampleColumn "GEOGRAPHY" ArrowType.NANOARROW_TYPE_STRING)
    [("logicalType", "GEOGRAPHY"), ("scale", "3"), ("precision", "10"), ("byteLength", "8")]
    "GEOGRAPHY"
    (by decide) (by decide) (by decide) (by decide) (Or.inl (by decide)) rfl (by decide)
    ⟨_, rfl⟩

/-! ## TIME and the timestamp families -/

/-- What the TIMESTAMP_NTZ and TIMESTAMP_LTZ cases do in standard mode: a
column for which the case reads the scale `scale` (TIMESTAMP_NTZ from the
nanoarrow buffer, TIMESTAMP_LTZ from arrow metadata) gets the one-field
converter of its family if and only if it is stored as int64 and the two-field
converter if and only if it is stored as a struct, each constructed with
`scale`; for any other physical type the factory sets an error and installs no
converter. -/
theorem timestamp_ntz_ltz_standard (env : Externals) (col : Column) (scale : Int)
    (hst : col.logicalType env = SnowflakeType.TIMESTAMP_NTZ ∨
      col.logicalType env = SnowflakeType.TIMESTAMP_LTZ)
    (hs : metaIntFor (col.logicalType env) col.field.metadata "scale" 9 = Except.ok scale) :
    (col.logicalType env = SnowflakeType.TIMESTAMP_NTZ →
      ((∃ c s, initColumn env false col = Except.ok (ColumnInit.push c) ∧
          c.kind = ConverterKind.OneFieldTimeStampNTZConverter s) ↔
        col.field.type = ArrowType.NANOARROW_TYPE_INT64) ∧
      ((∃ c s, initColumn env false col = Except.ok (ColumnInit.push c) ∧
          c.kind = ConverterKind.TwoFieldTimeStampNTZConverter s) ↔
        col.field.type = ArrowType.NANOARROW_TYPE_STRUCT) ∧
      (col.field.type = ArrowType.NANOARROW_TYPE_INT64 → initColumn env false col =
        Except.ok (ColumnInit.push ⟨ConverterKind.OneFieldTimeStampNTZConverter scale, col.array⟩)) ∧
      (col.field.type = ArrowType.NANOARROW_TYPE_STRUCT → initColumn env false col =
        Except.ok (ColumnInit.push
          ⟨ConverterKind.TwoFieldTimeStampNTZConverter scale, col.array⟩))) ∧
    (col.logicalType env = SnowflakeType.TIMESTAMP_LTZ →
      ((∃ c s, initColumn env false col = Except.ok (ColumnInit.push c) ∧
          c.kind = ConverterKind.OneFieldTimeStampLTZConverter s) ↔
        col.field.type = ArrowType.NANOARROW_TYPE_INT64) ∧
      ((∃ c s, initColumn env false col = Except.ok (ColumnInit.push c) ∧
          c.kind = ConverterKind.TwoFieldTimeStampLTZConverter s) ↔
        col.field.type = ArrowType.NANOARROW_TYPE_STRUCT) ∧
      (col.field.type = ArrowType.NANOARROW_TYPE_INT64 → initColumn env false col =
        Except.ok (ColumnInit.push ⟨ConverterKind.OneFieldTimeStampLTZConverter scale, col.array⟩)) ∧
      (col.field.type = ArrowType.NANOARROW_TYPE_STRUCT → initColumn env false col =
        Except.ok (ColumnInit.push
          ⟨ConverterKind.TwoFieldTimeStampLTZConverter scale, col.array⟩))) ∧
    (col.field.type ≠ ArrowType.NANOARROW_TYPE_INT64 →
      col.field.type ≠ ArrowType.NANOARROW_TYPE_STRUCT →
      ∃ e, initColumn env false col = Except.ok (ColumnInit.fail e) ∧
        ∀ rest roster pyErr,
          initColumns env false (col :: rest) roster pyErr = Except.ok (roster, some e)) := by
  have hstruct : ArrowType.NANOARROW_TYPE_STRUCT ≠ ArrowType.NANOARROW_TYPE_INT64 := by decide
  refine ⟨?_, ?_, ?_⟩
  · intro hntz
    have hinit := initColumn_TIMESTAMP_NTZ env false col hntz
    rw [hntz] at hs
    rw [initTIMESTAMP_NTZ_cases false col scale hs] at hinit
    simp only [Bool.false_eq_true, if_false] at hinit
    refine ⟨⟨?_, ?_⟩, ⟨?_, ?_⟩, ?_, ?_⟩
    · rintro ⟨c, s, hc, hk⟩
      by_contra h1
      rw [hinit, if_neg h1] at hc
      by_cases h2 : col.field.type = ArrowType.NANOARROW_TYPE_STRUCT
      · rw [if_pos h2] at hc
        injection hc with hc
        injection hc with hc
        subst hc
        simp at hk
      · rw [if_neg h2] at hc
        simp at hc
    · intro h1
      exact ⟨_, scale, by rw [hinit, if_pos h1], rfl⟩
    · rintro ⟨c, s, hc, hk⟩
      by_contra h2
      by_cases h1 : col.field.type = ArrowType.NANOARROW_TYPE_INT64
      · rw [hinit, if_pos h1] at hc
        injection hc with hc
        injection hc with hc
        subst hc
        simp at hk
      · rw [hinit, if_neg h1, if_neg h2] at hc
        simp at hc
    · intro h2
      have h1 : col.field.type ≠ ArrowType.NANOARROW_TYPE_INT64 := by rw [h2]; exact hstruct
      exact ⟨_, scale, by rw [hinit, if_neg h1, if_pos h2], rfl⟩
    · intro h1
      rw [hinit, if_pos h1]
    · intro h2
      have h1 : col.field.type ≠ ArrowType.NANOARROW_TYPE_INT64 := by rw [h2]; exact hstruct
      rw [hinit, if_neg h1, if_pos h2]
  · intro hltz
    have hinit := initColumn_TIMESTAMP_LTZ env false col hltz
    rw [hltz] at hs
    rw [initTIMESTAMP_LTZ_cases col scale hs] at hinit
    refine ⟨⟨?_, ?_⟩, ⟨?_, ?_⟩, ?_, ?_⟩
    · rintro ⟨c, s, hc, hk⟩
      by_contra h1
      rw [hinit, if_neg h1] at hc
      by_cases h2 : col.field.type = ArrowType.NANOARROW_TYPE_STRUCT
      · rw [if_pos h2] at hc
        injection hc with hc
        injection hc with hc
        subst hc
        simp at hk
      · rw [if_neg h2] at hc
        simp at hc
    · intro h1
      exact ⟨_, scale, by rw [hinit, if_pos h1], rfl⟩
    · rintro ⟨c, s, hc, hk⟩
      by_contra h2
      by_cases h1 : col.field.type = ArrowType.NANOARROW_TYPE_INT64
      · rw [hinit, if_pos h1] at hc
        injection hc with hc
        injection hc with hc
        subst hc
        simp at hk
      · rw [hinit, if_neg h1, if_neg h2] at hc
        simp at hc
    · intro h2
      have h1 : col.field.type ≠ ArrowType.NANOARROW_TYPE_INT64 := by rw [h2]; exact hstruct
      exact ⟨_, scale, by rw [hinit, if_neg h1, if_pos h2], rfl⟩
    · intro h1
      rw [hinit, if_pos h1]
    · intro h2
      have h1 : col.field.type ≠ ArrowType.NANOARROW_TYPE_INT64 := by rw [h2]; exact hstruct
      rw [hinit, if_neg h1, if_pos h2]
  · intro h1 h2
    rcases hst with hntz | hltz
    · have hinit := initColumn_TIMESTAMP_NTZ env false col hntz
      rw [hntz] at hs
      rw [initTIMESTAMP_NTZ_cases false col scale hs, if_neg h1, if_neg h2] at hinit
      exact ⟨_, hinit, fun rest roster pyErr => by simp only [initColumns, hinit]⟩
    · have hinit := initColumn_TIMESTAMP_LTZ env false col hltz
      rw [hltz] at hs
      rw [initTIMESTAMP_LTZ_cases col scale hs, if_neg h1, if_neg h2] at hinit
      exact ⟨_, hinit, fun rest roster pyErr => by simp only [initColumns, hinit]⟩

theorem timestamp_ntz_ltz_standard_witness :
    initColumn sampleEnv false (sampleColumn "TIMESTAMP_NTZ" ArrowType.NANOARROW_TYPE_INT64) =
      Except.ok (ColumnInit.push ⟨ConverterKind.OneFieldTimeStampNTZConverter 3,
        (sampleColumn "TIMESTAMP_NTZ" ArrowType.NANOARROW_TYPE_INT64).array⟩) ∧
    initColumn sampleEnv false (sampleColumn "TIMESTAMP_LTZ" ArrowType.NANOARROW_TYPE_STRUCT) =
      Except.ok (ColumnInit.push ⟨ConverterKind.TwoFieldTimeStampLTZConverter 3,
        (sampleColumn "TIMESTAMP_LTZ" ArrowType.NANOARROW_TYPE_STRUCT).array⟩) ∧
    ∃ e, initColumn sampleEnv false (sampleColumn "TIMESTAMP_LTZ" ArrowType.NANOARROW_TYPE_INT32) =
        Except.ok (ColumnInit.fail e) ∧
      ∀ rest roster pyErr,
        initColumns sampleEnv false
          (sampleColumn "TIMESTAMP_LTZ" ArrowType.NANOARROW_TYPE_INT32 :: rest) roster pyErr =
          Except.ok (roster, some e) :=
  ⟨((timestamp_ntz_ltz_standard sampleEnv
      (sampleColumn "TIMESTAMP_NTZ" ArrowType.NANOARROW_TYPE_INT64) 3
      (Or.inl (by decide)) (by decide)).1 (by decide)).2.2.1 rfl,
   ((timestamp_ntz_ltz_standard sampleEnv
      (sampleColumn "TIMESTAMP_LTZ" ArrowType.NANOARROW_TYPE_STRUCT) 3
      (Or.inr (by decide)) (by decide)).2.1 (by decide)).2.2.2 rfl,
   (timestamp_ntz_ltz_standard sampleEnv
      (sampleColumn "TIMESTAMP_LTZ" ArrowType.NANOARROW_TYPE_INT32) 3
      (Or.inr (by decide)) (by decide)).2.2 (by decide) (by decide)⟩

/-- What the TIME case does, and the default scale: a TIME column for which
the case reads the scale `scale` gets `TimeConverter scale` exactly when it is
stored as int32 or int64, and makes the factory fail with an error for any
other physical type. The scale read is `std::stoi` of the C string at the
scale value when the field has metadata, and 9 when it has none; a column
without metadata that the registry resolves to TIME, TIMESTAMP_NTZ,
TIMESTAMP_LTZ or TIMESTAMP_TZ gets its converter with scale 9. -/
theorem time_converter_and_scale_default (env : Externals) (m_useNumpy : Bool) (col : Column)
    (scale : Int)
    (hst : col.logicalType env = SnowflakeType.TIME)
    (hs : metaIntData col.field.metadata "scale" 9 = Except.ok scale) :
    ((∃ c, initColumn env m_useNumpy col = Except.ok (ColumnInit.push c)) ↔
      (col.field.type = ArrowType.NANOARROW_TYPE_INT32 ∨
        col.field.type = ArrowType.NANOARROW_TYPE_INT64)) ∧
    ((col.field.type = ArrowType.NANOARROW_TYPE_INT32 ∨
        col.field.type = ArrowType.NANOARROW_TYPE_INT64) →
      initColumn env m_useNumpy col =
        Except.ok (ColumnInit.push ⟨ConverterKind.TimeConverter scale, col.array⟩)) ∧
    (¬ (col.field.type = ArrowType.NANOARROW_TYPE_INT32 ∨
        col.field.type = ArrowType.NANOARROW_TYPE_INT64) →
      ∃ e, initColumn env m_useNumpy col = Except.ok (ColumnInit.fail e)) ∧
    (∀ md, col.field.metadata = some md → stoiData md "scale" = Except.ok scale) ∧
    (col.field.metadata = none → scale = 9) ∧
    (∀ (env2 : Externals) (col2 : Column), col2.field.metadata = none →
      (col2.logicalType env2 = SnowflakeType.TIME →
        col2.field.type = ArrowType.NANOARROW_TYPE_INT32 →
        initColumn env2 m_useNumpy col2 =
          Except.ok (ColumnInit.push ⟨ConverterKind.TimeConverter 9, col2.array⟩)) ∧
      (col2.logicalType env2 = SnowflakeType.TIMESTAMP_NTZ →
        col2.field.type = ArrowType.NANOARROW_TYPE_INT64 →
        initColumn env2 false col2 =
          Except.ok (ColumnInit.push
            ⟨ConverterKind.OneFieldTimeStampNTZConverter 9, col2.array⟩)) ∧
      (col2.logicalType env2 = SnowflakeType.TIMESTAMP_LTZ →
        col2.field.type = ArrowType.NANOARROW_TYPE_INT64 →
        initColumn env2 m_useNumpy col2 =
          Except.ok (ColumnInit.push
            ⟨ConverterKind.OneFieldTimeStampLTZConverter 9, col2.array⟩)) ∧
      (col2.logicalType env2 = SnowflakeType.TIMESTAMP_TZ →
        initColumn env2 m_useNumpy col2 =
          Except.ok (ColumnInit.push
            ⟨ConverterKind.ThreeFieldTimeStampTZConverter 9, col2.array⟩))) := by
  have hinit := initColumn_TIME env m_useNumpy col hst
  rw [initTIME_cases col scale hs] at hinit
  refine ⟨⟨?_, ?_⟩, ?_, ?_, ?_, ?_, ?_⟩
  · rintro ⟨c, hc⟩
    by_contra hn
    rw [hinit, if_neg hn] at hc
    simp at hc
  · intro ht
    exact ⟨_, by rw [hinit, if_pos ht]⟩
  · intro ht
    rw [hinit, if_pos ht]
  · intro hn
    exact ⟨_, by rw [hinit, if_neg hn]⟩
  · intro md hmd
    rw [hmd] at hs
    exact hs
  · intro hmd
    rw [hmd] at hs
    simp only [metaIntData] at hs
    injection hs with hs
    exact hs.symm
  · intro env2 col2 hmd
    have h9 : metaInt col2.field.metadata "scale" 9 = Except.ok 9 := by rw [hmd]; rfl
    have h9d : metaIntData col2.field.metadata "scale" 9 = Except.ok 9 := by rw [hmd]; rfl
    have h16 : metaInt col2.field.metadata "byteLength" 16 = Except.ok 16 := by rw [hmd]; rfl
    refine ⟨?_, ?_, ?_, ?_⟩
    · intro hl ht
      rw [initColumn_TIME env2 m_useNumpy col2 hl, initTIME_cases col2 9 h9d,
        if_pos (Or.inl ht)]
    · intro hl ht
      rw [initColumn_TIMESTAMP_NTZ env2 false col2 hl, initTIMESTAMP_NTZ_cases false col2 9 h9d,
        if_pos ht]
      rfl
    · intro hl ht
      rw [initColumn_TIMESTAMP_LTZ env2 m_useNumpy col2 hl, initTIMESTAMP_LTZ_cases col2 9 h9,
        if_pos ht]
    · intro hl
      rw [initColumn_TIMESTAMP_TZ env2 m_useNumpy col2 hl,
        initTIMESTAMP_TZ_cases col2 9 16 h9 h16]
      rfl

theorem time_converter_and_scale_default_witness :
    initColumn sampleEnv false (sampleColumn "TIME" ArrowType.NANOARROW_TYPE_INT64) =
      Except.ok (ColumnInit.push ⟨ConverterKind.TimeConverter 3,
        (sampleColumn "TIME" ArrowType.NANOARROW_TYPE_INT64).array⟩) ∧
    initColumn (sampleConstEnv SnowflakeType.TIME) false
        (sampleNoMetadata ArrowType.NANOARROW_TYPE_INT32) =
      Except.ok (ColumnInit.push ⟨ConverterKind.TimeConverter 9,
        (sampleNoMetadata ArrowType.NANOARROW_TYPE_INT32).array⟩) ∧
    initColumn (sampleConstEnv SnowflakeType.TIMESTAMP_TZ) false
        (sampleNoMetadata ArrowType.NANOARROW_TYPE_STRUCT) =
      Except.ok (ColumnInit.push ⟨ConverterKind.ThreeFieldTimeStampTZConverter 9,
        (sampleNoMetadata ArrowType.NANOARROW_TYPE_STRUCT).array⟩) :=
  have h := time_converter_and_scale_default sampleEnv false
    (sampleColumn "TIME" ArrowType.NANOARROW_TYPE_INT64) 3 (by decide) (by decide)
  ⟨h.2.1 (Or.inr rfl),
   (h.2.2.2.2.2 (sampleConstEnv SnowflakeType.TIME)
      (sampleNoMetadata ArrowType.NANOARROW_TYPE_INT32) rfl).1 rfl rfl,
   (h.2.2.2.2.2 (sampleConstEnv SnowflakeType.TIMESTAMP_TZ)
      (sampleNoMetadata ArrowType.NANOARROW_TYPE_STRUCT) rfl).2.2.2 rfl⟩

/-- C19 (as amended): for a column whose logical type is ANY, CHAR, OBJECT,
VARIANT, TEXT or ARRAY the switch installs `StringConverter` on the column's
array and goes on with the next column, whatever the physical type, the
metadata and the array-backed flag; the switch neither sets an error nor
returns. The loop round of such a column can still set an error, in the checks
made for every column before the switch: it leaves the error indicator as it
was when `ArrowArrayViewInitFromSchema` and `ArrowArrayViewSetArray` both
succeed on the column, and sets the error of the failing call otherwise (of
the later one when both fail); the `StringConverter` is installed in either
case. -/
theorem text_like_collapse (env : Externals) (col : Column)
    (h : isTextLike (col.logicalType env) = true) :
    (∀ flag, initColumn env flag col =
      Except.ok (ColumnInit.push ⟨ConverterKind.StringConverter, col.array⟩)) ∧
    (∀ flag rest roster pyErr, initColumns env flag (col :: rest) roster pyErr =
      initColumns env flag rest (roster ++ [⟨ConverterKind.StringConverter, col.array⟩])
        (arrayViewChecks col pyErr)) ∧
    (col.viewInitOk = true → col.setArrayOk = true →
      ∀ pyErr, arrayViewChecks col pyErr = pyErr) ∧
    (col.viewInitOk = false → col.setArrayOk = true →
      ∀ pyErr, arrayViewChecks col pyErr =
        some PyException.ArrowArrayViewInitFromSchema_failure) ∧
    (col.setArrayOk = false →
      ∀ pyErr, arrayViewChecks col pyErr = some PyException.ArrowArrayViewSetArray_failure) := by
  refine ⟨fun flag => initColumn_textLike env flag col h, ?_, ?_, ?_, ?_⟩
  · intro flag rest roster pyErr
    simp only [initColumns, initColumn_textLike env flag col h]
  · intro hv hs pyErr
    simp [arrayViewChecks, hv, hs]
  · intro hv hs pyErr
    simp [arrayViewChecks, hv, hs]
  · intro hs pyErr
    simp [arrayViewChecks, hs]

theorem text_like_collapse_witness :
    (∀ flag, initColumn sampleEnv flag (sampleColumn "VARIANT" ArrowType.NANOARROW_TYPE_STRUCT) =
      Except.ok (ColumnInit.push ⟨ConverterKind.StringConverter,
        (sampleColumn "VARIANT" ArrowType.NANOARROW_TYPE_STRUCT).array⟩)) ∧
    (∀ pyErr, arrayViewChecks (sampleColumn "VARIANT" ArrowType.NANOARROW_TYPE_STRUCT) pyErr =
      pyErr) ∧
    (∀ pyErr, arrayViewChecks { sampleText "A" with viewInitOk := false } pyErr =
      some PyException.ArrowArrayViewInitFromSchema_failure) ∧
    (∀ pyErr, arrayViewChecks { sampleText "A" with setArrayOk := false } pyErr =
      some PyException.ArrowArrayViewSetArray_failure) :=
  have h := text_like_collapse sampleEnv (sampleColumn "VARIANT" ArrowType.NANOARROW_TYPE_STRUCT)
    (by decide)
  ⟨h.1, h.2.2.1 rfl rfl,
   (text_like_collapse sampleEnv { sampleText "A" with viewInitOk := false }
      (by decide)).2.2.2.1 rfl rfl,
   (text_like_collapse sampleEnv { sampleText "A" with setArrayOk := false }
      (by decide)).2.2.2.2 rfl⟩

/-- C19 (counterexample): a batch of two rows whose only column is TEXT and
on which `ArrowArrayViewInitFromSchema` fails. The factory installs the
`StringConverter` and sets the error, and the first call of `next()` returns
that error in place of a row, for the positional and for the named
iterator. -/
theorem text_column_fails_on_bad_view :
    ({ sampleText "A" with viewInitOk := false } : Column).logicalType sampleEnv =
      SnowflakeType.TEXT ∧
    initColumns sampleEnv false sampleBadViewBatch.columns [] none =
      Except.ok ([⟨ConverterKind.StringConverter, sampleArray⟩],
        some PyException.ArrowArrayViewInitFromSchema_failure) ∧
    Except.map Prod.fst
        (CArrowChunkIterator.next sampleEnv
          (CArrowChunkIterator.new [sampleBadViewBatch] false false)) =
      Except.ok ⟨none, some PyException.ArrowArrayViewInitFromSchema_failure⟩ ∧
    Except.map Prod.fst
        (CArrowChunkIterator.next sampleEnv
          (CArrowChunkIterator.new [sampleBadViewBatch] false true)) =
      Except.ok ⟨none, some PyException.ArrowArrayViewInitFromSchema_failure⟩ := by
  decide

/-! ## The batch index -/

theorem next_not_exhausted (env : Externals) (it it1 : CArrowChunkIterator) (rv : ReturnVal)
    (h : CArrowChunkIterator.next env it = Except.ok (rv, it1))
    (hmore : it.m_rowIndexInBatch + 1 < it.m_rowCountInBatch ∨
      it.m_currentBatchIndex + 1 < it.m_batchCount) :
    rv ≠ exhausted := by
  intro hrv
  subst hrv
  obtain ⟨h1, h2, _⟩ := next_exhausted_inv env it it1 h
  rcases hmore with hm | hm
  · exact h1 hm
  · exact h2 hm

theorem next_batchCount (env : Externals) (it it1 : CArrowChunkIterator) (rv : ReturnVal)
    (h : CArrowChunkIterator.next env it = Except.ok (rv, it1)) :
    it1.m_batchCount = it.m_batchCount := by
  rcases next_counters env it it1 rv h with ⟨_, hs⟩ | ⟨_, _, b, _, hs⟩ | ⟨_, _, _, rfl⟩
  · exact hs.2.2.2.1
  · exact hs.2.2.2.1
  · rfl

theorem nextN_uncons (env : Externals) (n : Nat) (it it2 : CArrowChunkIterator)
    (rvs : List ReturnVal) (h : nextN env (n + 1) it = Except.ok (rvs, it2)) :
    ∃ rv it1 rvs1, CArrowChunkIterator.next env it = Except.ok (rv, it1) ∧
      nextN env n it1 = Except.ok (rvs1, it2) ∧ rvs = rv :: rvs1 := by
  simp only [nextN] at h
  cases hstep : CArrowChunkIterator.next env it with
  | error a => simp [hstep] at h
  | ok r =>
    obtain ⟨rv, itm⟩ := r
    simp only [hstep] at h
    cases hrest : nextN env n itm with
    | error a => simp [hrest] at h
    | ok r2 =>
      obtain ⟨rvs2, it3⟩ := r2
      simp only [hrest] at h
      injection h with h
      injection h with ha hb
      subst hb
      exact ⟨rv, itm, rvs2, rfl, hrest, ha.symm⟩

theorem nextN_batch_index (env : Externals) (L : Int) :
    ∀ (n : Nat) (it it1 : CArrowChunkIterator) (rvs : List ReturnVal),
      it.m_batchCount = L → -1 ≤ it.m_currentBatchIndex → it.m_currentBatchIndex < L →
      nextN env n it = Except.ok (rvs, it1) →
      (rvs.count exhausted = 0 ∧ -1 ≤ it1.m_currentBatchIndex ∧ it1.m_currentBatchIndex < L) ∨
      (∃ k : Nat, rvs.count exhausted = k + 1 ∧ it1.m_currentBatchIndex = L + k) := by
  intro n
  induction n with
  | zero =>
    intro it it1 rvs _ h0 h1 h
    simp only [nextN] at h
    injection h with h
    injection h with ha hb
    subst ha
    subst hb
    exact Or.inl ⟨rfl, h0, h1⟩
  | succ n ih =>
    intro it it1 rvs hL h0 h1 h
    obtain ⟨rv, itm, rvs1, hstep, hrest, rfl⟩ := nextN_uncons env n it it1 rvs h
    have hbc := next_batchCount env it itm rv hstep
    rcases next_counters env it itm rv hstep with ⟨hlt, hs⟩ | ⟨_, hlt, b, _, hs⟩ | ⟨hn1, hn2, hrv, hitm⟩
    · have hne := next_not_exhausted env it itm rv hstep (Or.inl hlt)
      have hidx : itm.m_currentBatchIndex = it.m_currentBatchIndex := hs.2.2.2.2.1
      rw [List.count_cons_of_ne hne.symm]
      exact ih itm it1 rvs1 (hbc.trans hL) (by rw [hidx]; exact h0) (by rw [hidx]; exact h1) hrest
    · have hne := next_not_exhausted env it itm rv hstep (Or.inr hlt)
      have hidx : itm.m_currentBatchIndex = it.m_currentBatchIndex + 1 := hs.2.2.2.2.1
      rw [List.count_cons_of_ne hne.symm]
      exact ih itm it1 rvs1 (hbc.trans hL) (by rw [hidx]; omega) (by rw [hidx, ← hL]; exact hlt)
        hrest
    · subst hrv
      subst hitm
      obtain ⟨it2, hrun, _, _, hidx⟩ := nextN_past_end env n (stepEnd it)
        (by show ¬ it.m_rowIndexInBatch + 1 + 1 < it.m_rowCountInBatch; omega)
        (by show ¬ it.m_currentBatchIndex + 1 + 1 < it.m_batchCount; omega)
      rw [hrun] at hrest
      injection hrest with hrest
      injection hrest with ha hb
      subst ha
      subst hb
      right
      refine ⟨n, by simp [List.count_replicate_self], ?_⟩
      rw [hidx]
      show it.m_currentBatchIndex + 1 + (n : Int) = L + n
      omega

/-- C18 (as amended): the constructor sets the batch index to -1. In every
state reached by calls of `next()` the index is at least -1; as long as no
call has returned the exhaustion signal it is below the batch count; and once
`k + 1` calls have returned the exhaustion signal it equals the batch count
plus `k`: it is the batch count right after the first exhausted call and grows
by one with every further call. -/
theorem batch_index_range (env : Externals) (batches : List RecordBatch)
    (use_numpy isDict : Bool) (n : Nat) (rvs : List ReturnVal) (it : CArrowChunkIterator)
    (hrun : nextN env n (CArrowChunkIterator.new batches use_numpy isDict) = Except.ok (rvs, it)) :
    (CArrowChunkIterator.new batches use_numpy isDict).m_currentBatchIndex = -1 ∧
    -1 ≤ it.m_currentBatchIndex ∧
    (rvs.count exhausted = 0 → it.m_currentBatchIndex < (batches.length : Int)) ∧
    (∀ k : Nat, rvs.count exhausted = k + 1 →
      it.m_currentBatchIndex = (batches.length : Int) + k) := by
  have h := nextN_batch_index env (batches.length : Int) n _ it rvs rfl (le_refl _)
    (by show (-1 : Int) < (batches.length : Int); omega) hrun
  refine ⟨rfl, ?_, ?_, ?_⟩
  · rcases h with ⟨_, h0, _⟩ | ⟨k, _, hk⟩
    · exact h0
    · rw [hk]; omega
  · intro hc
    rcases h with ⟨_, _, h1⟩ | ⟨k, hk, _⟩
    · exact h1
    · omega
  · intro k hc
    rcases h with ⟨h0, _, _⟩ | ⟨k2, hk, hidx⟩
    · omega
    · have : k2 = k := by omega
      subst this
      exact hidx

theorem batch_index_range_witness :
    (CArrowChunkIterator.new [⟨1, [sampleText "A"]⟩] false false).m_currentBatchIndex = -1 ∧
    -1 ≤ (stepEnd (stepEnd samplePastEnd)).m_currentBatchIndex ∧
    (([⟨some (PyObject.Tuple [some (PyValue.Object 0)]), none⟩, exhausted, exhausted] :
        List ReturnVal).count exhausted = 0 →
      (stepEnd (stepEnd samplePastEnd)).m_currentBatchIndex <
        (([⟨1, [sampleText "A"]⟩] : List RecordBatch).length : Int)) ∧
    (∀ k : Nat,
      ([⟨some (PyObject.Tuple [some (PyValue.Object 0)]), none⟩, exhausted, exhausted] :
        List ReturnVal).count exhausted = k + 1 →
      (stepEnd (stepEnd samplePastEnd)).m_currentBatchIndex =
        (([⟨1, [sampleText "A"]⟩] : List RecordBatch).length : Int) + k) :=
  batch_index_range sampleEnv [⟨1, [sampleText "A"]⟩] false false 3 _ _ (by decide)

/-- C18 (counterexample): over one batch of one row, three calls of `next()`
return the row and then the exhaustion signal twice, and leave the batch index
at 2, above the batch count 1; over no batch at all, two calls leave it at 1,
above the batch count 0. -/
theorem batch_index_exceeds_batch_count :
    Except.map (fun r => (r.1, r.2.m_currentBatchIndex, r.2.m_batchCount))
        (nextN sampleEnv 3 (CArrowChunkIterator.new [⟨1, [sampleText "A"]⟩] false false)) =
      Except.ok ([⟨some (PyObject.Tuple [some (PyValue.Object 0)]), none⟩, exhausted, exhausted],
        2, 1) ∧
    Except.map (fun r => (r.1, r.2.m_currentBatchIndex, r.2.m_batchCount))
        (nextN sampleEnv 2 (CArrowChunkIterator.new [] false false)) =
      Except.ok ([exhausted, exhausted], 1, 0) := by
  decide

/-! ## The call record -/

theorem dictLoop_calls (env : Externals) (roster : List IColumnConverter) (schema : List Field)
    (row : Int) :
    ∀ (n i : Nat) (d : List (String × PyValue)) (pyErr : Option PyException) (calls : List Call)
      (d2 : List (String × PyValue)) (e2 : Option PyException) (calls2 : List Call),
      dictLoop env roster schema row n i d pyErr calls = Except.ok (d2, e2, calls2) →
      calls2 = calls ++ (List.range' i n).map (fun j => Call.toPyObject j row) := by
  intro n
  induction n with
  | zero =>
    intro i d pyErr calls d2 e2 calls2 h
    simp only [dictLoop] at h
    injection h with h
    injection h with _ h
    injection h with _ h
    simp [h]
  | succ n ih =>
    intro i d pyErr calls d2 e2 calls2 h
    simp only [dictLoop] at h
    cases hget : roster[i]? with
    | none => simp [hget] at h
    | some c =>
      simp only [hget] at h
      cases hobj : (c.toPyObject env row).obj with
      | none =>
        simp only [hobj, UniqueRef.empty, Option.isNone, if_true] at h
        rw [ih _ _ _ _ _ _ _ h]
        simp [List.range'_succ]
      | some v0 =>
        simp only [hobj, UniqueRef.empty, Option.isNone] at h
        cases hf : schema[i]? with
        | none => simp [hf] at h
        | some f0 =>
          simp only [hf] at h
          simp only [Bool.false_eq_true, if_false] at h
          rw [ih _ _ _ _ _ _ _ h]
          simp [List.range'_succ]

theorem this_createRowPyObject_calls (env : Externals) (it it2 : CArrowChunkIterator)
    (h : this_createRowPyObject env it = Except.ok it2) :
    ∃ n : Nat, it2.calls = it.calls ++
      Call.createRowPyObject it.m_currentBatchIndex it.m_rowIndexInBatch ::
        (List.range' 0 n).map (fun j => Call.toPyObject j it.m_rowIndexInBatch) := by
  unfold this_createRowPyObject at h
  split at h
  · obtain ⟨schema, d, e, calls, _, hloop, rfl⟩ := createRowPyObject_dict_ok env it it2 h
    refine ⟨schema.length, ?_⟩
    have := dictLoop_calls env _ _ _ _ _ _ _ _ _ _ _ hloop
    simp only [this, List.append_assoc, List.singleton_append]
  · obtain ⟨items, e, calls, hloop, rfl⟩ := createRowPyObject_tuple_ok env it it2 h
    have hb : 0 + it.m_columnCount.toNat ≤ it.m_currentBatchConverters.length := by
      rcases tupleLoop_bound env _ _ _ _ _ _ _ _ hloop with h0 | hle
      · omega
      · exact hle
    rw [tupleLoop_eq env _ _ _ _ _ _ _ hb] at hloop
    injection hloop with hloop
    injection hloop with _ hloop
    injection hloop with _ hcalls
    refine ⟨it.m_columnCount.toNat, ?_⟩
    simp only [← hcalls, List.append_assoc, List.singleton_append]

/-- What one call of `next()` appends to the call record, and the roster it
leaves. -/
theorem next_log (env : Externals) (it it1 : CArrowChunkIterator) (rv : ReturnVal)
    (h : CArrowChunkIterator.next env it = Except.ok (rv, it1)) :
    (it.m_rowIndexInBatch + 1 < it.m_rowCountInBatch ∧
      it1.m_currentBatchConverters = it.m_currentBatchConverters ∧
      ∃ n : Nat, it1.calls = it.calls ++
        Call.createRowPyObject it.m_currentBatchIndex (it.m_rowIndexInBatch + 1) ::
          (List.range' 0 n).map (fun j => Call.toPyObject j (it.m_rowIndexInBatch + 1))) ∨
    (¬ it.m_rowIndexInBatch + 1 < it.m_rowCountInBatch ∧
      it.m_currentBatchIndex + 1 < it.m_batchCount ∧
      (∃ b, batchAt it.m_cRecordBatches (it.m_currentBatchIndex + 1) = Except.ok b ∧
        RosterFrom env it.m_useNumpy b it1.m_currentBatchConverters) ∧
      (it1.calls = it.calls ++ [Call.initColumnConverters (it.m_currentBatchIndex + 1)] ∨
        ∃ n : Nat, it1.calls = it.calls ++
          Call.initColumnConverters (it.m_currentBatchIndex + 1) ::
            Call.createRowPyObject (it.m_currentBatchIndex + 1) 0 ::
              (List.range' 0 n).map (fun j => Call.toPyObject j 0))) ∨
    (¬ it.m_rowIndexInBatch + 1 < it.m_rowCountInBatch ∧
      ¬ it.m_currentBatchIndex + 1 < it.m_batchCount ∧ rv = exhausted ∧ it1 = stepEnd it) := by
  rcases next_cases env it it1 rv h with hA | hB | hC
  · left
    obtain ⟨h1, it2, hc, hres⟩ := hA
    obtain ⟨n, hcalls⟩ := this_createRowPyObject_calls env _ it2 hc
    have hros := (this_createRowPyObject_frame env _ it2 hc).2.1
    refine ⟨h1, ?_, n, ?_⟩
    · rcases hres with ⟨_, _, hit⟩ | ⟨e, _, _, hit⟩ <;> rw [hit] <;> exact hros
    · rcases hres with ⟨_, _, hit⟩ | ⟨e, _, _, hit⟩ <;> rw [hit] <;> exact hcalls
  · right
    left
    obtain ⟨h1, h2, b, it4, hb, hi, hres⟩ := hB
    obtain ⟨b2, roster, e4, hb2, hinit, h4⟩ := initColumnConverters_ok env _ it4 hi
    have hbb : b2 = b := by
      have : batchAt it.m_cRecordBatches (it.m_currentBatchIndex + 1) = Except.ok b2 := hb2
      rw [hb] at this
      injection this with this
      exact this.symm
    subst hbb
    have hfrom : RosterFrom env it.m_useNumpy b2 roster := by
      intro c hc
      obtain ⟨i, hi2, hget⟩ := List.getElem_of_mem hc
      obtain ⟨_, _, g⟩ := initColumns_get env _ _ _ _ _ _ hinit
      obtain ⟨col, hcol, hpush⟩ := g i c (by
        simp only [List.length_nil, Nat.zero_add]
        rw [List.getElem?_eq_getElem hi2, hget])
      exact ⟨col, List.getElem?_mem hcol, hpush⟩
    have hros4 : it4.m_currentBatchConverters = roster := by rw [h4]
    have hcalls4 : it4.calls = it.calls ++
        [Call.initColumnConverters (it.m_currentBatchIndex + 1)] := by rw [h4]; rfl
    have hidx4 : it4.m_currentBatchIndex = it.m_currentBatchIndex + 1 := by rw [h4]; rfl
    have hrow4 : it4.m_rowIndexInBatch = 0 := by rw [h4]; rfl
    refine ⟨h1, h2, ⟨b2, hb, ?_⟩, ?_⟩
    · rcases hres with ⟨e, _, _, hit⟩ | ⟨_, it5, hc, ⟨_, _, hit⟩ | ⟨e, _, _, hit⟩⟩
      · rw [hit]
        show RosterFrom env it.m_useNumpy b2 it4.m_currentBatchConverters
        rw [hros4]
        exact hfrom
      · rw [hit, (this_createRowPyObject_frame env _ it5 hc).2.1, hros4]
        exact hfrom
      · rw [hit]
        show RosterFrom env it.m_useNumpy b2 it5.m_currentBatchConverters
        rw [(this_createRowPyObject_frame env _ it5 hc).2.1, hros4]
        exact hfrom
    · rcases hres with ⟨e, _, _, hit⟩ | ⟨_, it5, hc, hres5⟩
      · left
        rw [hit]
        exact hcalls4
      · right
        obtain ⟨n, hcalls5⟩ := this_createRowPyObject_calls env _ it5 hc
        rw [hcalls4, hidx4, hrow4] at hcalls5
        refine ⟨n, ?_⟩
        rcases hres5 with ⟨_, _, hit⟩ | ⟨e, _, _, hit⟩ <;> rw [hit] <;>
          simpa [List.append_assoc] using hcalls5
  · exact Or.inr (Or.inr hC)

theorem rowCalls_not_init (b b2 : Int) (r r2 : Int) (n : Nat) :
    Call.initColumnConverters b ∉
      Call.createRowPyObject b2 r :: (List.range' 0 n).map (fun j => Call.toPyObject j r2) := by
  intro h
  rcases List.mem_cons.mp h with h | h
  · cases h
  · obtain ⟨j, _, hj⟩ := List.mem_map.mp h
    cases hj

theorem toPyCalls_not_row (b r r2 : Int) (n : Nat) :
    Call.createRowPyObject b r ∉ (List.range' 0 n).map (fun j => Call.toPyObject j r2) := by
  intro h
  obtain ⟨j, _, hj⟩ := List.mem_map.mp h
  cases hj

theorem rowsAfterInit_append (calls extra : List Call) (h : RowsAfterInit calls)
    (hx : ∀ pre post b r, extra = pre ++ Call.createRowPyObject b r :: post →
      Call.initColumnConverters b ∈ calls ++ pre) :
    RowsAfterInit (calls ++ extra) := by
  intro pre post b r heq
  rcases List.append_eq_append_iff.mp heq with ⟨a2, hpre, hextra⟩ | ⟨c2, hcalls, hrest⟩
  · rw [hpre]
    exact hx a2 post b r hextra
  · cases c2 with
    | nil =>
      simp only [List.append_nil] at hcalls
      simp only [List.nil_append] at hrest
      have := hx [] post b r (by simpa using hrest.symm)
      simpa [hcalls] using this
    | cons y c3 =>
      simp only [List.cons_append] at hrest
      injection hrest with hy _
      subst hy
      exact h pre c3 b r hcalls

theorem rowsAfterInit_rows (calls : List Call) (b r r2 : Int) (n : Nat)
    (h : RowsAfterInit calls) (hinit : Call.initColumnConverters b ∈ calls) :
    RowsAfterInit (calls ++
      Call.createRowPyObject b r :: (List.range' 0 n).map (fun j => Call.toPyObject j r2)) := by
  apply rowsAfterInit_append calls _ h
  intro pre post b2 r3 heq
  cases pre with
  | nil =>
    simp only [List.nil_append] at heq
    injection heq with hhead _
    injection hhead with hb _
    subst hb
    simpa using hinit
  | cons x pre2 =>
    simp only [List.cons_append] at heq
    injection heq with _ htail
    exfalso
    apply toPyCalls_not_row b2 r3 r2 n
    rw [htail]
    simp

theorem rowsAfterInit_init (calls : List Call) (b : Int) (h : RowsAfterInit calls) :
    RowsAfterInit (calls ++ [Call.initColumnConverters b]) := by
  apply rowsAfterInit_append calls _ h
  intro pre post b2 r heq
  cases pre with
  | nil =>
    simp only [List.nil_append] at heq
    injection heq with hhead _
    cases hhead
  | cons x pre2 =>
    simp only [List.cons_append] at heq
    injection heq with _ htail
    cases pre2 <;> simp at htail

theorem next_step (env : Externals) (it it1 : CArrowChunkIterator) (rv : ReturnVal)
    (h : CArrowChunkIterator.next env it = Except.ok (rv, it1)) :
    (it.m_rowIndexInBatch + 1 < it.m_rowCountInBatch ∧ sameCounters (stepRow it) it1 ∧
      it1.m_currentBatchConverters = it.m_currentBatchConverters ∧
      ∃ n : Nat, it1.calls = it.calls ++
        Call.createRowPyObject it.m_currentBatchIndex (it.m_rowIndexInBatch + 1) ::
          (List.range' 0 n).map (fun j => Call.toPyObject j (it.m_rowIndexInBatch + 1))) ∨
    (¬ it.m_rowIndexInBatch + 1 < it.m_rowCountInBatch ∧
      it.m_currentBatchIndex + 1 < it.m_batchCount ∧
      ∃ b, batchAt it.m_cRecordBatches (it.m_currentBatchIndex + 1) = Except.ok b ∧
        sameCounters (stepBatch it b) it1 ∧
        RosterFrom env it.m_useNumpy b it1.m_currentBatchConverters ∧
        (it1.calls = it.calls ++ [Call.initColumnConverters (it.m_currentBatchIndex + 1)] ∨
          ∃ n : Nat, it1.calls = it.calls ++
            Call.initColumnConverters (it.m_currentBatchIndex + 1) ::
              Call.createRowPyObject (it.m_currentBatchIndex + 1) 0 ::
                (List.range' 0 n).map (fun j => Call.toPyObject j 0))) ∨
    (¬ it.m_rowIndexInBatch + 1 < it.m_rowCountInBatch ∧
      ¬ it.m_currentBatchIndex + 1 < it.m_batchCount ∧ rv = exhausted ∧ it1 = stepEnd it) := by
  rcases next_log env it it1 rv h with ⟨a1, a2, a3⟩ | ⟨b1, b2, ⟨b, hb, hfrom⟩, hcalls⟩ | hC
  · rcases next_counters env it it1 rv h with ⟨_, hs⟩ | ⟨n1, _⟩ | ⟨n1, _⟩
    · exact Or.inl ⟨a1, hs, a2, a3⟩
    · exact absurd a1 n1
    · exact absurd a1 n1
  · rcases next_counters env it it1 rv h with ⟨p1, _⟩ | ⟨_, _, b3, hb3, hs⟩ | ⟨_, n2, _⟩
    · exact absurd p1 b1
    · rw [hb] at hb3
      injection hb3 with hb3
      subst hb3
      exact Or.inr (Or.inl ⟨b1, b2, b, hb, hs, hfrom, hcalls⟩)
    · exact absurd b2 n2
  · exact Or.inr (Or.inr hC)

theorem next_LogOk (env : Externals) (it it1 : CArrowChunkIterator) (rv : ReturnVal)
    (hc : CountersOk it) (hl : LogOk env it)
    (h : CArrowChunkIterator.next env it = Except.ok (rv, it1)) : LogOk env it1 := by
  obtain ⟨c1, c2, c3⟩ := hc
  obtain ⟨l1, l2, l3⟩ := hl
  rcases next_step env it it1 rv h with ⟨h1, hs, hros, n, hcalls⟩ |
    ⟨h1, h2, b, hb, hs, hfrom, hcalls⟩ | ⟨h1, h2, _, rfl⟩
  · obtain ⟨s1, s2, s3, s4, s5, s6, s7, s8⟩ := hs
    simp only [stepRow] at s1 s2 s3 s4 s5 s6 s7 s8
    obtain ⟨r0, r1⟩ := c3 h1
    have hmem : Call.initColumnConverters it.m_currentBatchIndex ∈ it.calls := by
      apply List.count_pos_iff.mp
      rw [l1 it.m_currentBatchIndex, if_pos ⟨r0, le_refl _, r1⟩]
      exact Nat.one_pos
    refine ⟨?_, ?_, ?_⟩
    · intro b
      rw [hcalls, List.count_append, List.count_eq_zero.mpr (rowCalls_not_init b _ _ _ n), s5, s4,
        l1 b]
      rfl
    · rw [hcalls]
      exact rowsAfterInit_rows _ _ _ _ n l2 hmem
    · intro i0 i1
      rw [s5, s4] at *
      rw [s1, s7, hros]
      exact l3 i0 i1
  · obtain ⟨s1, s2, s3, s4, s5, s6, s7, s8⟩ := hs
    simp only [stepBatch] at s1 s2 s3 s4 s5 s6 s7 s8
    refine ⟨?_, ?_, ?_⟩
    · intro b0
      have hcount : it1.calls.count (Call.initColumnConverters b0) =
          it.calls.count (Call.initColumnConverters b0) +
            (if b0 = it.m_currentBatchIndex + 1 then 1 else 0) := by
        rcases hcalls with hcalls | ⟨n, hcalls⟩
        · rw [hcalls, List.count_append, List.count_singleton]
          by_cases hb0 : b0 = it.m_currentBatchIndex + 1
          · simp [hb0]
          · have : ¬ (it.m_currentBatchIndex + 1 = b0) := fun hh => hb0 hh.symm
            simp [hb0, this]
        · rw [hcalls, List.count_append, List.count_cons,
            List.count_eq_zero.mpr (rowCalls_not_init b0 _ _ _ n)]
          by_cases hb0 : b0 = it.m_currentBatchIndex + 1
          · simp [hb0]
          · have : ¬ (it.m_currentBatchIndex + 1 = b0) := fun hh => hb0 hh.symm
            simp [hb0, this]
      rw [hcount, l1 b0, s5, s4]
      by_cases hb0 : b0 = it.m_currentBatchIndex + 1
      · subst hb0
        have hnot : ¬ (0 ≤ it.m_currentBatchIndex + 1 ∧
            it.m_currentBatchIndex + 1 ≤ it.m_currentBatchIndex ∧
            it.m_currentBatchIndex + 1 < it.m_batchCount) := by omega
        have hyes : 0 ≤ it.m_currentBatchIndex + 1 ∧
            it.m_currentBatchIndex + 1 ≤ it.m_currentBatchIndex + 1 ∧
            it.m_currentBatchIndex + 1 < it.m_batchCount := by omega
        rw [if_neg hnot, if_pos hyes]
        simp
      · simp only [hb0, if_false, Nat.add_zero]
        by_cases hin : 0 ≤ b0 ∧ b0 ≤ it.m_currentBatchIndex ∧ b0 < it.m_batchCount
        · rw [if_pos hin, if_pos (by omega)]
        · rw [if_neg hin, if_neg (by omega)]
    · rcases hcalls with hcalls | ⟨n, hcalls⟩
      · rw [hcalls]
        exact rowsAfterInit_init _ _ l2
      · have happ : it1.calls = (it.calls ++ [Call.initColumnConverters (it.m_currentBatchIndex + 1)]) ++
            Call.createRowPyObject (it.m_currentBatchIndex + 1) 0 ::
              (List.range' 0 n).map (fun j => Call.toPyObject j 0) := by
          rw [hcalls]
          simp
        rw [happ]
        exact rowsAfterInit_rows _ _ _ _ n (rowsAfterInit_init _ _ l2) (by simp)
    · intro _ _
      rw [s5, s1, s7]
      exact ⟨b, hb, hfrom⟩
  · refine ⟨?_, l2, ?_⟩
    · intro b0
      show it.calls.count (Call.initColumnConverters b0) =
        if 0 ≤ b0 ∧ b0 ≤ it.m_currentBatchIndex + 1 ∧ b0 < it.m_batchCount then 1 else 0
      rw [l1 b0]
      by_cases hin : 0 ≤ b0 ∧ b0 ≤ it.m_currentBatchIndex ∧ b0 < it.m_batchCount
      · rw [if_pos hin, if_pos (by omega)]
      · rw [if_neg hin, if_neg (by omega)]
    · intro i0 i1
      exfalso
      have : it.m_currentBatchIndex + 1 < it.m_batchCount := i1
      exact h2 this

theorem nextN_LogOk (env : Externals) :
    ∀ (n : Nat) (it it1 : CArrowChunkIterator) (rvs : List ReturnVal),
      CountersOk it → LogOk env it → nextN env n it = Except.ok (rvs, it1) → LogOk env it1 := by
  intro n
  induction n with
  | zero =>
    intro it it1 rvs _ hl h
    simp only [nextN] at h
    injection h with h
    injection h with _ hb
    subst hb
    exact hl
  | succ n ih =>
    intro it it1 rvs hc hl h
    obtain ⟨rv, itm, rvs1, hstep, hrest, _⟩ := nextN_uncons env n it it1 rvs h
    exact ih itm it1 rvs1 (next_CountersOk env it itm rv hc hstep).1
      (next_LogOk env it itm rv hc hl hstep) hrest

theorem new_LogOk (env : Externals) (batches : List RecordBatch) (use_numpy isDict : Bool) :
    LogOk env (CArrowChunkIterator.new batches use_numpy isDict) := by
  refine ⟨?_, ?_, ?_⟩
  · intro b
    have hnot : ¬ (0 ≤ b ∧ b ≤ (CArrowChunkIterator.new batches use_numpy isDict).m_currentBatchIndex ∧
        b < (CArrowChunkIterator.new batches use_numpy isDict).m_batchCount) := by
      intro hh
      have h1 : b ≤ -1 := hh.2.1
      omega
    rw [if_neg hnot]
    rfl
  · intro pre post b r heq
    have : (CArrowChunkIterator.new batches use_numpy isDict).calls = [] := rfl
    rw [this] at heq
    cases pre <;> simp at heq
  · intro h0
    exfalso
    have : (0 : Int) ≤ -1 := h0
    omega

/-- C15: in every state reached from the constructor by calls of `next()`,
the call record holds `initColumnConverters b` exactly once for every batch
index `b` the iterator has advanced to and never for another index (none above
the current one); every `createRowPyObject` for batch `b` comes after the
`initColumnConverters` for `b`; the roster holds only converters built from
columns of the current batch; and the call that advances to a batch runs
`initColumnConverters` for it first and once. -/
theorem rebuild_once_per_batch (env : Externals) (batches : List RecordBatch)
    (use_numpy isDict : Bool) (n : Nat) (rvs : List ReturnVal) (it : CArrowChunkIterator)
    (hrun : nextN env n (CArrowChunkIterator.new batches use_numpy isDict) = Except.ok (rvs, it)) :
    (∀ b : Int, it.calls.count (Call.initColumnConverters b) =
      if 0 ≤ b ∧ b ≤ it.m_currentBatchIndex ∧ b < (batches.length : Int) then 1 else 0) ∧
    RowsAfterInit it.calls ∧
    (0 ≤ it.m_currentBatchIndex → it.m_currentBatchIndex < (batches.length : Int) →
      ∃ b, batchAt batches it.m_currentBatchIndex = Except.ok b ∧
        RosterFrom env use_numpy b it.m_currentBatchConverters) ∧
    (∀ rv it1, CArrowChunkIterator.next env it = Except.ok (rv, it1) →
      it1.m_currentBatchIndex ≠ it.m_currentBatchIndex →
      it1.m_currentBatchIndex < (batches.length : Int) →
      ∃ extra, it1.calls = it.calls ++ Call.initColumnConverters it1.m_currentBatchIndex :: extra ∧
        ∀ b, Call.initColumnConverters b ∉ extra) := by
  obtain ⟨hc, hbs, _, _, hnp⟩ :=
    nextN_CountersOk env n _ it rvs (new_CountersOk batches use_numpy isDict) hrun
  have hl := nextN_LogOk env n _ it rvs (new_CountersOk batches use_numpy isDict)
    (new_LogOk env batches use_numpy isDict) hrun
  have hbs2 : it.m_cRecordBatches = batches := hbs
  have hnp2 : it.m_useNumpy = use_numpy := hnp
  have hbc : it.m_batchCount = (batches.length : Int) := by rw [hc.1, hbs2]
  obtain ⟨l1, l2, l3⟩ := hl
  rw [hbc, hbs2, hnp2] at l3
  refine ⟨?_, l2, l3, ?_⟩
  · intro b
    rw [l1 b, hbc]
  · intro rv it1 hstep hne hlt
    rcases next_step env it it1 rv hstep with ⟨_, hs, _, _⟩ |
      ⟨_, _, b, _, hs, _, hcalls⟩ | ⟨_, h2, _, hit⟩
    · exact absurd hs.2.2.2.2.1 hne
    · have hidx : it1.m_currentBatchIndex = it.m_currentBatchIndex + 1 := hs.2.2.2.2.1
      rw [hidx]
      rcases hcalls with hcalls | ⟨k, hcalls⟩
      · exact ⟨[], hcalls, fun b hb => by cases hb⟩
      · exact ⟨_, hcalls, fun b0 => rowCalls_not_init b0 _ _ _ k⟩
    · exfalso
      rw [hit] at hlt
      have : it.m_currentBatchIndex + 1 < (batches.length : Int) := hlt
      rw [hbc] at h2
      exact h2 this

theorem rebuild_once_per_batch_witness :
    (∀ b : Int, sampleAfterThree.calls.count (Call.initColumnConverters b) =
      if 0 ≤ b ∧ b ≤ sampleAfterThree.m_currentBatchIndex ∧ b < (sampleTwoBatches.length : Int)
        then 1 else 0) ∧
    RowsAfterInit sampleAfterThree.calls ∧
    (0 ≤ sampleAfterThree.m_currentBatchIndex →
      sampleAfterThree.m_currentBatchIndex < (sampleTwoBatches.length : Int) →
      ∃ b, batchAt sampleTwoBatches sampleAfterThree.m_currentBatchIndex = Except.ok b ∧
        RosterFrom sampleEnv false b sampleAfterThree.m_currentBatchConverters) ∧
    (∀ rv it1, CArrowChunkIterator.next sampleEnv sampleAfterThree = Except.ok (rv, it1) →
      it1.m_currentBatchIndex ≠ sampleAfterThree.m_currentBatchIndex →
      it1.m_currentBatchIndex < (sampleTwoBatches.length : Int) →
      ∃ extra, it1.calls =
          sampleAfterThree.calls ++ Call.initColumnConverters it1.m_currentBatchIndex :: extra ∧
        ∀ b, Call.initColumnConverters b ∉ extra) :=
  rebuild_once_per_batch sampleEnv sampleTwoBatches false false 3
    [⟨some (PyObject.Tuple [some (PyValue.Object 0)]), none⟩,
      ⟨some (PyObject.Tuple [some PyValue.None]), none⟩,
      ⟨some (PyObject.Tuple [some (PyValue.Object 0)]), none⟩]
    sampleAfterThree (by decide)

/-! ## Accesses in bounds -/

theorem dictLoop_ok (env : Externals) (roster : List IColumnConverter) (schema : List Field)
    (row : Int) :
    ∀ (n i : Nat) (d : List (String × PyValue)) (pyErr : Option PyException) (calls : List Call),
      i + n ≤ roster.length → i + n ≤ schema.length →
      ∃ d2 e2 calls2, dictLoop env roster schema row n i d pyErr calls =
        Except.ok (d2, e2, calls2) := by
  intro n
  induction n with
  | zero =>
    intro i d pyErr calls _ _
    exact ⟨d, pyErr, calls, rfl⟩
  | succ n ih =>
    intro i d pyErr calls h1 h2
    have hi1 : i < roster.length := by omega
    have hi2 : i < schema.length := by omega
    simp only [dictLoop, List.getElem?_eq_getElem hi1, List.getElem?_eq_getElem hi2]
    cases hobj : (roster[i].toPyObject env row).obj with
    | none =>
      simp only [UniqueRef.empty, Option.isNone, if_true]
      exact ih _ _ _ _ (by omega) (by omega)
    | some v =>
      simp only [UniqueRef.empty, Option.isNone, Bool.false_eq_true, if_false]
      exact ih _ _ _ _ (by omega) (by omega)

theorem this_createRowPyObject_total (env : Externals) (it : CArrowChunkIterator) (N : Nat)
    (ht : it.isDict = false → it.m_columnCount.toNat = N)
    (hd : it.isDict = true → ∃ sch, it.m_currentSchema = some sch ∧ sch.length = N)
    (hlen : N ≤ it.m_currentBatchConverters.length) :
    ∃ it2, this_createRowPyObject env it = Except.ok it2 ∧
      it2.calls = it.calls ++
        Call.createRowPyObject it.m_currentBatchIndex it.m_rowIndexInBatch ::
          (List.range' 0 N).map (fun j => Call.toPyObject j it.m_rowIndexInBatch) := by
  cases hdict : it.isDict with
  | false =>
    have hN := ht hdict
    have hloop := tupleLoop_eq env it.m_currentBatchConverters it.m_rowIndexInBatch
      it.m_columnCount.toNat 0 [] it.pyErr
      (it.calls ++ [Call.createRowPyObject it.m_currentBatchIndex it.m_rowIndexInBatch])
      (by omega)
    have hcreate : this_createRowPyObject env it =
        CArrowChunkIterator.createRowPyObject env it := by
      simp [this_createRowPyObject, hdict]
    rw [hcreate]
    unfold CArrowChunkIterator.createRowPyObject
    rw [hloop]
    refine ⟨_, rfl, ?_⟩
    simp [hN]
  | true =>
    obtain ⟨sch, hsch, hN⟩ := hd hdict
    obtain ⟨d2, e2, calls2, hloop⟩ := dictLoop_ok env it.m_currentBatchConverters sch
      it.m_rowIndexInBatch sch.length 0 [] it.pyErr
      (it.calls ++ [Call.createRowPyObject it.m_currentBatchIndex it.m_rowIndexInBatch])
      (by omega) (by omega)
    have hcalls := dictLoop_calls env _ _ _ _ _ _ _ _ _ _ _ hloop
    have hcreate : this_createRowPyObject env it =
        DictCArrowChunkIterator.createRowPyObject env it := by
      simp [this_createRowPyObject, hdict]
    rw [hcreate]
    unfold DictCArrowChunkIterator.createRowPyObject
    simp only [hsch, hloop]
    refine ⟨_, rfl, ?_⟩
    simp [hcalls, hN]

theorem rosterOf_complete (env : Externals) (m_useNumpy : Bool) (b : RecordBatch)
    (h : ∃ roster, initColumns env m_useNumpy b.columns [] none = Except.ok (roster, none)) :
    initColumns env m_useNumpy b.columns [] none =
        Except.ok (rosterOf env m_useNumpy b, none) ∧
      (rosterOf env m_useNumpy b).length = b.columns.length ∧
      ∀ (i : Nat) (col : Column), b.columns[i]? = some col →
        ∃ c, (rosterOf env m_useNumpy b)[i]? = some c ∧
          initColumn env m_useNumpy col = Except.ok (ColumnInit.push c) := by
  obtain ⟨roster, hr⟩ := h
  have hro := rosterOf_eq env m_useNumpy b roster none hr
  rw [hro]
  have hlen : roster.length = b.columns.length := by
    simpa using initColumns_complete env m_useNumpy b.columns [] roster none hr
  refine ⟨hr, hlen, ?_⟩
  intro i col hcol
  have hi : i < b.columns.length := by
    by_contra hcon
    rw [List.getElem?_eq_none (Nat.le_of_not_lt hcon)] at hcol
    cases hcol
  have hi2 : i < roster.length := by omega
  obtain ⟨_, _, g⟩ := initColumns_get env m_useNumpy b.columns [] roster none none hr
  obtain ⟨col2, hcol2, hpush⟩ := g i roster[i] (by
    simp only [List.length_nil, Nat.zero_add]
    exact List.getElem?_eq_getElem hi2)
  rw [hcol] at hcol2
  injection hcol2 with hcol2
  subst hcol2
  exact ⟨roster[i], List.getElem?_eq_getElem hi2, hpush⟩

theorem settle_cases (it2 : CArrowChunkIterator) :
    ∃ rv it1,
      (match it2.pyErr with
        | some e => (Except.ok ({ successObj := none, exception := some e }, fetchErr it2 e) :
            Except Abort (ReturnVal × CArrowChunkIterator))
        | none => Except.ok ({ successObj := it2.m_latestReturnedRow, exception := none }, it2)) =
        Except.ok (rv, it1) ∧
      sameCounters it2 it1 ∧ it1.m_currentBatchConverters = it2.m_currentBatchConverters ∧
      it1.m_currentSchema = it2.m_currentSchema ∧ it1.calls = it2.calls ∧ it1.pyErr = none := by
  cases he : it2.pyErr with
  | none => exact ⟨_, it2, rfl, ⟨rfl, rfl, rfl, rfl, rfl, rfl, rfl, rfl⟩, rfl, rfl, rfl, he⟩
  | some e =>
    exact ⟨_, fetchErr it2 e, rfl, ⟨rfl, rfl, rfl, rfl, rfl, rfl, rfl, rfl⟩, rfl, rfl, rfl, rfl⟩

theorem new_Safe (env : Externals) (batches : List RecordBatch) (use_numpy isDict : Bool) :
    Safe env batches use_numpy (CArrowChunkIterator.new batches use_numpy isDict) := by
  refine ⟨rfl, rfl, ?_, rfl, rfl, ?_, ?_⟩
  · cases batches <;> rfl
  · show (-1 : Int) ≤ -1
    omega
  · intro h
    have h2 : (-1 : Int) + 1 < 0 := h
    omega

theorem safe_step (env : Externals) (batches : List RecordBatch) (use_numpy : Bool)
    (hrows : ∀ b ∈ batches, 1 ≤ b.num_rows)
    (hcols : ∀ b ∈ batches, b.columns.length = firstBatchColumns batches)
    (hbuild : ∀ b ∈ batches, ∃ roster,
      initColumns env use_numpy b.columns [] none = Except.ok (roster, none))
    (it : CArrowChunkIterator) (hsafe : Safe env batches use_numpy it) :
    ∃ rv it1, CArrowChunkIterator.next env it = Except.ok (rv, it1) ∧
      Safe env batches use_numpy it1 ∧
      ((rv = exhausted ∧ it1.calls = it.calls) ∨ RowServed env batches use_numpy it it1) := by
  obtain ⟨hbs, hbc, hcc, hnp, herr, hidx, hcur⟩ := hsafe
  by_cases h1 : it.m_rowIndexInBatch + 1 < it.m_rowCountInBatch
  · obtain ⟨hrow0, b, hb, hrc, hros, hsch⟩ := hcur h1
    have hmem := (batchAt_mem batches _ b hb).1
    obtain ⟨_, hlen, hget⟩ := rosterOf_complete env use_numpy b (hbuild b hmem)
    obtain ⟨it2, hc, hcalls⟩ := this_createRowPyObject_total env (stepRow it) b.columns.length
      (by
        intro _
        show it.m_columnCount.toNat = _
        rw [hcc, hcols b hmem]
        simp)
      (by
        intro _
        exact ⟨b.schema, hsch, by simp [RecordBatch.schema]⟩)
      (by
        show _ ≤ it.m_currentBatchConverters.length
        rw [hros, hlen])
    obtain ⟨⟨f1, f2, f3, f4, f5, f6, f7, _⟩, fros, fsch, _⟩ :=
      this_createRowPyObject_frame env _ it2 hc
    obtain ⟨rv, it1, hm, ⟨g1, g2, g3, g4, g5, g6, g7, _⟩, gros, gsch, gcalls, gerr⟩ :=
      settle_cases it2
    have e2 : it1.m_rowIndexInBatch = it.m_rowIndexInBatch + 1 := by rw [g2, f2]; rfl
    have e5 : it1.m_currentBatchIndex = it.m_currentBatchIndex := by rw [g5, f5]; rfl
    have e6 : it1.m_rowCountInBatch = it.m_rowCountInBatch := by rw [g6, f6]; rfl
    have eros : it1.m_currentBatchConverters = rosterOf env use_numpy b := by
      rw [gros, fros]; exact hros
    refine ⟨rv, it1, ?_, ?_, Or.inr ?_⟩
    · rw [next_unfold, if_pos h1]
      simp only [hc]
      exact hm
    · refine ⟨?_, ?_, ?_, ?_, gerr, ?_, ?_⟩
      · rw [g1, f1]; exact hbs
      · rw [g4, f4]; exact hbc
      · rw [g3, f3]; exact hcc
      · rw [g7, f7]; exact hnp
      · rw [e5]; exact hidx
      · intro h
        rw [e2, e6] at h
        rw [e2, e5, e6]
        refine ⟨by omega, b, hb, hrc, eros, ?_⟩
        rw [gsch, fsch]
        exact hsch
    · refine ⟨b, ?_, ?_, ?_, ?_, ?_, [], Or.inl rfl, ?_⟩
      · rw [e5]; exact hb
      · rw [e2]; exact hrow0
      · rw [e2, ← hrc]; exact h1
      · rw [eros]; exact hlen
      · rw [eros]; exact hget
      · rw [gcalls, hcalls, e2, e5]
        simp [stepRow]
  · by_cases h2 : it.m_currentBatchIndex + 1 < it.m_batchCount
    · obtain ⟨b, hb⟩ := batchAt_of_range batches (it.m_currentBatchIndex + 1) (by omega)
        (by rw [← hbc]; exact h2)
      have hmem := (batchAt_mem batches _ b hb).1
      obtain ⟨hinit, hlen, hget⟩ := rosterOf_complete env use_numpy b (hbuild b hmem)
      have hi : CArrowChunkIterator.initColumnConverters env (stepBatch it b) =
          Except.ok { stepBatch it b with
            m_currentBatchConverters := rosterOf env use_numpy b
            m_currentSchema := some b.schema
            pyErr := none
            calls := (stepBatch it b).calls ++
              [Call.initColumnConverters (stepBatch it b).m_currentBatchIndex] } := by
        have hb2 : batchAt (stepBatch it b).m_cRecordBatches
            (stepBatch it b).m_currentBatchIndex = Except.ok b := by
          show batchAt it.m_cRecordBatches (it.m_currentBatchIndex + 1) = _
          rw [hbs]
          exact hb
        have hf2 : initColumns env (stepBatch it b).m_useNumpy b.columns []
            (stepBatch it b).pyErr = Except.ok (rosterOf env use_numpy b, none) := by
          show initColumns env it.m_useNumpy b.columns [] it.pyErr = _
          rw [herr, hnp]
          exact hinit
        simp only [CArrowChunkIterator.initColumnConverters, hb2, hf2]
      obtain ⟨it5, hc, hcalls⟩ := this_createRowPyObject_total env
        { stepBatch it b with
          m_currentBatchConverters := rosterOf env use_numpy b
          m_currentSchema := some b.schema
          pyErr := none
          calls := (stepBatch it b).calls ++
            [Call.initColumnConverters (stepBatch it b).m_currentBatchIndex] }
        b.columns.length
        (by
          intro _
          show it.m_columnCount.toNat = _
          rw [hcc, hcols b hmem]
          simp)
        (by
          intro _
          exact ⟨b.schema, rfl, by simp [RecordBatch.schema]⟩)
        (by
          show _ ≤ (rosterOf env use_numpy b).length
          rw [hlen])
      obtain ⟨⟨f1, f2, f3, f4, f5, f6, f7, _⟩, fros, fsch, _⟩ :=
        this_createRowPyObject_frame env _ it5 hc
      obtain ⟨rv, it1, hm, ⟨g1, g2, g3, g4, g5, g6, g7, _⟩, gros, gsch, gcalls, gerr⟩ :=
        settle_cases it5
      have e2 : it1.m_rowIndexInBatch = 0 := by rw [g2, f2]; rfl
      have e5 : it1.m_currentBatchIndex = it.m_currentBatchIndex + 1 := by rw [g5, f5]; rfl
      have e6 : it1.m_rowCountInBatch = b.num_rows := by rw [g6, f6]; rfl
      have eros : it1.m_currentBatchConverters = rosterOf env use_numpy b := by
        rw [gros, fros]
      refine ⟨rv, it1, ?_, ?_, Or.inr ?_⟩
      · rw [next_unfold, if_neg h1, if_pos h2]
        have hb3 : batchAt it.m_cRecordBatches (it.m_currentBatchIndex + 1) = Except.ok b := by
          rw [hbs]
          exact hb
        simp only [hb3, hi, hc]
        exact hm
      · refine ⟨?_, ?_, ?_, ?_, gerr, ?_, ?_⟩
        · rw [g1, f1]; exact hbs
        · rw [g4, f4]; exact hbc
        · rw [g3, f3]; exact hcc
        · rw [g7, f7]; exact hnp
        · rw [e5]; omega
        · intro _
          rw [e2, e5, e6]
          refine ⟨by omega, b, hb, rfl, eros, ?_⟩
          rw [gsch, fsch]
      · refine ⟨b, ?_, ?_, ?_, ?_, ?_, [Call.initColumnConverters it1.m_currentBatchIndex],
          Or.inr rfl, ?_⟩
        · rw [e5]; exact hb
        · rw [e2]
        · rw [e2]
          have := hrows b hmem
          omega
        · rw [eros]; exact hlen
        · rw [eros]; exact hget
        · rw [gcalls, hcalls, e2, e5]
          simp [stepBatch]
    · refine ⟨exhausted, stepEnd it, ?_, ?_, Or.inl ⟨rfl, rfl⟩⟩
      · rw [next_unfold, if_neg h1, if_neg h2]
      · refine ⟨hbs, hbc, hcc, hnp, herr, ?_, ?_⟩
        · show -1 ≤ it.m_currentBatchIndex + 1
          omega
        · intro h
          have h3 : it.m_rowIndexInBatch + 1 + 1 < it.m_rowCountInBatch := h
          omega

theorem nextN_Safe (env : Externals) (batches : List RecordBatch) (use_numpy : Bool)
    (hrows : ∀ b ∈ batches, 1 ≤ b.num_rows)
    (hcols : ∀ b ∈ batches, b.columns.length = firstBatchColumns batches)
    (hbuild : ∀ b ∈ batches, ∃ roster,
      initColumns env use_numpy b.columns [] none = Except.ok (roster, none)) :
    ∀ (n : Nat) (it : CArrowChunkIterator), Safe env batches use_numpy it →
      ∃ rvs it2, nextN env n it = Except.ok (rvs, it2) ∧ Safe env batches use_numpy it2 := by
  intro n
  induction n with
  | zero =>
    intro it h
    exact ⟨[], it, rfl, h⟩
  | succ n ih =>
    intro it h
    obtain ⟨rv, it1, hstep, hs1, _⟩ := safe_step env batches use_numpy hrows hcols hbuild it h
    obtain ⟨rvs, it2, hrun, hs2⟩ := ih it1 hs1
    exact ⟨rv :: rvs, it2, nextN_cons env n it it1 it2 rv rvs hstep hrun, hs2⟩

/-- C20: when every batch has at least one row, every batch has as many
columns as the first batch, and every roster rebuild succeeds, any number of
calls of `next()` return without an out-of-bounds access, and so does the next
call; that call either signals exhaustion without calling anything, or runs
`createRowPyObject` once on a batch that exists, with a row index inside that
batch, with a roster that holds exactly one converter per column of that
batch in column order, and with one converter call per roster index
`0 .. columns - 1` at that row index. -/
theorem accesses_in_bounds (env : Externals) (batches : List RecordBatch)
    (use_numpy isDict : Bool)
    (hrows : ∀ b ∈ batches, 1 ≤ b.num_rows)
    (hcols : ∀ b ∈ batches, b.columns.length = firstBatchColumns batches)
    (hbuild : ∀ b ∈ batches, ∃ roster,
      initColumns env use_numpy b.columns [] none = Except.ok (roster, none))
    (n : Nat) :
    ∃ rvs it, nextN env n (CArrowChunkIterator.new batches use_numpy isDict) =
        Except.ok (rvs, it) ∧
      ∃ rv it1, CArrowChunkIterator.next env it = Except.ok (rv, it1) ∧
        ((rv = exhausted ∧ it1.calls = it.calls) ∨
          RowServed env batches use_numpy it it1) := by
  obtain ⟨rvs, it, hrun, hs⟩ := nextN_Safe env batches use_numpy hrows hcols hbuild n _
    (new_Safe env batches use_numpy isDict)
  obtain ⟨rv, it1, hstep, _, hd⟩ := safe_step env batches use_numpy hrows hcols hbuild it hs
  exact ⟨rvs, it, hrun, rv, it1, hstep, hd⟩

theorem accesses_in_bounds_witness :
    (∀ b ∈ sampleTwoBatches, 1 ≤ b.num_rows) ∧
    (∀ b ∈ sampleTwoBatches, b.columns.length = firstBatchColumns sampleTwoBatches) ∧
    (∀ b ∈ sampleTwoBatches, ∃ roster,
      initColumns sampleEnv false b.columns [] none = Except.ok (roster, none)) ∧
    ∃ rvs it, nextN sampleEnv 2 (CArrowChunkIterator.new sampleTwoBatches false true) =
        Except.ok (rvs, it) ∧
      ∃ rv it1, CArrowChunkIterator.next sampleEnv it = Except.ok (rv, it1) ∧
        ((rv = exhausted ∧ it1.calls = it.calls) ∨
          RowServed sampleEnv sampleTwoBatches false it it1) :=
  have hrows : ∀ b ∈ sampleTwoBatches, 1 ≤ b.num_rows := by
    intro b hb
    simp only [sampleTwoBatches, List.mem_cons, List.mem_singleton, List.not_mem_nil,
      or_false] at hb
    rcases hb with rfl | rfl <;> decide
  have hcols : ∀ b ∈ sampleTwoBatches,
      b.columns.length = firstBatchColumns sampleTwoBatches := by
    intro b hb
    simp only [sampleTwoBatches, List.mem_cons, List.mem_singleton, List.not_mem_nil,
      or_false] at hb
    rcases hb with rfl | rfl <;> rfl
  have hbuild : ∀ b ∈ sampleTwoBatches, ∃ roster,
      initColumns sampleEnv false b.columns [] none = Except.ok (roster, none) := by
    intro b hb
    simp only [sampleTwoBatches, List.mem_cons, List.mem_singleton, List.not_mem_nil,
      or_false] at hb
    rcases hb with rfl | rfl <;> exact ⟨_, rfl⟩
  ⟨hrows, hcols, hbuild,
    accesses_in_bounds sampleEnv sampleTwoBatches false true hrows hcols hbuild 2⟩

/-! ## Reading integers from the metadata buffer -/

theorem stoiDigits_takeWhile (cs : List Char) :
    ∀ acc, stoiDigits (cs.takeWhile (fun c => c != Char.ofNat 0)) acc = stoiDigits cs acc := by
  induction cs with
  | nil => intro acc; rfl
  | cons c cs ih =>
    intro acc
    by_cases hc : c = Char.ofNat 0
    · subst hc
      simp [List.takeWhile, stoiDigits]
    · have hne : (c != Char.ofNat 0) = true := by simpa using hc
      simp only [List.takeWhile, hne, stoiDigits]
      rw [ih]

theorem stoiBody_takeWhile (cs : List Char) (neg : Bool) :
    stoiBody (cs.takeWhile (fun c => c != Char.ofNat 0)) neg = stoiBody cs neg := by
  cases cs with
  | nil => rfl
  | cons c cs =>
    by_cases hc : c = Char.ofNat 0
    · subst hc
      simp [List.takeWhile, stoiBody]
    · have hne : (c != Char.ofNat 0) = true := by simpa using hc
      have h := stoiDigits_takeWhile (c :: cs) 0
      simp only [List.takeWhile, hne] at h
      simp only [List.takeWhile, hne, stoiBody, h]

theorem dropWhile_takeWhile_nul (cs : List Char) :
    (cs.takeWhile (fun c => c != Char.ofNat 0)).dropWhile isspace =
      (cs.dropWhile isspace).takeWhile (fun c => c != Char.ofNat 0) := by
  induction cs with
  | nil => rfl
  | cons c cs ih =>
    by_cases hc : c = Char.ofNat 0
    · subst hc
      have h0 : isspace (Char.ofNat 0) = false := by decide
      simp [List.takeWhile, List.dropWhile, h0]
    · have hne : (c != Char.ofNat 0) = true := by simpa using hc
      cases hsp : isspace c with
      | true => simp only [List.takeWhile, hne, List.dropWhile, hsp, ih]
      | false => simp only [List.takeWhile, hne, List.dropWhile, hsp]

theorem stoi_mk (cs : List Char) :
    stoi (String.mk cs) =
      match cs.dropWhile isspace with
      | [] => Except.error Abort.invalid_argument
      | c :: r =>
        if c = '-' then stoiBody r true
        else if c = '+' then stoiBody r false
        else stoiBody (c :: r) false := by
  unfold stoi
  show (match cs.dropWhile isspace with
      | '-' :: cs => stoiBody cs true
      | '+' :: cs => stoiBody cs false
      | cs => stoiBody cs false) = _
  cases h : cs.dropWhile isspace with
  | nil => rfl
  | cons c r =>
    by_cases h1 : c = '-'
    · subst h1; rfl
    · by_cases h2 : c = '+'
      · subst h2; rfl
      · simp only [if_neg h1, if_neg h2]
        split
        · rename_i heq
          injection heq with heq _
          exact absurd heq h1
        · rename_i heq
          injection heq with heq _
          exact absurd heq h2
        · rfl

theorem stoi_takeWhile (cs : List Char) :
    stoi (String.mk (cs.takeWhile (fun c => c != Char.ofNat 0))) = stoi (String.mk cs) := by
  rw [stoi_mk, stoi_mk, dropWhile_takeWhile_nul]
  cases h : cs.dropWhile isspace with
  | nil => rfl
  | cons c r =>
    by_cases hc : c = Char.ofNat 0
    · subst hc
      have h1 : Char.ofNat 0 ≠ '-' := by decide
      have h2 : Char.ofNat 0 ≠ '+' := by decide
      have h3 : (Char.ofNat 0).isDigit = false := by decide
      simp [List.takeWhile, h1, h2, stoiBody, h3]
    · have hne : (c != Char.ofNat 0) = true := by simpa using hc
      have hb := stoiBody_takeWhile (c :: r) false
      simp only [List.takeWhile, hne] at hb
      simp only [List.takeWhile, hne, stoiBody_takeWhile, hb]

theorem stoiDigits_append (t : List Char) (ht : ∀ c, t.head? = some c → c.isDigit = false)
    (cs : List Char) :
    ∀ acc, stoiDigits (cs ++ t) acc = stoiDigits cs acc := by
  induction cs with
  | nil =>
    intro acc
    cases t with
    | nil => rfl
    | cons c t => simp [stoiDigits, ht c rfl]
  | cons c cs ih =>
    intro acc
    show stoiDigits (c :: (cs ++ t)) acc = stoiDigits (c :: cs) acc
    simp only [stoiDigits, ih]

theorem stoiBody_append (t : List Char) (ht : ∀ c, t.head? = some c → c.isDigit = false)
    (cs : List Char) (neg : Bool) (hcs : cs ≠ []) :
    stoiBody (cs ++ t) neg = stoiBody cs neg := by
  cases cs with
  | nil => exact absurd rfl hcs
  | cons c cs =>
    have h := stoiDigits_append t ht (c :: cs) 0
    simp only [List.cons_append] at h
    simp only [List.cons_append, stoiBody, h]

theorem dropWhile_append_of_ne_nil (p : Char → Bool) (l t : List Char)
    (h : l.dropWhile p ≠ []) : (l ++ t).dropWhile p = l.dropWhile p ++ t := by
  induction l with
  | nil => exact absurd rfl h
  | cons c l ih =>
    cases hp : p c with
    | true =>
      simp only [List.dropWhile, hp] at h
      simp only [List.cons_append, List.dropWhile, hp]
      exact ih h
    | false =>
      show List.dropWhile p (c :: (l ++ t)) = List.dropWhile p (c :: l) ++ t
      simp only [List.dropWhile, hp, List.cons_append]

theorem stoi_append (v t : List Char) (n : Int)
    (ht : ∀ c, t.head? = some c → c.isDigit = false)
    (hv : stoi (String.mk v) = Except.ok n) :
    stoi (String.mk (v ++ t)) = Except.ok n := by
  rw [stoi_mk] at hv
  rw [stoi_mk]
  cases hd : v.dropWhile isspace with
  | nil => simp [hd] at hv
  | cons c r =>
    rw [dropWhile_append_of_ne_nil isspace v t (by rw [hd]; simp), hd]
    simp only [hd] at hv
    simp only [List.cons_append]
    have hr : ∀ neg, stoiBody r neg = Except.ok n → stoiBody (r ++ t) neg = Except.ok n := by
      intro neg h
      have hne : r ≠ [] := by
        intro h0
        subst h0
        simp [stoiBody] at h
      rw [stoiBody_append t ht r neg hne]
      exact h
    by_cases h1 : c = '-'
    · rw [if_pos h1] at hv ⊢
      exact hr true hv
    · rw [if_neg h1] at hv ⊢
      by_cases h2 : c = '+'
      · rw [if_pos h2] at hv ⊢
        exact hr false hv
      · rw [if_neg h2] at hv ⊢
        have := stoiBody_append t ht (c :: r) false (by simp)
        simp only [List.cons_append] at this
        rw [this]
        exact hv

theorem ArrowMetadataGetValue_lookup (key : String) (md : List (String × String)) :
    (ArrowMetadataGetValue md key).map Prod.fst = md.lookup key := by
  induction md with
  | nil => rfl
  | cons p md ih =>
    obtain ⟨k, v⟩ := p
    by_cases hk : k = key
    · subst hk
      simp [ArrowMetadataGetValue, List.lookup]
    · have hk2 : (key == k) = false := by
        simp only [beq_eq_false_iff_ne, ne_eq]
        exact fun h => hk h.symm
      simp only [ArrowMetadataGetValue, if_neg hk, List.lookup, hk2, ih]

theorem stoiData_eq_stoiKey (md : List (String × String)) (key : String) (n : Int)
    (hv : stoiKey md key = Except.ok n) (hd : valueDelimited md key = true) :
    stoiData md key = Except.ok n := by
  have hl := ArrowMetadataGetValue_lookup key md
  unfold stoiKey at hv
  unfold stoiData
  unfold valueDelimited at hd
  cases hg : ArrowMetadataGetValue md key with
  | none =>
    rw [hg] at hl
    simp only [Option.map] at hl
    rw [← hl] at hv
    simp at hv
  | some view =>
    obtain ⟨v, rest⟩ := view
    rw [hg] at hl hd
    simp only [Option.map] at hl
    rw [← hl] at hv
    simp only at hv ⊢
    unfold cString
    rw [stoi_takeWhile]
    apply stoi_append v.data rest n _ hv
    intro c hc
    cases rest with
    | nil => simp at hc
    | cons c2 rest2 =>
      simp only [List.head?_cons, Option.some.injEq] at hc
      subst hc
      simpa using hd

/-! ## The scale the factory reads -/

/-- C8 (as amended): in standard mode, a FIXED column that the factory accepts
and for which the factory reads the scale 0 gets `IntConverter` when it is
stored as int8, int16, int32 or int64, and `DecimalFromDecimalConverter` with
scale 0 when it is stored as decimal128. The factory reads the scale with
`std::stoi` on the C string that starts at the scale value in the metadata
buffer; it reads 0, and the same conclusion holds, whenever the scale value
parses as 0 and is not followed by a decimal digit in the buffer. -/
theorem fixed_scale_zero_standard (env : Externals) (col : Column) (c : IColumnConverter)
    (hreg : col.logicalType env = SnowflakeType.FIXED)
    (hacc : initColumn env false col = Except.ok (ColumnInit.push c)) :
    (metaIntData col.field.metadata "scale" 0 = Except.ok 0 →
      (isFixedInt col.field.type = true ∧ c = ⟨ConverterKind.IntConverter, col.array⟩) ∨
      (col.field.type = ArrowType.NANOARROW_TYPE_DECIMAL128 ∧
        c = ⟨ConverterKind.DecimalFromDecimalConverter 0, col.array⟩)) ∧
    (∀ md, col.field.metadata = some md → stoiKey md "scale" = Except.ok 0 →
      valueDelimited md "scale" = true →
      (isFixedInt col.field.type = true ∧ c = ⟨ConverterKind.IntConverter, col.array⟩) ∨
      (col.field.type = ArrowType.NANOARROW_TYPE_DECIMAL128 ∧
        c = ⟨ConverterKind.DecimalFromDecimalConverter 0, col.array⟩)) := by
  have hread : metaIntData col.field.metadata "scale" 0 = Except.ok 0 →
      (isFixedInt col.field.type = true ∧ c = ⟨ConverterKind.IntConverter, col.array⟩) ∨
      (col.field.type = ArrowType.NANOARROW_TYPE_DECIMAL128 ∧
        c = ⟨ConverterKind.DecimalFromDecimalConverter 0, col.array⟩) := by
    intro hs
    rw [initColumn_FIXED env false col hreg] at hacc
    cases hp : metaIntData col.field.metadata "precision" 38 with
    | error a => simp [initFIXED, hs, hp] at hacc
    | ok precision =>
      by_cases ht : isFixedInt col.field.type = true
      · left
        rw [initFIXED_int false col 0 precision hs hp ht] at hacc
        refine ⟨ht, ?_⟩
        simp [SF_INIT_FIXED_CONVERTER] at hacc
        exact hacc.symm
      · right
        have ht2 : isFixedInt col.field.type = false := by simpa using ht
        by_cases hd : col.field.type = ArrowType.NANOARROW_TYPE_DECIMAL128
        · rw [initFIXED_decimal128 false col 0 precision hs hp hd] at hacc
          refine ⟨hd, ?_⟩
          simp at hacc
          exact hacc.symm
        · rw [initFIXED_other false col 0 precision hs hp ht2 hd] at hacc
          simp at hacc
  refine ⟨hread, ?_⟩
  intro md hmd hv hdel
  apply hread
  rw [hmd]
  exact stoiData_eq_stoiKey md "scale" 0 hv hdel

theorem fixed_scale_zero_standard_witness :
    ((isFixedInt sampleFixedInt64.field.type = true ∧
        (⟨ConverterKind.IntConverter, sampleArray⟩ : IColumnConverter) =
          ⟨ConverterKind.IntConverter, sampleFixedInt64.array⟩) ∨
      (sampleFixedInt64.field.type = ArrowType.NANOARROW_TYPE_DECIMAL128 ∧
        (⟨ConverterKind.IntConverter, sampleArray⟩ : IColumnConverter) =
          ⟨ConverterKind.DecimalFromDecimalConverter 0, sampleFixedInt64.array⟩)) ∧
    ((isFixedInt sampleFixedDecimal128.field.type = true ∧
        (⟨ConverterKind.DecimalFromDecimalConverter 0, sampleArray⟩ : IColumnConverter) =
          ⟨ConverterKind.IntConverter, sampleFixedDecimal128.array⟩) ∨
      (sampleFixedDecimal128.field.type = ArrowType.NANOARROW_TYPE_DECIMAL128 ∧
        (⟨ConverterKind.DecimalFromDecimalConverter 0, sampleArray⟩ : IColumnConverter) =
          ⟨ConverterKind.DecimalFromDecimalConverter 0, sampleFixedDecimal128.array⟩)) :=
  ⟨(fixed_scale_zero_standard sampleEnv sampleFixedInt64
      ⟨ConverterKind.IntConverter, sampleArray⟩ (by decide) (by decide)).1 (by decide),
   (fixed_scale_zero_standard sampleEnv sampleFixedDecimal128
      ⟨ConverterKind.DecimalFromDecimalConverter 0, sampleArray⟩ (by decide) (by decide)).2
      [("logicalType", "FIXED"), ("scale", "0"), ("precision", "38")] rfl (by decide)
      (by decide)⟩

/-- C8 (counterexample): a FIXED column stored as decimal128 whose scale
metadata is 0 is accepted in standard mode and gets
`DecimalFromDecimalConverter`, not `IntConverter`. And a FIXED column stored
as int32 whose scale metadata is 0 and is followed in the buffer by a key of
49 bytes is accepted and gets `DecimalFromIntConverter 5 1`: the length byte 49
is the digit `1`, and the factory reads the scale 1. -/
theorem fixed_scale_zero_decimal128_not_int :
    sampleFixedDecimal128.logicalType sampleEnv = SnowflakeType.FIXED ∧
    stoiKey [("logicalType", "FIXED"), ("scale", "0"), ("precision", "38")] "scale" =
      Except.ok 0 ∧
    metaIntData sampleFixedDecimal128.field.metadata "scale" 0 = Except.ok 0 ∧
    initColumn sampleEnv false sampleFixedDecimal128 =
      Except.ok (ColumnInit.push ⟨ConverterKind.DecimalFromDecimalConverter 0, sampleArray⟩) ∧
    (¬ ∃ a, initColumn sampleEnv false sampleFixedDecimal128 =
      Except.ok (ColumnInit.push ⟨ConverterKind.IntConverter, a⟩)) ∧
    stoiKey [("logicalType", "FIXED"), ("scale", "0"), (sampleKey 49, "v"), ("precision", "5")]
      "scale" = Except.ok 0 ∧
    initColumn sampleEnv false
        (sampleFollowed "FIXED" ArrowType.NANOARROW_TYPE_INT32 "0" 49) =
      Except.ok (ColumnInit.push ⟨ConverterKind.DecimalFromIntConverter 5 1, sampleArray⟩) := by
  refine ⟨by decide, by decide, by decide, by decide, ?_, by decide, by decide⟩
  rintro ⟨a, h⟩
  rw [show initColumn sampleEnv false sampleFixedDecimal128 =
    Except.ok (ColumnInit.push ⟨ConverterKind.DecimalFromDecimalConverter 0, sampleArray⟩)
    from by decide] at h
  simp at h

/-- C9 (the code at the failing input): an int32 FIXED column whose metadata
holds, in this order, the scale 2, a pair whose key has 49 bytes, and the
precision 5. The scale value parses as 2, but `std::stoi` is handed the C
string that starts at the value and runs into the length byte of the next key
(49, the digit `1`): it reads `21`, and in standard mode the factory installs
`DecimalFromIntConverter 5 21`. The same column with the precision right after
the scale gets `DecimalFromIntConverter 5 2`. -/
theorem fixed_scale_read_past_value :
    stoiKey [("logicalType", "FIXED"), ("scale", "2"), (sampleKey 49, "v"), ("precision", "5")]
      "scale" = Except.ok 2 ∧
    (ArrowMetadataGetValue
        [("logicalType", "FIXED"), ("scale", "2"), (sampleKey 49, "v"), ("precision", "5")]
        "scale").map cString = some "21" ∧
    initColumn sampleEnv false
        (sampleFollowed "FIXED" ArrowType.NANOARROW_TYPE_INT32 "2" 49) =
      Except.ok (ColumnInit.push ⟨ConverterKind.DecimalFromIntConverter 5 21, sampleArray⟩) ∧
    initColumn sampleEnv false sampleFixedInt32 =
      Except.ok (ColumnInit.push ⟨ConverterKind.DecimalFromIntConverter 5 2, sampleArray⟩) := by
  decide

/-- C16 (the code at the failing input): a TIMESTAMP_NTZ column stored as
int64 whose metadata holds the scale 3 followed by a pair whose key has 53
bytes. The scale value parses as 3, but `std::stoi` is handed the C string
that starts at the value and runs into the length byte of the next key (53,
the digit `5`): in standard mode the factory installs
`OneFieldTimeStampNTZConverter 35`. A TIMESTAMP_LTZ column with the same
metadata, whose case parses the `std::string` of the value, gets
`OneFieldTimeStampLTZConverter 3`. -/
theorem timestamp_ntz_scale_read_past_value :
    stoiKey
      [("logicalType", "TIMESTAMP_NTZ"), ("scale", "3"), (sampleKey 53, "v"), ("precision", "5")]
      "scale" = Except.ok 3 ∧
    initColumn sampleEnv false
        (sampleFollowed "TIMESTAMP_NTZ" ArrowType.NANOARROW_TYPE_INT64 "3" 53) =
      Except.ok (ColumnInit.push
        ⟨ConverterKind.OneFieldTimeStampNTZConverter 35, sampleArray⟩) ∧
    initColumn sampleEnv false
        (sampleFollowed "TIMESTAMP_LTZ" ArrowType.NANOARROW_TYPE_INT64 "3" 53) =
      Except.ok (ColumnInit.push
        ⟨ConverterKind.OneFieldTimeStampLTZConverter 3, sampleArray⟩) := by
  decide

/-- C17 (the code at the failing input): a TIME column stored as int64 whose
metadata holds the scale 3 followed by a pair whose key has 53 bytes. The
scale value parses as 3, but `std::stoi` is handed the C string that starts at
the value and runs into the length byte of the next key (53, the digit `5`):
the factory installs `TimeConverter 35`. With the precision key (9 bytes)
right after the scale it installs `TimeConverter 3`. -/
theorem time_scale_read_past_value :
    stoiKey
      [("logicalType", "TIME"), ("scale", "3"), (sampleKey 53, "v"), ("precision", "5")]
      "scale" = Except.ok 3 ∧
    initColumn sampleEnv false (sampleFollowed "TIME" ArrowType.NANOARROW_TYPE_INT64 "3" 53) =
      Except.ok (ColumnInit.push ⟨ConverterKind.TimeConverter 35, sampleArray⟩) ∧
    initColumn sampleEnv false (sampleColumn "TIME" ArrowType.NANOARROW_TYPE_INT64) =
      Except.ok (ColumnInit.push ⟨ConverterKind.TimeConverter 3, sampleArray⟩) := by
  decide

/-! ## After a failed rebuild -/

theorem tupleLoop_abort (env : Externals) (roster : List IColumnConverter) (row : Int) :
    ∀ (n i : Nat) (items : List (Option PyValue)) (pyErr : Option PyException)
      (calls : List Call), roster.length < i + n → i ≤ roster.length →
      tupleLoop env roster row n i items pyErr calls = Except.error Abort.undefined := by
  intro n
  induction n with
  | zero =>
    intro i items pyErr calls h1 h2
    omega
  | succ n ih =>
    intro i items pyErr calls h1 h2
    simp only [tupleLoop]
    cases hget : roster[i]? with
    | none => rfl
    | some c =>
      have hi : i < roster.length := by
        by_contra hcon
        rw [List.getElem?_eq_none (Nat.le_of_not_lt hcon)] at hget
        cases hget
      exact ih _ _ _ _ (by omega) (by omega)

theorem dictLoop_abort (env : Externals) (roster : List IColumnConverter) (schema : List Field)
    (row : Int) :
    ∀ (n i : Nat) (d : List (String × PyValue)) (pyErr : Option PyException)
      (calls : List Call), roster.length < i + n → i ≤ roster.length →
      dictLoop env roster schema row n i d pyErr calls = Except.error Abort.undefined := by
  intro n
  induction n with
  | zero =>
    intro i d pyErr calls h1 h2
    omega
  | succ n ih =>
    intro i d pyErr calls h1 h2
    simp only [dictLoop]
    cases hget : roster[i]? with
    | none => rfl
    | some c =>
      have hi : i < roster.length := by
        by_contra hcon
        rw [List.getElem?_eq_none (Nat.le_of_not_lt hcon)] at hget
        cases hget
      simp only
      split
      · exact ih _ _ _ _ (by omega) (by omega)
      · split
        · exact ih _ _ _ _ (by omega) (by omega)
        · rfl

theorem this_createRowPyObject_abort (env : Externals) (it : CArrowChunkIterator) (N : Nat)
    (ht : it.isDict = false → it.m_columnCount.toNat = N)
    (hd : it.isDict = true → ∃ sch, it.m_currentSchema = some sch ∧ sch.length = N)
    (hlen : it.m_currentBatchConverters.length < N) :
    this_createRowPyObject env it = Except.error Abort.undefined := by
  cases hdict : it.isDict with
  | false =>
    have hN := ht hdict
    have hcreate : this_createRowPyObject env it =
        CArrowChunkIterator.createRowPyObject env it := by
      simp [this_createRowPyObject, hdict]
    rw [hcreate]
    unfold CArrowChunkIterator.createRowPyObject
    rw [tupleLoop_abort env _ _ _ 0 _ _ _ (by omega) (by omega)]
  | true =>
    obtain ⟨sch, hsch, hN⟩ := hd hdict
    have hcreate : this_createRowPyObject env it =
        DictCArrowChunkIterator.createRowPyObject env it := by
      simp [this_createRowPyObject, hdict]
    rw [hcreate]
    unfold DictCArrowChunkIterator.createRowPyObject
    simp only [hsch]
    rw [dictLoop_abort env _ _ _ _ 0 _ _ _ (by omega) (by omega)]

theorem next_in_batch_total (env : Externals) (it : CArrowChunkIterator) (N : Nat)
    (hin : it.m_rowIndexInBatch + 1 < it.m_rowCountInBatch)
    (ht : it.isDict = false → it.m_columnCount.toNat = N)
    (hd : it.isDict = true → ∃ sch, it.m_currentSchema = some sch ∧ sch.length = N)
    (hlen : N ≤ it.m_currentBatchConverters.length) :
    ∃ rv2 it2, CArrowChunkIterator.next env it = Except.ok (rv2, it2) ∧
      it2.m_currentBatchIndex = it.m_currentBatchIndex ∧
      it2.m_rowIndexInBatch = it.m_rowIndexInBatch + 1 ∧
      it2.m_currentBatchConverters = it.m_currentBatchConverters ∧
      it2.calls = it.calls ++
        Call.createRowPyObject it.m_currentBatchIndex (it.m_rowIndexInBatch + 1) ::
          (List.range' 0 N).map (fun j => Call.toPyObject j (it.m_rowIndexInBatch + 1)) := by
  obtain ⟨it3, hc, hcalls⟩ := this_createRowPyObject_total env (stepRow it) N ht hd hlen
  obtain ⟨⟨_, f2, _, _, f5, _, _, _⟩, fros, _, _⟩ := this_createRowPyObject_frame env _ it3 hc
  obtain ⟨rv, it2, hm, ⟨_, g2, _, _, g5, _, _, _⟩, gros, _, gcalls, _⟩ := settle_cases it3
  refine ⟨rv, it2, ?_, ?_, ?_, ?_, ?_⟩
  · rw [next_unfold, if_pos hin]
    simp only [hc]
    exact hm
  · rw [g5, f5]; rfl
  · rw [g2, f2]; rfl
  · rw [gros, fros]; rfl
  · rw [gcalls, hcalls]
    rfl

theorem next_in_batch_abort (env : Externals) (it : CArrowChunkIterator) (N : Nat)
    (hin : it.m_rowIndexInBatch + 1 < it.m_rowCountInBatch)
    (ht : it.isDict = false → it.m_columnCount.toNat = N)
    (hd : it.isDict = true → ∃ sch, it.m_currentSchema = some sch ∧ sch.length = N)
    (hlen : it.m_currentBatchConverters.length < N) :
    CArrowChunkIterator.next env it = Except.error Abort.undefined := by
  have hab := this_createRowPyObject_abort env (stepRow it) N ht hd hlen
  rw [next_unfold, if_pos hin]
  simp only [hab]

/-- C6 (as amended): the call of `next()` whose roster rebuild fails returns
the error in place of a row and materializes no row (it runs
`initColumnConverters` only). The iterator keeps no error state: the failed
batch stays current at row index 0 with the roster the rebuild left. When the
failed batch has at most one row, every later call that returns works on a
later batch index, so no row of the failed batch is served. When it has more
rows, the following call takes the in-batch path and runs `createRowPyObject`
for row 1 of the failed batch on the roster the rebuild left: if that roster
holds at least as many converters as the row has cells, the call returns, with
the batch index, row index 1 and roster in place, after one converter call per
cell at row 1; if it holds fewer, the call indexes past the end of the roster
and its behaviour is undefined. -/
theorem failed_rebuild_keeps_batch_current (env : Externals) (it : CArrowChunkIterator)
    (b : RecordBatch) (roster : List IColumnConverter) (e : PyException)
    (h1 : ¬ it.m_rowIndexInBatch + 1 < it.m_rowCountInBatch)
    (h2 : it.m_currentBatchIndex + 1 < it.m_batchCount)
    (hb : batchAt it.m_cRecordBatches (it.m_currentBatchIndex + 1) = Except.ok b)
    (hfail : initColumns env it.m_useNumpy b.columns [] it.pyErr = Except.ok (roster, some e)) :
    ∃ it1, CArrowChunkIterator.next env it = Except.ok (⟨none, some e⟩, it1) ∧
      it1.calls = it.calls ++ [Call.initColumnConverters (it.m_currentBatchIndex + 1)] ∧
      it1.m_latestReturnedRow = it.m_latestReturnedRow ∧
      it1.m_currentBatchIndex = it.m_currentBatchIndex + 1 ∧
      it1.m_rowIndexInBatch = 0 ∧ it1.m_rowCountInBatch = b.num_rows ∧
      it1.m_currentBatchConverters = roster ∧
      (b.num_rows ≤ 1 → ∀ n rvs it2, nextN env (n + 1) it1 = Except.ok (rvs, it2) →
        it.m_currentBatchIndex + 1 < it2.m_currentBatchIndex) ∧
      (1 < b.num_rows → cellsOf it b ≤ roster.length →
        ∃ rv2 it2, CArrowChunkIterator.next env it1 = Except.ok (rv2, it2) ∧
          it2.m_currentBatchIndex = it.m_currentBatchIndex + 1 ∧ it2.m_rowIndexInBatch = 1 ∧
          it2.m_currentBatchConverters = roster ∧
          it2.calls = it1.calls ++
            Call.createRowPyObject (it.m_currentBatchIndex + 1) 1 ::
              (List.range' 0 (cellsOf it b)).map (fun j => Call.toPyObject j 1)) ∧
      (1 < b.num_rows → roster.length < cellsOf it b →
        CArrowChunkIterator.next env it1 = Except.error Abort.undefined) := by
  have hcellsT : it.isDict = false → it.m_columnCount.toNat = cellsOf it b := by
    intro hd
    simp [cellsOf, hd]
  have hcellsD : it.isDict = true →
      ∃ sch, some b.schema = some sch ∧ sch.length = cellsOf it b := by
    intro hd
    exact ⟨b.schema, rfl, by simp [cellsOf, hd, RecordBatch.schema]⟩
  refine ⟨_, next_rebuild_fails env it b roster e h1 h2 hb hfail, rfl, rfl, rfl, rfl, rfl, rfl,
    ?_, ?_, ?_⟩
  · intro hrows n rvs it2 hrun
    simp only [nextN] at hrun
    cases hstep : CArrowChunkIterator.next env
        { stepBatch it b with
          m_currentBatchConverters := roster
          m_currentSchema := some b.schema
          pyErr := none
          m_currentPyException := some e
          calls := it.calls ++ [Call.initColumnConverters (it.m_currentBatchIndex + 1)] } with
    | error a => simp [hstep] at hrun
    | ok r =>
      obtain ⟨rv, itm⟩ := r
      simp only [hstep] at hrun
      cases hrest : nextN env n itm with
      | error a => simp [hrest] at hrun
      | ok r2 =>
        obtain ⟨rvs2, it3⟩ := r2
        simp only [hrest] at hrun
        injection hrun with hrun
        injection hrun with _ hit
        subst hit
        have hmono := nextN_idx_mono env n itm it3 rvs2 hrest
        have hm : it.m_currentBatchIndex + 1 + 1 = itm.m_currentBatchIndex := by
          rcases next_counters env _ itm rv hstep with ⟨hlt, _⟩ | ⟨_, _, b2, _, hs⟩ | ⟨_, _, _, rfl⟩
          · exfalso
            have hlt2 : (0 : Int) + 1 < b.num_rows := hlt
            omega
          · rw [hs.2.2.2.2.1]
            rfl
          · rfl
        omega
  · intro hrows hlen
    have hin : (0 : Int) + 1 < b.num_rows := by omega
    exact next_in_batch_total env _ (cellsOf it b) hin hcellsT hcellsD hlen
  · intro hrows hlen
    have hin : (0 : Int) + 1 < b.num_rows := by omega
    exact next_in_batch_abort env _ (cellsOf it b) hin hcellsT hcellsD hlen

theorem failed_rebuild_keeps_batch_current_witness :
    (∃ it1, CArrowChunkIterator.next sampleEnv
          (CArrowChunkIterator.new [sampleStructBatch] false false) =
        Except.ok (⟨none, some (PyException.unknown_arrow_type "FIXED"
          ArrowType.NANOARROW_TYPE_STRUCT)⟩, it1) ∧
      it1.m_rowIndexInBatch = 0 ∧ it1.m_rowCountInBatch = sampleStructBatch.num_rows ∧
      it1.m_currentBatchConverters = [⟨ConverterKind.StringConverter, sampleArray⟩] ∧
      CArrowChunkIterator.next sampleEnv it1 = Except.error Abort.undefined) ∧
    (∃ it1, CArrowChunkIterator.next sampleEnv
          (CArrowChunkIterator.new [sampleBadViewBatch] false false) =
        Except.ok (⟨none, some PyException.ArrowArrayViewInitFromSchema_failure⟩, it1) ∧
      ∃ rv2 it2, CArrowChunkIterator.next sampleEnv it1 = Except.ok (rv2, it2) ∧
        it2.m_currentBatchIndex =
          (CArrowChunkIterator.new [sampleBadViewBatch] false false).m_currentBatchIndex + 1 ∧
        it2.m_rowIndexInBatch = 1 ∧
        it2.m_currentBatchConverters = [⟨ConverterKind.StringConverter, sampleArray⟩] ∧
        it2.calls = it1.calls ++
          Call.createRowPyObject
              ((CArrowChunkIterator.new [sampleBadViewBatch] false false).m_currentBatchIndex + 1)
              1 ::
            (List.range' 0
              (cellsOf (CArrowChunkIterator.new [sampleBadViewBatch] false false)
                sampleBadViewBatch)).map (fun j => Call.toPyObject j 1)) ∧
    (∃ it1, CArrowChunkIterator.next sampleEnv
          (CArrowChunkIterator.new [⟨1, [sampleFixedStruct]⟩] false false) =
        Except.ok (⟨none, some (PyException.unknown_arrow_type "FIXED"
          ArrowType.NANOARROW_TYPE_STRUCT)⟩, it1) ∧
      (∀ n rvs it2, nextN sampleEnv (n + 1) it1 = Except.ok (rvs, it2) →
        (CArrowChunkIterator.new [⟨1, [sampleFixedStruct]⟩] false false).m_currentBatchIndex + 1 <
          it2.m_currentBatchIndex)) ∧
    Except.map (fun r => (r.1, r.2.m_currentBatchIndex))
        (nextN sampleEnv 2 (CArrowChunkIterator.new [⟨1, [sampleFixedStruct]⟩] false false)) =
      Except.ok ([⟨none, some (PyException.unknown_arrow_type "FIXED"
        ArrowType.NANOARROW_TYPE_STRUCT)⟩, exhausted], 1) :=
  ⟨match failed_rebuild_keeps_batch_current sampleEnv
        (CArrowChunkIterator.new [sampleStructBatch] false false) sampleStructBatch
        [⟨ConverterKind.StringConverter, sampleArray⟩]
        (PyException.unknown_arrow_type "FIXED" ArrowType.NANOARROW_TYPE_STRUCT)
        (by decide) (by decide) (by decide) (by decide) with
    | ⟨it1, hn, _, _, _, hrow, hcount, hros, _, _, hab⟩ =>
      ⟨it1, hn, hrow, hcount, hros, hab (by decide) (by decide)⟩,
   match failed_rebuild_keeps_batch_current sampleEnv
        (CArrowChunkIterator.new [sampleBadViewBatch] false false) sampleBadViewBatch
        [⟨ConverterKind.StringConverter, sampleArray⟩]
        PyException.ArrowArrayViewInitFromSchema_failure
        (by decide) (by decide) (by decide) (by decide) with
    | ⟨it1, hn, _, _, _, _, _, _, _, hserve, _⟩ =>
      ⟨it1, hn, hserve (by decide) (by decide)⟩,
   match failed_rebuild_keeps_batch_current sampleEnv
        (CArrowChunkIterator.new [⟨1, [sampleFixedStruct]⟩] false false) ⟨1, [sampleFixedStruct]⟩
        []
        (PyException.unknown_arrow_type "FIXED" ArrowType.NANOARROW_TYPE_STRUCT)
        (by decide) (by decide) (by decide) (by decide) with
    | ⟨it1, hn, _, _, _, _, _, _, hlater, _, _⟩ => ⟨it1, hn, hlater (by decide)⟩,
   by decide⟩

end sf
